import Mathlib

set_option maxRecDepth 100000
set_option maxHeartbeats 4000000

/-
Shallow embedding of the generated Zircon syscall header
src/arch/x64/sysroot/include/zircon/syscalls/definitions.h (1838 lines, 334
extern function prototypes).  Each prototype is transcribed as a CDecl value
recording its return type, symbol name, parameter list (with the optional
ZX_SYSCALL_PARAM_ATTR tag, the C type and the parameter name) and its trailing
attribute list (__NONNULL((..)), __LEAF_FN, __CONST, __NO_RETURN) in source
order.  CDecl.srcLines renders a declaration back to its exact source text.
The file itself is embedded verbatim, line by line, as fileLines; both the
declaration list and the line list are split into aligned chunks, appended
back together, to keep every list computation shallow.
-/

inductive CType where
  | bool
  | char_ptr
  | const_char_ptr
  | const_void_ptr
  | const_zx_channel_call_args_t_ptr
  | const_zx_futex_t_ptr
  | const_zx_handle_t_ptr
  | const_zx_pci_init_arg_t_ptr
  | const_zx_port_packet_t_ptr
  | const_zx_profile_info_t_ptr
  | const_zx_smc_parameters_t_ptr
  | const_zx_system_powerctl_arg_t_ptr
  | int
  | int32_t
  | int64_t
  | size_t
  | size_t_ptr
  | uint16_t
  | uint32_t
  | uint32_t_ptr
  | uint64_t
  | uint64_t_ptr
  | uint8_t
  | uintptr_t
  | void
  | void_ptr
  | zx_clock_t
  | zx_duration_t
  | zx_futex_t
  | zx_handle_info_t_ptr
  | zx_handle_t
  | zx_handle_t_ptr
  | zx_koid_t_ptr
  | zx_paddr_t
  | zx_paddr_t_ptr
  | zx_pci_bar_t_ptr
  | zx_pcie_device_info_t_ptr
  | zx_port_packet_t_ptr
  | zx_rights_t
  | zx_signals_t
  | zx_signals_t_ptr
  | zx_smc_result_t_ptr
  | zx_status_t
  | zx_ticks_t
  | zx_time_t
  | zx_time_t_ptr
  | zx_vaddr_t
  | zx_vaddr_t_ptr
  | zx_vm_option_t
  | zx_wait_item_t_ptr
deriving DecidableEq

def CType.render : CType → String
  | .bool => "bool"
  | .char_ptr => "char*"
  | .const_char_ptr => "const char*"
  | .const_void_ptr => "const void*"
  | .const_zx_channel_call_args_t_ptr => "const zx_channel_call_args_t*"
  | .const_zx_futex_t_ptr => "const zx_futex_t*"
  | .const_zx_handle_t_ptr => "const zx_handle_t*"
  | .const_zx_pci_init_arg_t_ptr => "const zx_pci_init_arg_t*"
  | .const_zx_port_packet_t_ptr => "const zx_port_packet_t*"
  | .const_zx_profile_info_t_ptr => "const zx_profile_info_t*"
  | .const_zx_smc_parameters_t_ptr => "const zx_smc_parameters_t*"
  | .const_zx_system_powerctl_arg_t_ptr => "const zx_system_powerctl_arg_t*"
  | .int => "int"
  | .int32_t => "int32_t"
  | .int64_t => "int64_t"
  | .size_t => "size_t"
  | .size_t_ptr => "size_t*"
  | .uint16_t => "uint16_t"
  | .uint32_t => "uint32_t"
  | .uint32_t_ptr => "uint32_t*"
  | .uint64_t => "uint64_t"
  | .uint64_t_ptr => "uint64_t*"
  | .uint8_t => "uint8_t"
  | .uintptr_t => "uintptr_t"
  | .void => "void"
  | .void_ptr => "void*"
  | .zx_clock_t => "zx_clock_t"
  | .zx_duration_t => "zx_duration_t"
  | .zx_futex_t => "zx_futex_t"
  | .zx_handle_info_t_ptr => "zx_handle_info_t*"
  | .zx_handle_t => "zx_handle_t"
  | .zx_handle_t_ptr => "zx_handle_t*"
  | .zx_koid_t_ptr => "zx_koid_t*"
  | .zx_paddr_t => "zx_paddr_t"
  | .zx_paddr_t_ptr => "zx_paddr_t*"
  | .zx_pci_bar_t_ptr => "zx_pci_bar_t*"
  | .zx_pcie_device_info_t_ptr => "zx_pcie_device_info_t*"
  | .zx_port_packet_t_ptr => "zx_port_packet_t*"
  | .zx_rights_t => "zx_rights_t"
  | .zx_signals_t => "zx_signals_t"
  | .zx_signals_t_ptr => "zx_signals_t*"
  | .zx_smc_result_t_ptr => "zx_smc_result_t*"
  | .zx_status_t => "zx_status_t"
  | .zx_ticks_t => "zx_ticks_t"
  | .zx_time_t => "zx_time_t"
  | .zx_time_t_ptr => "zx_time_t*"
  | .zx_vaddr_t => "zx_vaddr_t"
  | .zx_vaddr_t_ptr => "zx_vaddr_t*"
  | .zx_vm_option_t => "zx_vm_option_t"
  | .zx_wait_item_t_ptr => "zx_wait_item_t*"

inductive PTag where
  | features
  | handle_acquire
  | handle_release
  | handle_release_always
  | handle_use
  | out_pager_vmo
  | pager
deriving DecidableEq

def PTag.render : PTag → String
  | .features => "features"
  | .handle_acquire => "handle_acquire"
  | .handle_release => "handle_release"
  | .handle_release_always => "handle_release_always"
  | .handle_use => "handle_use"
  | .out_pager_vmo => "out_pager_vmo"
  | .pager => "pager"

inductive FnAttr where
  | nonnull (idxs : List Nat)
  | leaf_fn
  | const_fn
  | no_return
deriving DecidableEq

def renderNonnullIdxs : List Nat → String
  | [] => ""
  | [i] => toString i
  | i :: rest => toString i ++ ", " ++ renderNonnullIdxs rest

def FnAttr.render : FnAttr → String
  | .nonnull idxs => "__NONNULL((" ++ renderNonnullIdxs idxs ++ "))"
  | .leaf_fn => "__LEAF_FN"
  | .const_fn => "__CONST"
  | .no_return => "__NO_RETURN"

structure CParam where
  tag : Option PTag
  ty : CType
  name : String
deriving DecidableEq

structure CDecl where
  ret : CType
  name : String
  params : List CParam
  attrs : List FnAttr
deriving DecidableEq

def CParam.render (p : CParam) : String :=
  (match p.tag with
    | some t => "ZX_SYSCALL_PARAM_ATTR(" ++ t.render ++ ") "
    | none => "") ++ p.ty.render ++ " " ++ p.name

def attrsText (l : List FnAttr) : String :=
  String.intercalate " " (l.map FnAttr.render)

def paramLines (tl : String) : List String → List String
  | [] => []
  | [p] => ["    " ++ p ++ tl]
  | p :: ps => ("    " ++ p ++ ",") :: paramLines tl ps

/-- The exact source lines of one prototype, as printed in definitions.h. -/
def CDecl.srcLines (d : CDecl) : List String :=
  ("extern " ++ d.ret.render ++ " " ++ d.name ++ "(") ::
    paramLines (") " ++ attrsText d.attrs ++ ";")
      (match d.params with
        | [] => ["void"]
        | ps => ps.map CParam.render)

def strStarts (pre s : String) : Bool :=
  List.isPrefixOf pre.data s.data

def CType.isPtr (t : CType) : Bool :=
  t.render.data.getLast? == some (Char.ofNat 42)

/-- The indices listed in __NONNULL attributes of a declaration. -/
def CDecl.nonnullIdxs (d : CDecl) : List Nat :=
  d.attrs.flatMap fun a =>
    match a with
    | .nonnull idxs => idxs
    | _ => []

/-- The same declaration with an underscore prefixed to its symbol name. -/
def underscored (d : CDecl) : CDecl :=
  ⟨d.ret, "_" ++ d.name, d.params, d.attrs⟩

def d_zx_clock_get : CDecl :=
  ⟨.zx_time_t, "zx_clock_get", [⟨none, .zx_clock_t, "clock_id"⟩], [.leaf_fn]⟩

def d__zx_clock_get : CDecl :=
  ⟨.zx_time_t, "_zx_clock_get", [⟨none, .zx_clock_t, "clock_id"⟩], [.leaf_fn]⟩

def d_zx_clock_get_new : CDecl :=
  ⟨.zx_status_t, "zx_clock_get_new", [⟨none, .zx_clock_t, "clock_id"⟩, ⟨none, .zx_time_t_ptr, "out"⟩], [.nonnull [2], .leaf_fn]⟩

def d__zx_clock_get_new : CDecl :=
  ⟨.zx_status_t, "_zx_clock_get_new", [⟨none, .zx_clock_t, "clock_id"⟩, ⟨none, .zx_time_t_ptr, "out"⟩], [.nonnull [2], .leaf_fn]⟩

def d_zx_clock_get_monotonic : CDecl :=
  ⟨.zx_time_t, "zx_clock_get_monotonic", [], [.leaf_fn]⟩

def d__zx_clock_get_monotonic : CDecl :=
  ⟨.zx_time_t, "_zx_clock_get_monotonic", [], [.leaf_fn]⟩

def d_zx_nanosleep : CDecl :=
  ⟨.zx_status_t, "zx_nanosleep", [⟨none, .zx_time_t, "deadline"⟩], [.leaf_fn]⟩

def d__zx_nanosleep : CDecl :=
  ⟨.zx_status_t, "_zx_nanosleep", [⟨none, .zx_time_t, "deadline"⟩], [.leaf_fn]⟩

def d_zx_ticks_get : CDecl :=
  ⟨.zx_ticks_t, "zx_ticks_get", [], [.leaf_fn]⟩

def d__zx_ticks_get : CDecl :=
  ⟨.zx_ticks_t, "_zx_ticks_get", [], [.leaf_fn]⟩

def d_zx_ticks_per_second : CDecl :=
  ⟨.zx_ticks_t, "zx_ticks_per_second", [], [.leaf_fn, .const_fn]⟩

def d__zx_ticks_per_second : CDecl :=
  ⟨.zx_ticks_t, "_zx_ticks_per_second", [], [.leaf_fn, .const_fn]⟩

def d_zx_deadline_after : CDecl :=
  ⟨.zx_time_t, "zx_deadline_after", [⟨none, .zx_duration_t, "nanoseconds"⟩], [.leaf_fn]⟩

def d__zx_deadline_after : CDecl :=
  ⟨.zx_time_t, "_zx_deadline_after", [⟨none, .zx_duration_t, "nanoseconds"⟩], [.leaf_fn]⟩

def d_zx_clock_adjust : CDecl :=
  ⟨.zx_status_t, "zx_clock_adjust", [⟨some .handle_use, .zx_handle_t, "handle"⟩, ⟨none, .zx_clock_t, "clock_id"⟩, ⟨none, .int64_t, "offset"⟩], [.leaf_fn]⟩

def d__zx_clock_adjust : CDecl :=
  ⟨.zx_status_t, "_zx_clock_adjust", [⟨some .handle_use, .zx_handle_t, "handle"⟩, ⟨none, .zx_clock_t, "clock_id"⟩, ⟨none, .int64_t, "offset"⟩], [.leaf_fn]⟩

def d_zx_system_get_dcache_line_size : CDecl :=
  ⟨.uint32_t, "zx_system_get_dcache_line_size", [], [.leaf_fn, .const_fn]⟩

def d__zx_system_get_dcache_line_size : CDecl :=
  ⟨.uint32_t, "_zx_system_get_dcache_line_size", [], [.leaf_fn, .const_fn]⟩

def d_zx_system_get_num_cpus : CDecl :=
  ⟨.uint32_t, "zx_system_get_num_cpus", [], [.leaf_fn, .const_fn]⟩

def d__zx_system_get_num_cpus : CDecl :=
  ⟨.uint32_t, "_zx_system_get_num_cpus", [], [.leaf_fn, .const_fn]⟩

def d_zx_system_get_version : CDecl :=
  ⟨.zx_status_t, "zx_system_get_version", [⟨none, .char_ptr, "version"⟩, ⟨none, .size_t, "version_size"⟩], [.leaf_fn]⟩

def d__zx_system_get_version : CDecl :=
  ⟨.zx_status_t, "_zx_system_get_version", [⟨none, .char_ptr, "version"⟩, ⟨none, .size_t, "version_size"⟩], [.leaf_fn]⟩

def d_zx_system_get_physmem : CDecl :=
  ⟨.uint64_t, "zx_system_get_physmem", [], [.leaf_fn]⟩

def d__zx_system_get_physmem : CDecl :=
  ⟨.uint64_t, "_zx_system_get_physmem", [], [.leaf_fn]⟩

def d_zx_system_get_features : CDecl :=
  ⟨.zx_status_t, "zx_system_get_features", [⟨none, .uint32_t, "kind"⟩, ⟨some .features, .uint32_t_ptr, "features"⟩], [.nonnull [2], .leaf_fn]⟩

def d__zx_system_get_features : CDecl :=
  ⟨.zx_status_t, "_zx_system_get_features", [⟨none, .uint32_t, "kind"⟩, ⟨some .features, .uint32_t_ptr, "features"⟩], [.nonnull [2], .leaf_fn]⟩

def d_zx_cache_flush : CDecl :=
  ⟨.zx_status_t, "zx_cache_flush", [⟨none, .const_void_ptr, "addr"⟩, ⟨none, .size_t, "size"⟩, ⟨none, .uint32_t, "options"⟩], [.leaf_fn]⟩

def d__zx_cache_flush : CDecl :=
  ⟨.zx_status_t, "_zx_cache_flush", [⟨none, .const_void_ptr, "addr"⟩, ⟨none, .size_t, "size"⟩, ⟨none, .uint32_t, "options"⟩], [.leaf_fn]⟩

def d_zx_handle_close : CDecl :=
  ⟨.zx_status_t, "zx_handle_close", [⟨some .handle_release_always, .zx_handle_t, "handle"⟩], [.leaf_fn]⟩

def d__zx_handle_close : CDecl :=
  ⟨.zx_status_t, "_zx_handle_close", [⟨some .handle_release_always, .zx_handle_t, "handle"⟩], [.leaf_fn]⟩

def d_zx_handle_close_many : CDecl :=
  ⟨.zx_status_t, "zx_handle_close_many", [⟨none, .const_zx_handle_t_ptr, "handles"⟩, ⟨none, .size_t, "num_handles"⟩], [.leaf_fn]⟩

def d__zx_handle_close_many : CDecl :=
  ⟨.zx_status_t, "_zx_handle_close_many", [⟨none, .const_zx_handle_t_ptr, "handles"⟩, ⟨none, .size_t, "num_handles"⟩], [.leaf_fn]⟩

def d_zx_handle_duplicate : CDecl :=
  ⟨.zx_status_t, "zx_handle_duplicate", [⟨some .handle_use, .zx_handle_t, "handle"⟩, ⟨none, .zx_rights_t, "rights"⟩, ⟨some .handle_acquire, .zx_handle_t_ptr, "out"⟩], [.nonnull [3], .leaf_fn]⟩

def d__zx_handle_duplicate : CDecl :=
  ⟨.zx_status_t, "_zx_handle_duplicate", [⟨some .handle_use, .zx_handle_t, "handle"⟩, ⟨none, .zx_rights_t, "rights"⟩, ⟨some .handle_acquire, .zx_handle_t_ptr, "out"⟩], [.nonnull [3], .leaf_fn]⟩

def d_zx_handle_replace : CDecl :=
  ⟨.zx_status_t, "zx_handle_replace", [⟨some .handle_release_always, .zx_handle_t, "handle"⟩, ⟨none, .zx_rights_t, "rights"⟩, ⟨some .handle_acquire, .zx_handle_t_ptr, "out"⟩], [.nonnull [3], .leaf_fn]⟩

def d__zx_handle_replace : CDecl :=
  ⟨.zx_status_t, "_zx_handle_replace", [⟨some .handle_release_always, .zx_handle_t, "handle"⟩, ⟨none, .zx_rights_t, "rights"⟩, ⟨some .handle_acquire, .zx_handle_t_ptr, "out"⟩], [.nonnull [3], .leaf_fn]⟩

def d_zx_object_wait_one : CDecl :=
  ⟨.zx_status_t, "zx_object_wait_one", [⟨some .handle_use, .zx_handle_t, "handle"⟩, ⟨none, .zx_signals_t, "signals"⟩, ⟨none, .zx_time_t, "deadline"⟩, ⟨none, .zx_signals_t_ptr, "observed"⟩], [.leaf_fn]⟩

def d__zx_object_wait_one : CDecl :=
  ⟨.zx_status_t, "_zx_object_wait_one", [⟨some .handle_use, .zx_handle_t, "handle"⟩, ⟨none, .zx_signals_t, "signals"⟩, ⟨none, .zx_time_t, "deadline"⟩, ⟨none, .zx_signals_t_ptr, "observed"⟩], [.leaf_fn]⟩

def d_zx_object_wait_many : CDecl :=
  ⟨.zx_status_t, "zx_object_wait_many", [⟨none, .zx_wait_item_t_ptr, "items"⟩, ⟨none, .size_t, "count"⟩, ⟨none, .zx_time_t, "deadline"⟩], [.leaf_fn]⟩

def d__zx_object_wait_many : CDecl :=
  ⟨.zx_status_t, "_zx_object_wait_many", [⟨none, .zx_wait_item_t_ptr, "items"⟩, ⟨none, .size_t, "count"⟩, ⟨none, .zx_time_t, "deadline"⟩], [.leaf_fn]⟩

def d_zx_object_wait_async : CDecl :=
  ⟨.zx_status_t, "zx_object_wait_async", [⟨some .handle_use, .zx_handle_t, "handle"⟩, ⟨some .handle_use, .zx_handle_t, "port"⟩, ⟨none, .uint64_t, "key"⟩, ⟨none, .zx_signals_t, "signals"⟩, ⟨none, .uint32_t, "options"⟩], [.leaf_fn]⟩

def d__zx_object_wait_async : CDecl :=
  ⟨.zx_status_t, "_zx_object_wait_async", [⟨some .handle_use, .zx_handle_t, "handle"⟩, ⟨some .handle_use, .zx_handle_t, "port"⟩, ⟨none, .uint64_t, "key"⟩, ⟨none, .zx_signals_t, "signals"⟩, ⟨none, .uint32_t, "options"⟩], [.leaf_fn]⟩

def d_zx_object_signal : CDecl :=
  ⟨.zx_status_t, "zx_object_signal", [⟨some .handle_use, .zx_handle_t, "handle"⟩, ⟨none, .uint32_t, "clear_mask"⟩, ⟨none, .uint32_t, "set_mask"⟩], [.leaf_fn]⟩

def d__zx_object_signal : CDecl :=
  ⟨.zx_status_t, "_zx_object_signal", [⟨some .handle_use, .zx_handle_t, "handle"⟩, ⟨none, .uint32_t, "clear_mask"⟩, ⟨none, .uint32_t, "set_mask"⟩], [.leaf_fn]⟩

def d_zx_object_signal_peer : CDecl :=
  ⟨.zx_status_t, "zx_object_signal_peer", [⟨some .handle_use, .zx_handle_t, "handle"⟩, ⟨none, .uint32_t, "clear_mask"⟩, ⟨none, .uint32_t, "set_mask"⟩], [.leaf_fn]⟩

def d__zx_object_signal_peer : CDecl :=
  ⟨.zx_status_t, "_zx_object_signal_peer", [⟨some .handle_use, .zx_handle_t, "handle"⟩, ⟨none, .uint32_t, "clear_mask"⟩, ⟨none, .uint32_t, "set_mask"⟩], [.leaf_fn]⟩

def d_zx_object_get_property : CDecl :=
  ⟨.zx_status_t, "zx_object_get_property", [⟨some .handle_use, .zx_handle_t, "handle"⟩, ⟨none, .uint32_t, "property"⟩, ⟨none, .void_ptr, "value"⟩, ⟨none, .size_t, "value_size"⟩], [.leaf_fn]⟩

def d__zx_object_get_property : CDecl :=
  ⟨.zx_status_t, "_zx_object_get_property", [⟨some .handle_use, .zx_handle_t, "handle"⟩, ⟨none, .uint32_t, "property"⟩, ⟨none, .void_ptr, "value"⟩, ⟨none, .size_t, "value_size"⟩], [.leaf_fn]⟩

def d_zx_object_set_property : CDecl :=
  ⟨.zx_status_t, "zx_object_set_property", [⟨some .handle_use, .zx_handle_t, "handle"⟩, ⟨none, .uint32_t, "property"⟩, ⟨none, .const_void_ptr, "value"⟩, ⟨none, .size_t, "value_size"⟩], [.leaf_fn]⟩

def d__zx_object_set_property : CDecl :=
  ⟨.zx_status_t, "_zx_object_set_property", [⟨some .handle_use, .zx_handle_t, "handle"⟩, ⟨none, .uint32_t, "property"⟩, ⟨none, .const_void_ptr, "value"⟩, ⟨none, .size_t, "value_size"⟩], [.leaf_fn]⟩

def d_zx_object_set_cookie : CDecl :=
  ⟨.zx_status_t, "zx_object_set_cookie", [⟨some .handle_use, .zx_handle_t, "handle"⟩, ⟨some .handle_use, .zx_handle_t, "scope"⟩, ⟨none, .uint64_t, "cookie"⟩], [.leaf_fn]⟩

def d__zx_object_set_cookie : CDecl :=
  ⟨.zx_status_t, "_zx_object_set_cookie", [⟨some .handle_use, .zx_handle_t, "handle"⟩, ⟨some .handle_use, .zx_handle_t, "scope"⟩, ⟨none, .uint64_t, "cookie"⟩], [.leaf_fn]⟩

def d_zx_object_get_cookie : CDecl :=
  ⟨.zx_status_t, "zx_object_get_cookie", [⟨some .handle_use, .zx_handle_t, "handle"⟩, ⟨some .handle_use, .zx_handle_t, "scope"⟩, ⟨none, .uint64_t_ptr, "cookie"⟩], [.nonnull [3], .leaf_fn]⟩

def d__zx_object_get_cookie : CDecl :=
  ⟨.zx_status_t, "_zx_object_get_cookie", [⟨some .handle_use, .zx_handle_t, "handle"⟩, ⟨some .handle_use, .zx_handle_t, "scope"⟩, ⟨none, .uint64_t_ptr, "cookie"⟩], [.nonnull [3], .leaf_fn]⟩

def d_zx_object_get_info : CDecl :=
  ⟨.zx_status_t, "zx_object_get_info", [⟨some .handle_use, .zx_handle_t, "handle"⟩, ⟨none, .uint32_t, "topic"⟩, ⟨none, .void_ptr, "buffer"⟩, ⟨none, .size_t, "buffer_size"⟩, ⟨none, .size_t_ptr, "actual_count"⟩, ⟨none, .size_t_ptr, "avail_count"⟩], [.leaf_fn]⟩

def d__zx_object_get_info : CDecl :=
  ⟨.zx_status_t, "_zx_object_get_info", [⟨some .handle_use, .zx_handle_t, "handle"⟩, ⟨none, .uint32_t, "topic"⟩, ⟨none, .void_ptr, "buffer"⟩, ⟨none, .size_t, "buffer_size"⟩, ⟨none, .size_t_ptr, "actual_count"⟩, ⟨none, .size_t_ptr, "avail_count"⟩], [.leaf_fn]⟩

def d_zx_object_get_child : CDecl :=
  ⟨.zx_status_t, "zx_object_get_child", [⟨some .handle_use, .zx_handle_t, "handle"⟩, ⟨none, .uint64_t, "koid"⟩, ⟨none, .zx_rights_t, "rights"⟩, ⟨none, .zx_handle_t_ptr, "out"⟩], [.nonnull [4], .leaf_fn]⟩

def d__zx_object_get_child : CDecl :=
  ⟨.zx_status_t, "_zx_object_get_child", [⟨some .handle_use, .zx_handle_t, "handle"⟩, ⟨none, .uint64_t, "koid"⟩, ⟨none, .zx_rights_t, "rights"⟩, ⟨none, .zx_handle_t_ptr, "out"⟩], [.nonnull [4], .leaf_fn]⟩

def d_zx_object_set_profile : CDecl :=
  ⟨.zx_status_t, "zx_object_set_profile", [⟨some .handle_use, .zx_handle_t, "handle"⟩, ⟨some .handle_use, .zx_handle_t, "profile"⟩, ⟨none, .uint32_t, "options"⟩], [.leaf_fn]⟩

def d__zx_object_set_profile : CDecl :=
  ⟨.zx_status_t, "_zx_object_set_profile", [⟨some .handle_use, .zx_handle_t, "handle"⟩, ⟨some .handle_use, .zx_handle_t, "profile"⟩, ⟨none, .uint32_t, "options"⟩], [.leaf_fn]⟩

def d_zx_channel_create : CDecl :=
  ⟨.zx_status_t, "zx_channel_create", [⟨none, .uint32_t, "options"⟩, ⟨some .handle_acquire, .zx_handle_t_ptr, "out0"⟩, ⟨some .handle_acquire, .zx_handle_t_ptr, "out1"⟩], [.nonnull [2, 3], .leaf_fn]⟩

def d__zx_channel_create : CDecl :=
  ⟨.zx_status_t, "_zx_channel_create", [⟨none, .uint32_t, "options"⟩, ⟨some .handle_acquire, .zx_handle_t_ptr, "out0"⟩, ⟨some .handle_acquire, .zx_handle_t_ptr, "out1"⟩], [.nonnull [2, 3], .leaf_fn]⟩

def d_zx_channel_read : CDecl :=
  ⟨.zx_status_t, "zx_channel_read", [⟨some .handle_use, .zx_handle_t, "handle"⟩, ⟨none, .uint32_t, "options"⟩, ⟨none, .void_ptr, "bytes"⟩, ⟨none, .zx_handle_t_ptr, "handles"⟩, ⟨none, .uint32_t, "num_bytes"⟩, ⟨none, .uint32_t, "num_handles"⟩, ⟨none, .uint32_t_ptr, "actual_bytes"⟩, ⟨none, .uint32_t_ptr, "actual_handles"⟩], [.leaf_fn]⟩

def d__zx_channel_read : CDecl :=
  ⟨.zx_status_t, "_zx_channel_read", [⟨some .handle_use, .zx_handle_t, "handle"⟩, ⟨none, .uint32_t, "options"⟩, ⟨none, .void_ptr, "bytes"⟩, ⟨none, .zx_handle_t_ptr, "handles"⟩, ⟨none, .uint32_t, "num_bytes"⟩, ⟨none, .uint32_t, "num_handles"⟩, ⟨none, .uint32_t_ptr, "actual_bytes"⟩, ⟨none, .uint32_t_ptr, "actual_handles"⟩], [.leaf_fn]⟩

def d_zx_channel_read_etc : CDecl :=
  ⟨.zx_status_t, "zx_channel_read_etc", [⟨some .handle_use, .zx_handle_t, "handle"⟩, ⟨none, .uint32_t, "options"⟩, ⟨none, .void_ptr, "bytes"⟩, ⟨none, .zx_handle_info_t_ptr, "handles"⟩, ⟨none, .uint32_t, "num_bytes"⟩, ⟨none, .uint32_t, "num_handles"⟩, ⟨none, .uint32_t_ptr, "actual_bytes"⟩, ⟨none, .uint32_t_ptr, "actual_handles"⟩], [.leaf_fn]⟩

def d__zx_channel_read_etc : CDecl :=
  ⟨.zx_status_t, "_zx_channel_read_etc", [⟨some .handle_use, .zx_handle_t, "handle"⟩, ⟨none, .uint32_t, "options"⟩, ⟨none, .void_ptr, "bytes"⟩, ⟨none, .zx_handle_info_t_ptr, "handles"⟩, ⟨none, .uint32_t, "num_bytes"⟩, ⟨none, .uint32_t, "num_handles"⟩, ⟨none, .uint32_t_ptr, "actual_bytes"⟩, ⟨none, .uint32_t_ptr, "actual_handles"⟩], [.leaf_fn]⟩

def d_zx_channel_write : CDecl :=
  ⟨.zx_status_t, "zx_channel_write", [⟨some .handle_use, .zx_handle_t, "handle"⟩, ⟨none, .uint32_t, "options"⟩, ⟨none, .const_void_ptr, "bytes"⟩, ⟨none, .uint32_t, "num_bytes"⟩, ⟨none, .const_zx_handle_t_ptr, "handles"⟩, ⟨none, .uint32_t, "num_handles"⟩], [.leaf_fn]⟩

def d__zx_channel_write : CDecl :=
  ⟨.zx_status_t, "_zx_channel_write", [⟨some .handle_use, .zx_handle_t, "handle"⟩, ⟨none, .uint32_t, "options"⟩, ⟨none, .const_void_ptr, "bytes"⟩, ⟨none, .uint32_t, "num_bytes"⟩, ⟨none, .const_zx_handle_t_ptr, "handles"⟩, ⟨none, .uint32_t, "num_handles"⟩], [.leaf_fn]⟩

def d_zx_channel_call : CDecl :=
  ⟨.zx_status_t, "zx_channel_call", [⟨some .handle_use, .zx_handle_t, "handle"⟩, ⟨none, .uint32_t, "options"⟩, ⟨none, .zx_time_t, "deadline"⟩, ⟨none, .const_zx_channel_call_args_t_ptr, "args"⟩, ⟨none, .uint32_t_ptr, "actual_bytes"⟩, ⟨none, .uint32_t_ptr, "actual_handles"⟩], [.nonnull [5, 6], .leaf_fn]⟩

def d__zx_channel_call : CDecl :=
  ⟨.zx_status_t, "_zx_channel_call", [⟨some .handle_use, .zx_handle_t, "handle"⟩, ⟨none, .uint32_t, "options"⟩, ⟨none, .zx_time_t, "deadline"⟩, ⟨none, .const_zx_channel_call_args_t_ptr, "args"⟩, ⟨none, .uint32_t_ptr, "actual_bytes"⟩, ⟨none, .uint32_t_ptr, "actual_handles"⟩], [.nonnull [5, 6], .leaf_fn]⟩

def d_zx_socket_create : CDecl :=
  ⟨.zx_status_t, "zx_socket_create", [⟨none, .uint32_t, "options"⟩, ⟨some .handle_acquire, .zx_handle_t_ptr, "out0"⟩, ⟨some .handle_acquire, .zx_handle_t_ptr, "out1"⟩], [.nonnull [2, 3], .leaf_fn]⟩

def d__zx_socket_create : CDecl :=
  ⟨.zx_status_t, "_zx_socket_create", [⟨none, .uint32_t, "options"⟩, ⟨some .handle_acquire, .zx_handle_t_ptr, "out0"⟩, ⟨some .handle_acquire, .zx_handle_t_ptr, "out1"⟩], [.nonnull [2, 3], .leaf_fn]⟩

def d_zx_socket_write : CDecl :=
  ⟨.zx_status_t, "zx_socket_write", [⟨some .handle_use, .zx_handle_t, "handle"⟩, ⟨none, .uint32_t, "options"⟩, ⟨none, .const_void_ptr, "buffer"⟩, ⟨none, .size_t, "buffer_size"⟩, ⟨none, .size_t_ptr, "actual"⟩], [.leaf_fn]⟩

def d__zx_socket_write : CDecl :=
  ⟨.zx_status_t, "_zx_socket_write", [⟨some .handle_use, .zx_handle_t, "handle"⟩, ⟨none, .uint32_t, "options"⟩, ⟨none, .const_void_ptr, "buffer"⟩, ⟨none, .size_t, "buffer_size"⟩, ⟨none, .size_t_ptr, "actual"⟩], [.leaf_fn]⟩

def d_zx_socket_read : CDecl :=
  ⟨.zx_status_t, "zx_socket_read", [⟨some .handle_use, .zx_handle_t, "handle"⟩, ⟨none, .uint32_t, "options"⟩, ⟨none, .void_ptr, "buffer"⟩, ⟨none, .size_t, "buffer_size"⟩, ⟨none, .size_t_ptr, "actual"⟩], [.leaf_fn]⟩

def d__zx_socket_read : CDecl :=
  ⟨.zx_status_t, "_zx_socket_read", [⟨some .handle_use, .zx_handle_t, "handle"⟩, ⟨none, .uint32_t, "options"⟩, ⟨none, .void_ptr, "buffer"⟩, ⟨none, .size_t, "buffer_size"⟩, ⟨none, .size_t_ptr, "actual"⟩], [.leaf_fn]⟩

def d_zx_socket_share : CDecl :=
  ⟨.zx_status_t, "zx_socket_share", [⟨some .handle_use, .zx_handle_t, "handle"⟩, ⟨some .handle_use, .zx_handle_t, "socket_to_share"⟩], [.leaf_fn]⟩

def d__zx_socket_share : CDecl :=
  ⟨.zx_status_t, "_zx_socket_share", [⟨some .handle_use, .zx_handle_t, "handle"⟩, ⟨some .handle_use, .zx_handle_t, "socket_to_share"⟩], [.leaf_fn]⟩

def d_zx_socket_accept : CDecl :=
  ⟨.zx_status_t, "zx_socket_accept", [⟨some .handle_use, .zx_handle_t, "handle"⟩, ⟨some .handle_acquire, .zx_handle_t_ptr, "out_socket"⟩], [.nonnull [2], .leaf_fn]⟩

def d__zx_socket_accept : CDecl :=
  ⟨.zx_status_t, "_zx_socket_accept", [⟨some .handle_use, .zx_handle_t, "handle"⟩, ⟨some .handle_acquire, .zx_handle_t_ptr, "out_socket"⟩], [.nonnull [2], .leaf_fn]⟩

def d_zx_socket_shutdown : CDecl :=
  ⟨.zx_status_t, "zx_socket_shutdown", [⟨some .handle_use, .zx_handle_t, "handle"⟩, ⟨none, .uint32_t, "options"⟩], [.leaf_fn]⟩

def d__zx_socket_shutdown : CDecl :=
  ⟨.zx_status_t, "_zx_socket_shutdown", [⟨some .handle_use, .zx_handle_t, "handle"⟩, ⟨none, .uint32_t, "options"⟩], [.leaf_fn]⟩

def d_zx_thread_exit : CDecl :=
  ⟨.void, "zx_thread_exit", [], [.leaf_fn, .no_return]⟩

def d__zx_thread_exit : CDecl :=
  ⟨.void, "_zx_thread_exit", [], [.leaf_fn, .no_return]⟩

def d_zx_thread_create : CDecl :=
  ⟨.zx_status_t, "zx_thread_create", [⟨some .handle_use, .zx_handle_t, "process"⟩, ⟨none, .const_char_ptr, "name"⟩, ⟨none, .size_t, "name_size"⟩, ⟨none, .uint32_t, "options"⟩, ⟨some .handle_acquire, .zx_handle_t_ptr, "out"⟩], [.nonnull [5], .leaf_fn]⟩

def d__zx_thread_create : CDecl :=
  ⟨.zx_status_t, "_zx_thread_create", [⟨some .handle_use, .zx_handle_t, "process"⟩, ⟨none, .const_char_ptr, "name"⟩, ⟨none, .size_t, "name_size"⟩, ⟨none, .uint32_t, "options"⟩, ⟨some .handle_acquire, .zx_handle_t_ptr, "out"⟩], [.nonnull [5], .leaf_fn]⟩

def d_zx_thread_start : CDecl :=
  ⟨.zx_status_t, "zx_thread_start", [⟨some .handle_use, .zx_handle_t, "handle"⟩, ⟨none, .zx_vaddr_t, "thread_entry"⟩, ⟨none, .zx_vaddr_t, "stack"⟩, ⟨none, .uintptr_t, "arg1"⟩, ⟨none, .uintptr_t, "arg2"⟩], [.leaf_fn]⟩

def d__zx_thread_start : CDecl :=
  ⟨.zx_status_t, "_zx_thread_start", [⟨some .handle_use, .zx_handle_t, "handle"⟩, ⟨none, .zx_vaddr_t, "thread_entry"⟩, ⟨none, .zx_vaddr_t, "stack"⟩, ⟨none, .uintptr_t, "arg1"⟩, ⟨none, .uintptr_t, "arg2"⟩], [.leaf_fn]⟩

def d_zx_thread_read_state : CDecl :=
  ⟨.zx_status_t, "zx_thread_read_state", [⟨some .handle_use, .zx_handle_t, "handle"⟩, ⟨none, .uint32_t, "kind"⟩, ⟨none, .void_ptr, "buffer"⟩, ⟨none, .size_t, "buffer_size"⟩], [.leaf_fn]⟩

def d__zx_thread_read_state : CDecl :=
  ⟨.zx_status_t, "_zx_thread_read_state", [⟨some .handle_use, .zx_handle_t, "handle"⟩, ⟨none, .uint32_t, "kind"⟩, ⟨none, .void_ptr, "buffer"⟩, ⟨none, .size_t, "buffer_size"⟩], [.leaf_fn]⟩

def d_zx_thread_write_state : CDecl :=
  ⟨.zx_status_t, "zx_thread_write_state", [⟨some .handle_use, .zx_handle_t, "handle"⟩, ⟨none, .uint32_t, "kind"⟩, ⟨none, .const_void_ptr, "buffer"⟩, ⟨none, .size_t, "buffer_size"⟩], [.leaf_fn]⟩

def d__zx_thread_write_state : CDecl :=
  ⟨.zx_status_t, "_zx_thread_write_state", [⟨some .handle_use, .zx_handle_t, "handle"⟩, ⟨none, .uint32_t, "kind"⟩, ⟨none, .const_void_ptr, "buffer"⟩, ⟨none, .size_t, "buffer_size"⟩], [.leaf_fn]⟩

def d_zx_thread_set_priority : CDecl :=
  ⟨.zx_status_t, "zx_thread_set_priority", [⟨none, .int32_t, "prio"⟩], [.leaf_fn]⟩

def d__zx_thread_set_priority : CDecl :=
  ⟨.zx_status_t, "_zx_thread_set_priority", [⟨none, .int32_t, "prio"⟩], [.leaf_fn]⟩

def d_zx_process_exit : CDecl :=
  ⟨.void, "zx_process_exit", [⟨none, .int64_t, "retcode"⟩], [.leaf_fn, .no_return]⟩

def d__zx_process_exit : CDecl :=
  ⟨.void, "_zx_process_exit", [⟨none, .int64_t, "retcode"⟩], [.leaf_fn, .no_return]⟩

def d_zx_process_create : CDecl :=
  ⟨.zx_status_t, "zx_process_create", [⟨some .handle_use, .zx_handle_t, "job"⟩, ⟨none, .const_char_ptr, "name"⟩, ⟨none, .size_t, "name_size"⟩, ⟨none, .uint32_t, "options"⟩, ⟨some .handle_acquire, .zx_handle_t_ptr, "proc_handle"⟩, ⟨some .handle_acquire, .zx_handle_t_ptr, "vmar_handle"⟩], [.nonnull [5, 6], .leaf_fn]⟩

def d__zx_process_create : CDecl :=
  ⟨.zx_status_t, "_zx_process_create", [⟨some .handle_use, .zx_handle_t, "job"⟩, ⟨none, .const_char_ptr, "name"⟩, ⟨none, .size_t, "name_size"⟩, ⟨none, .uint32_t, "options"⟩, ⟨some .handle_acquire, .zx_handle_t_ptr, "proc_handle"⟩, ⟨some .handle_acquire, .zx_handle_t_ptr, "vmar_handle"⟩], [.nonnull [5, 6], .leaf_fn]⟩

def d_zx_process_start : CDecl :=
  ⟨.zx_status_t, "zx_process_start", [⟨some .handle_use, .zx_handle_t, "handle"⟩, ⟨some .handle_use, .zx_handle_t, "thread"⟩, ⟨none, .zx_vaddr_t, "entry"⟩, ⟨none, .zx_vaddr_t, "stack"⟩, ⟨some .handle_release_always, .zx_handle_t, "arg1"⟩, ⟨none, .uintptr_t, "arg2"⟩], [.leaf_fn]⟩

def d__zx_process_start : CDecl :=
  ⟨.zx_status_t, "_zx_process_start", [⟨some .handle_use, .zx_handle_t, "handle"⟩, ⟨some .handle_use, .zx_handle_t, "thread"⟩, ⟨none, .zx_vaddr_t, "entry"⟩, ⟨none, .zx_vaddr_t, "stack"⟩, ⟨some .handle_release_always, .zx_handle_t, "arg1"⟩, ⟨none, .uintptr_t, "arg2"⟩], [.leaf_fn]⟩

def d_zx_process_read_memory : CDecl :=
  ⟨.zx_status_t, "zx_process_read_memory", [⟨some .handle_use, .zx_handle_t, "handle"⟩, ⟨none, .zx_vaddr_t, "vaddr"⟩, ⟨none, .void_ptr, "buffer"⟩, ⟨none, .size_t, "buffer_size"⟩, ⟨none, .size_t_ptr, "actual"⟩], [.nonnull [5], .leaf_fn]⟩

def d__zx_process_read_memory : CDecl :=
  ⟨.zx_status_t, "_zx_process_read_memory", [⟨some .handle_use, .zx_handle_t, "handle"⟩, ⟨none, .zx_vaddr_t, "vaddr"⟩, ⟨none, .void_ptr, "buffer"⟩, ⟨none, .size_t, "buffer_size"⟩, ⟨none, .size_t_ptr, "actual"⟩], [.nonnull [5], .leaf_fn]⟩

def d_zx_process_write_memory : CDecl :=
  ⟨.zx_status_t, "zx_process_write_memory", [⟨some .handle_use, .zx_handle_t, "handle"⟩, ⟨none, .zx_vaddr_t, "vaddr"⟩, ⟨none, .const_void_ptr, "buffer"⟩, ⟨none, .size_t, "buffer_size"⟩, ⟨none, .size_t_ptr, "actual"⟩], [.nonnull [5], .leaf_fn]⟩

def d__zx_process_write_memory : CDecl :=
  ⟨.zx_status_t, "_zx_process_write_memory", [⟨some .handle_use, .zx_handle_t, "handle"⟩, ⟨none, .zx_vaddr_t, "vaddr"⟩, ⟨none, .const_void_ptr, "buffer"⟩, ⟨none, .size_t, "buffer_size"⟩, ⟨none, .size_t_ptr, "actual"⟩], [.nonnull [5], .leaf_fn]⟩

def d_zx_job_create : CDecl :=
  ⟨.zx_status_t, "zx_job_create", [⟨some .handle_use, .zx_handle_t, "parent_job"⟩, ⟨none, .uint32_t, "options"⟩, ⟨some .handle_acquire, .zx_handle_t_ptr, "out"⟩], [.nonnull [3], .leaf_fn]⟩

def d__zx_job_create : CDecl :=
  ⟨.zx_status_t, "_zx_job_create", [⟨some .handle_use, .zx_handle_t, "parent_job"⟩, ⟨none, .uint32_t, "options"⟩, ⟨some .handle_acquire, .zx_handle_t_ptr, "out"⟩], [.nonnull [3], .leaf_fn]⟩

def d_zx_job_set_policy : CDecl :=
  ⟨.zx_status_t, "zx_job_set_policy", [⟨some .handle_use, .zx_handle_t, "handle"⟩, ⟨none, .uint32_t, "options"⟩, ⟨none, .uint32_t, "topic"⟩, ⟨none, .const_void_ptr, "policy"⟩, ⟨none, .uint32_t, "count"⟩], [.leaf_fn]⟩

def d__zx_job_set_policy : CDecl :=
  ⟨.zx_status_t, "_zx_job_set_policy", [⟨some .handle_use, .zx_handle_t, "handle"⟩, ⟨none, .uint32_t, "options"⟩, ⟨none, .uint32_t, "topic"⟩, ⟨none, .const_void_ptr, "policy"⟩, ⟨none, .uint32_t, "count"⟩], [.leaf_fn]⟩

def d_zx_task_bind_exception_port : CDecl :=
  ⟨.zx_status_t, "zx_task_bind_exception_port", [⟨some .handle_use, .zx_handle_t, "handle"⟩, ⟨some .handle_use, .zx_handle_t, "port"⟩, ⟨none, .uint64_t, "key"⟩, ⟨none, .uint32_t, "options"⟩], [.leaf_fn]⟩

def d__zx_task_bind_exception_port : CDecl :=
  ⟨.zx_status_t, "_zx_task_bind_exception_port", [⟨some .handle_use, .zx_handle_t, "handle"⟩, ⟨some .handle_use, .zx_handle_t, "port"⟩, ⟨none, .uint64_t, "key"⟩, ⟨none, .uint32_t, "options"⟩], [.leaf_fn]⟩

def d_zx_task_suspend : CDecl :=
  ⟨.zx_status_t, "zx_task_suspend", [⟨some .handle_use, .zx_handle_t, "handle"⟩, ⟨some .handle_acquire, .zx_handle_t_ptr, "token"⟩], [.nonnull [2], .leaf_fn]⟩

def d__zx_task_suspend : CDecl :=
  ⟨.zx_status_t, "_zx_task_suspend", [⟨some .handle_use, .zx_handle_t, "handle"⟩, ⟨some .handle_acquire, .zx_handle_t_ptr, "token"⟩], [.nonnull [2], .leaf_fn]⟩

def d_zx_task_suspend_token : CDecl :=
  ⟨.zx_status_t, "zx_task_suspend_token", [⟨some .handle_use, .zx_handle_t, "handle"⟩, ⟨some .handle_acquire, .zx_handle_t_ptr, "token"⟩], [.nonnull [2], .leaf_fn]⟩

def d__zx_task_suspend_token : CDecl :=
  ⟨.zx_status_t, "_zx_task_suspend_token", [⟨some .handle_use, .zx_handle_t, "handle"⟩, ⟨some .handle_acquire, .zx_handle_t_ptr, "token"⟩], [.nonnull [2], .leaf_fn]⟩

def d_zx_task_resume_from_exception : CDecl :=
  ⟨.zx_status_t, "zx_task_resume_from_exception", [⟨some .handle_use, .zx_handle_t, "handle"⟩, ⟨some .handle_use, .zx_handle_t, "port"⟩, ⟨none, .uint32_t, "options"⟩], [.leaf_fn]⟩

def d__zx_task_resume_from_exception : CDecl :=
  ⟨.zx_status_t, "_zx_task_resume_from_exception", [⟨some .handle_use, .zx_handle_t, "handle"⟩, ⟨some .handle_use, .zx_handle_t, "port"⟩, ⟨none, .uint32_t, "options"⟩], [.leaf_fn]⟩

def d_zx_task_kill : CDecl :=
  ⟨.zx_status_t, "zx_task_kill", [⟨some .handle_use, .zx_handle_t, "handle"⟩], [.leaf_fn]⟩

def d__zx_task_kill : CDecl :=
  ⟨.zx_status_t, "_zx_task_kill", [⟨some .handle_use, .zx_handle_t, "handle"⟩], [.leaf_fn]⟩

def d_zx_event_create : CDecl :=
  ⟨.zx_status_t, "zx_event_create", [⟨none, .uint32_t, "options"⟩, ⟨some .handle_acquire, .zx_handle_t_ptr, "out"⟩], [.nonnull [2], .leaf_fn]⟩

def d__zx_event_create : CDecl :=
  ⟨.zx_status_t, "_zx_event_create", [⟨none, .uint32_t, "options"⟩, ⟨some .handle_acquire, .zx_handle_t_ptr, "out"⟩], [.nonnull [2], .leaf_fn]⟩

def d_zx_eventpair_create : CDecl :=
  ⟨.zx_status_t, "zx_eventpair_create", [⟨none, .uint32_t, "options"⟩, ⟨some .handle_acquire, .zx_handle_t_ptr, "out0"⟩, ⟨some .handle_acquire, .zx_handle_t_ptr, "out1"⟩], [.nonnull [2, 3], .leaf_fn]⟩

def d__zx_eventpair_create : CDecl :=
  ⟨.zx_status_t, "_zx_eventpair_create", [⟨none, .uint32_t, "options"⟩, ⟨some .handle_acquire, .zx_handle_t_ptr, "out0"⟩, ⟨some .handle_acquire, .zx_handle_t_ptr, "out1"⟩], [.nonnull [2, 3], .leaf_fn]⟩

def d_zx_futex_wait : CDecl :=
  ⟨.zx_status_t, "zx_futex_wait", [⟨none, .const_zx_futex_t_ptr, "value_ptr"⟩, ⟨none, .zx_futex_t, "current_value"⟩, ⟨some .handle_use, .zx_handle_t, "new_futex_owner"⟩, ⟨none, .zx_time_t, "deadline"⟩], [.leaf_fn]⟩

def d__zx_futex_wait : CDecl :=
  ⟨.zx_status_t, "_zx_futex_wait", [⟨none, .const_zx_futex_t_ptr, "value_ptr"⟩, ⟨none, .zx_futex_t, "current_value"⟩, ⟨some .handle_use, .zx_handle_t, "new_futex_owner"⟩, ⟨none, .zx_time_t, "deadline"⟩], [.leaf_fn]⟩

def d_zx_futex_wake : CDecl :=
  ⟨.zx_status_t, "zx_futex_wake", [⟨none, .const_zx_futex_t_ptr, "value_ptr"⟩, ⟨none, .uint32_t, "count"⟩], [.leaf_fn]⟩

def d__zx_futex_wake : CDecl :=
  ⟨.zx_status_t, "_zx_futex_wake", [⟨none, .const_zx_futex_t_ptr, "value_ptr"⟩, ⟨none, .uint32_t, "count"⟩], [.leaf_fn]⟩

def d_zx_futex_requeue : CDecl :=
  ⟨.zx_status_t, "zx_futex_requeue", [⟨none, .const_zx_futex_t_ptr, "wake_ptr"⟩, ⟨none, .uint32_t, "wake_count"⟩, ⟨none, .zx_futex_t, "current_value"⟩, ⟨none, .const_zx_futex_t_ptr, "requeue_ptr"⟩, ⟨none, .uint32_t, "requeue_count"⟩, ⟨some .handle_use, .zx_handle_t, "new_requeue_owner"⟩], [.leaf_fn]⟩

def d__zx_futex_requeue : CDecl :=
  ⟨.zx_status_t, "_zx_futex_requeue", [⟨none, .const_zx_futex_t_ptr, "wake_ptr"⟩, ⟨none, .uint32_t, "wake_count"⟩, ⟨none, .zx_futex_t, "current_value"⟩, ⟨none, .const_zx_futex_t_ptr, "requeue_ptr"⟩, ⟨none, .uint32_t, "requeue_count"⟩, ⟨some .handle_use, .zx_handle_t, "new_requeue_owner"⟩], [.leaf_fn]⟩

def d_zx_futex_wake_single_owner : CDecl :=
  ⟨.zx_status_t, "zx_futex_wake_single_owner", [⟨none, .const_zx_futex_t_ptr, "value_ptr"⟩], [.leaf_fn]⟩

def d__zx_futex_wake_single_owner : CDecl :=
  ⟨.zx_status_t, "_zx_futex_wake_single_owner", [⟨none, .const_zx_futex_t_ptr, "value_ptr"⟩], [.leaf_fn]⟩

def d_zx_futex_requeue_single_owner : CDecl :=
  ⟨.zx_status_t, "zx_futex_requeue_single_owner", [⟨none, .const_zx_futex_t_ptr, "wake_ptr"⟩, ⟨none, .zx_futex_t, "current_value"⟩, ⟨none, .const_zx_futex_t_ptr, "requeue_ptr"⟩, ⟨none, .uint32_t, "requeue_count"⟩, ⟨some .handle_use, .zx_handle_t, "new_requeue_owner"⟩], [.leaf_fn]⟩

def d__zx_futex_requeue_single_owner : CDecl :=
  ⟨.zx_status_t, "_zx_futex_requeue_single_owner", [⟨none, .const_zx_futex_t_ptr, "wake_ptr"⟩, ⟨none, .zx_futex_t, "current_value"⟩, ⟨none, .const_zx_futex_t_ptr, "requeue_ptr"⟩, ⟨none, .uint32_t, "requeue_count"⟩, ⟨some .handle_use, .zx_handle_t, "new_requeue_owner"⟩], [.leaf_fn]⟩

def d_zx_futex_get_owner : CDecl :=
  ⟨.zx_status_t, "zx_futex_get_owner", [⟨none, .const_zx_futex_t_ptr, "value_ptr"⟩, ⟨none, .zx_koid_t_ptr, "koid"⟩], [.leaf_fn]⟩

def d__zx_futex_get_owner : CDecl :=
  ⟨.zx_status_t, "_zx_futex_get_owner", [⟨none, .const_zx_futex_t_ptr, "value_ptr"⟩, ⟨none, .zx_koid_t_ptr, "koid"⟩], [.leaf_fn]⟩

def d_zx_futex_wait_deprecated : CDecl :=
  ⟨.zx_status_t, "zx_futex_wait_deprecated", [⟨none, .const_zx_futex_t_ptr, "value_ptr"⟩, ⟨none, .int32_t, "current_value"⟩, ⟨none, .zx_time_t, "deadline"⟩], [.leaf_fn]⟩

def d__zx_futex_wait_deprecated : CDecl :=
  ⟨.zx_status_t, "_zx_futex_wait_deprecated", [⟨none, .const_zx_futex_t_ptr, "value_ptr"⟩, ⟨none, .int32_t, "current_value"⟩, ⟨none, .zx_time_t, "deadline"⟩], [.leaf_fn]⟩

def d_zx_futex_requeue_deprecated : CDecl :=
  ⟨.zx_status_t, "zx_futex_requeue_deprecated", [⟨none, .const_zx_futex_t_ptr, "wake_ptr"⟩, ⟨none, .uint32_t, "wake_count"⟩, ⟨none, .int32_t, "current_value"⟩, ⟨none, .const_zx_futex_t_ptr, "requeue_ptr"⟩, ⟨none, .uint32_t, "requeue_count"⟩], [.leaf_fn]⟩

def d__zx_futex_requeue_deprecated : CDecl :=
  ⟨.zx_status_t, "_zx_futex_requeue_deprecated", [⟨none, .const_zx_futex_t_ptr, "wake_ptr"⟩, ⟨none, .uint32_t, "wake_count"⟩, ⟨none, .int32_t, "current_value"⟩, ⟨none, .const_zx_futex_t_ptr, "requeue_ptr"⟩, ⟨none, .uint32_t, "requeue_count"⟩], [.leaf_fn]⟩

def d_zx_port_create : CDecl :=
  ⟨.zx_status_t, "zx_port_create", [⟨none, .uint32_t, "options"⟩, ⟨some .handle_acquire, .zx_handle_t_ptr, "out"⟩], [.nonnull [2], .leaf_fn]⟩

def d__zx_port_create : CDecl :=
  ⟨.zx_status_t, "_zx_port_create", [⟨none, .uint32_t, "options"⟩, ⟨some .handle_acquire, .zx_handle_t_ptr, "out"⟩], [.nonnull [2], .leaf_fn]⟩

def d_zx_port_queue : CDecl :=
  ⟨.zx_status_t, "zx_port_queue", [⟨some .handle_use, .zx_handle_t, "handle"⟩, ⟨none, .const_zx_port_packet_t_ptr, "packet"⟩], [.leaf_fn]⟩

def d__zx_port_queue : CDecl :=
  ⟨.zx_status_t, "_zx_port_queue", [⟨some .handle_use, .zx_handle_t, "handle"⟩, ⟨none, .const_zx_port_packet_t_ptr, "packet"⟩], [.leaf_fn]⟩

def d_zx_port_wait : CDecl :=
  ⟨.zx_status_t, "zx_port_wait", [⟨some .handle_use, .zx_handle_t, "handle"⟩, ⟨none, .zx_time_t, "deadline"⟩, ⟨none, .zx_port_packet_t_ptr, "packet"⟩], [.leaf_fn]⟩

def d__zx_port_wait : CDecl :=
  ⟨.zx_status_t, "_zx_port_wait", [⟨some .handle_use, .zx_handle_t, "handle"⟩, ⟨none, .zx_time_t, "deadline"⟩, ⟨none, .zx_port_packet_t_ptr, "packet"⟩], [.leaf_fn]⟩

def d_zx_port_cancel : CDecl :=
  ⟨.zx_status_t, "zx_port_cancel", [⟨some .handle_use, .zx_handle_t, "handle"⟩, ⟨some .handle_use, .zx_handle_t, "source"⟩, ⟨none, .uint64_t, "key"⟩], [.leaf_fn]⟩

def d__zx_port_cancel : CDecl :=
  ⟨.zx_status_t, "_zx_port_cancel", [⟨some .handle_use, .zx_handle_t, "handle"⟩, ⟨some .handle_use, .zx_handle_t, "source"⟩, ⟨none, .uint64_t, "key"⟩], [.leaf_fn]⟩

def d_zx_timer_create : CDecl :=
  ⟨.zx_status_t, "zx_timer_create", [⟨none, .uint32_t, "options"⟩, ⟨none, .zx_clock_t, "clock_id"⟩, ⟨some .handle_acquire, .zx_handle_t_ptr, "out"⟩], [.nonnull [3], .leaf_fn]⟩

def d__zx_timer_create : CDecl :=
  ⟨.zx_status_t, "_zx_timer_create", [⟨none, .uint32_t, "options"⟩, ⟨none, .zx_clock_t, "clock_id"⟩, ⟨some .handle_acquire, .zx_handle_t_ptr, "out"⟩], [.nonnull [3], .leaf_fn]⟩

def d_zx_timer_set : CDecl :=
  ⟨.zx_status_t, "zx_timer_set", [⟨some .handle_use, .zx_handle_t, "handle"⟩, ⟨none, .zx_time_t, "deadline"⟩, ⟨none, .zx_duration_t, "slack"⟩], [.leaf_fn]⟩

def d__zx_timer_set : CDecl :=
  ⟨.zx_status_t, "_zx_timer_set", [⟨some .handle_use, .zx_handle_t, "handle"⟩, ⟨none, .zx_time_t, "deadline"⟩, ⟨none, .zx_duration_t, "slack"⟩], [.leaf_fn]⟩

def d_zx_timer_cancel : CDecl :=
  ⟨.zx_status_t, "zx_timer_cancel", [⟨some .handle_use, .zx_handle_t, "handle"⟩], [.leaf_fn]⟩

def d__zx_timer_cancel : CDecl :=
  ⟨.zx_status_t, "_zx_timer_cancel", [⟨some .handle_use, .zx_handle_t, "handle"⟩], [.leaf_fn]⟩

def d_zx_vmo_create : CDecl :=
  ⟨.zx_status_t, "zx_vmo_create", [⟨none, .uint64_t, "size"⟩, ⟨none, .uint32_t, "options"⟩, ⟨some .handle_acquire, .zx_handle_t_ptr, "out"⟩], [.nonnull [3], .leaf_fn]⟩

def d__zx_vmo_create : CDecl :=
  ⟨.zx_status_t, "_zx_vmo_create", [⟨none, .uint64_t, "size"⟩, ⟨none, .uint32_t, "options"⟩, ⟨some .handle_acquire, .zx_handle_t_ptr, "out"⟩], [.nonnull [3], .leaf_fn]⟩

def d_zx_vmo_read : CDecl :=
  ⟨.zx_status_t, "zx_vmo_read", [⟨some .handle_use, .zx_handle_t, "handle"⟩, ⟨none, .void_ptr, "buffer"⟩, ⟨none, .uint64_t, "offset"⟩, ⟨none, .size_t, "buffer_size"⟩], [.leaf_fn]⟩

def d__zx_vmo_read : CDecl :=
  ⟨.zx_status_t, "_zx_vmo_read", [⟨some .handle_use, .zx_handle_t, "handle"⟩, ⟨none, .void_ptr, "buffer"⟩, ⟨none, .uint64_t, "offset"⟩, ⟨none, .size_t, "buffer_size"⟩], [.leaf_fn]⟩

def d_zx_vmo_write : CDecl :=
  ⟨.zx_status_t, "zx_vmo_write", [⟨some .handle_use, .zx_handle_t, "handle"⟩, ⟨none, .const_void_ptr, "buffer"⟩, ⟨none, .uint64_t, "offset"⟩, ⟨none, .size_t, "buffer_size"⟩], [.leaf_fn]⟩

def d__zx_vmo_write : CDecl :=
  ⟨.zx_status_t, "_zx_vmo_write", [⟨some .handle_use, .zx_handle_t, "handle"⟩, ⟨none, .const_void_ptr, "buffer"⟩, ⟨none, .uint64_t, "offset"⟩, ⟨none, .size_t, "buffer_size"⟩], [.leaf_fn]⟩

def d_zx_vmo_get_size : CDecl :=
  ⟨.zx_status_t, "zx_vmo_get_size", [⟨some .handle_use, .zx_handle_t, "handle"⟩, ⟨none, .uint64_t_ptr, "size"⟩], [.nonnull [2], .leaf_fn]⟩

def d__zx_vmo_get_size : CDecl :=
  ⟨.zx_status_t, "_zx_vmo_get_size", [⟨some .handle_use, .zx_handle_t, "handle"⟩, ⟨none, .uint64_t_ptr, "size"⟩], [.nonnull [2], .leaf_fn]⟩

def d_zx_vmo_set_size : CDecl :=
  ⟨.zx_status_t, "zx_vmo_set_size", [⟨some .handle_use, .zx_handle_t, "handle"⟩, ⟨none, .uint64_t, "size"⟩], [.leaf_fn]⟩

def d__zx_vmo_set_size : CDecl :=
  ⟨.zx_status_t, "_zx_vmo_set_size", [⟨some .handle_use, .zx_handle_t, "handle"⟩, ⟨none, .uint64_t, "size"⟩], [.leaf_fn]⟩

def d_zx_vmo_op_range : CDecl :=
  ⟨.zx_status_t, "zx_vmo_op_range", [⟨some .handle_use, .zx_handle_t, "handle"⟩, ⟨none, .uint32_t, "op"⟩, ⟨none, .uint64_t, "offset"⟩, ⟨none, .uint64_t, "size"⟩, ⟨none, .void_ptr, "buffer"⟩, ⟨none, .size_t, "buffer_size"⟩], [.leaf_fn]⟩

def d__zx_vmo_op_range : CDecl :=
  ⟨.zx_status_t, "_zx_vmo_op_range", [⟨some .handle_use, .zx_handle_t, "handle"⟩, ⟨none, .uint32_t, "op"⟩, ⟨none, .uint64_t, "offset"⟩, ⟨none, .uint64_t, "size"⟩, ⟨none, .void_ptr, "buffer"⟩, ⟨none, .size_t, "buffer_size"⟩], [.leaf_fn]⟩

def d_zx_vmo_clone : CDecl :=
  ⟨.zx_status_t, "zx_vmo_clone", [⟨some .handle_use, .zx_handle_t, "handle"⟩, ⟨none, .uint32_t, "options"⟩, ⟨none, .uint64_t, "offset"⟩, ⟨none, .uint64_t, "size"⟩, ⟨some .handle_acquire, .zx_handle_t_ptr, "out"⟩], [.nonnull [5], .leaf_fn]⟩

def d__zx_vmo_clone : CDecl :=
  ⟨.zx_status_t, "_zx_vmo_clone", [⟨some .handle_use, .zx_handle_t, "handle"⟩, ⟨none, .uint32_t, "options"⟩, ⟨none, .uint64_t, "offset"⟩, ⟨none, .uint64_t, "size"⟩, ⟨some .handle_acquire, .zx_handle_t_ptr, "out"⟩], [.nonnull [5], .leaf_fn]⟩

def d_zx_vmo_set_cache_policy : CDecl :=
  ⟨.zx_status_t, "zx_vmo_set_cache_policy", [⟨some .handle_use, .zx_handle_t, "handle"⟩, ⟨none, .uint32_t, "cache_policy"⟩], [.leaf_fn]⟩

def d__zx_vmo_set_cache_policy : CDecl :=
  ⟨.zx_status_t, "_zx_vmo_set_cache_policy", [⟨some .handle_use, .zx_handle_t, "handle"⟩, ⟨none, .uint32_t, "cache_policy"⟩], [.leaf_fn]⟩

def d_zx_vmo_replace_as_executable : CDecl :=
  ⟨.zx_status_t, "zx_vmo_replace_as_executable", [⟨some .handle_release_always, .zx_handle_t, "handle"⟩, ⟨some .handle_use, .zx_handle_t, "vmex"⟩, ⟨some .handle_acquire, .zx_handle_t_ptr, "out"⟩], [.nonnull [3], .leaf_fn]⟩

def d__zx_vmo_replace_as_executable : CDecl :=
  ⟨.zx_status_t, "_zx_vmo_replace_as_executable", [⟨some .handle_release_always, .zx_handle_t, "handle"⟩, ⟨some .handle_use, .zx_handle_t, "vmex"⟩, ⟨some .handle_acquire, .zx_handle_t_ptr, "out"⟩], [.nonnull [3], .leaf_fn]⟩

def d_zx_vmar_allocate_old : CDecl :=
  ⟨.zx_status_t, "zx_vmar_allocate_old", [⟨some .handle_use, .zx_handle_t, "parent_vmar"⟩, ⟨none, .uint64_t, "offset"⟩, ⟨none, .uint64_t, "size"⟩, ⟨none, .uint32_t, "map_flags"⟩, ⟨some .handle_acquire, .zx_handle_t_ptr, "child_vmar"⟩, ⟨none, .zx_vaddr_t_ptr, "child_addr"⟩], [.nonnull [5, 6], .leaf_fn]⟩

def d__zx_vmar_allocate_old : CDecl :=
  ⟨.zx_status_t, "_zx_vmar_allocate_old", [⟨some .handle_use, .zx_handle_t, "parent_vmar"⟩, ⟨none, .uint64_t, "offset"⟩, ⟨none, .uint64_t, "size"⟩, ⟨none, .uint32_t, "map_flags"⟩, ⟨some .handle_acquire, .zx_handle_t_ptr, "child_vmar"⟩, ⟨none, .zx_vaddr_t_ptr, "child_addr"⟩], [.nonnull [5, 6], .leaf_fn]⟩

def d_zx_vmar_map_old : CDecl :=
  ⟨.zx_status_t, "zx_vmar_map_old", [⟨some .handle_use, .zx_handle_t, "handle"⟩, ⟨none, .uint64_t, "vmar_offset"⟩, ⟨some .handle_use, .zx_handle_t, "vmo"⟩, ⟨none, .uint64_t, "vmo_offset"⟩, ⟨none, .uint64_t, "len"⟩, ⟨none, .uint32_t, "map_flags"⟩, ⟨none, .zx_vaddr_t_ptr, "mapped_addr"⟩], [.nonnull [7], .leaf_fn]⟩

def d__zx_vmar_map_old : CDecl :=
  ⟨.zx_status_t, "_zx_vmar_map_old", [⟨some .handle_use, .zx_handle_t, "handle"⟩, ⟨none, .uint64_t, "vmar_offset"⟩, ⟨some .handle_use, .zx_handle_t, "vmo"⟩, ⟨none, .uint64_t, "vmo_offset"⟩, ⟨none, .uint64_t, "len"⟩, ⟨none, .uint32_t, "map_flags"⟩, ⟨none, .zx_vaddr_t_ptr, "mapped_addr"⟩], [.nonnull [7], .leaf_fn]⟩

def d_zx_vmar_protect_old : CDecl :=
  ⟨.zx_status_t, "zx_vmar_protect_old", [⟨some .handle_use, .zx_handle_t, "handle"⟩, ⟨none, .zx_vaddr_t, "addr"⟩, ⟨none, .uint64_t, "len"⟩, ⟨none, .uint32_t, "prot_flags"⟩], [.leaf_fn]⟩

def d__zx_vmar_protect_old : CDecl :=
  ⟨.zx_status_t, "_zx_vmar_protect_old", [⟨some .handle_use, .zx_handle_t, "handle"⟩, ⟨none, .zx_vaddr_t, "addr"⟩, ⟨none, .uint64_t, "len"⟩, ⟨none, .uint32_t, "prot_flags"⟩], [.leaf_fn]⟩

def d_zx_vmar_allocate : CDecl :=
  ⟨.zx_status_t, "zx_vmar_allocate", [⟨some .handle_use, .zx_handle_t, "parent_vmar"⟩, ⟨none, .zx_vm_option_t, "options"⟩, ⟨none, .uint64_t, "offset"⟩, ⟨none, .uint64_t, "size"⟩, ⟨some .handle_acquire, .zx_handle_t_ptr, "child_vmar"⟩, ⟨none, .zx_vaddr_t_ptr, "child_addr"⟩], [.nonnull [5, 6], .leaf_fn]⟩

def d__zx_vmar_allocate : CDecl :=
  ⟨.zx_status_t, "_zx_vmar_allocate", [⟨some .handle_use, .zx_handle_t, "parent_vmar"⟩, ⟨none, .zx_vm_option_t, "options"⟩, ⟨none, .uint64_t, "offset"⟩, ⟨none, .uint64_t, "size"⟩, ⟨some .handle_acquire, .zx_handle_t_ptr, "child_vmar"⟩, ⟨none, .zx_vaddr_t_ptr, "child_addr"⟩], [.nonnull [5, 6], .leaf_fn]⟩

def d_zx_vmar_destroy : CDecl :=
  ⟨.zx_status_t, "zx_vmar_destroy", [⟨some .handle_use, .zx_handle_t, "handle"⟩], [.leaf_fn]⟩

def d__zx_vmar_destroy : CDecl :=
  ⟨.zx_status_t, "_zx_vmar_destroy", [⟨some .handle_use, .zx_handle_t, "handle"⟩], [.leaf_fn]⟩

def d_zx_vmar_map : CDecl :=
  ⟨.zx_status_t, "zx_vmar_map", [⟨some .handle_use, .zx_handle_t, "handle"⟩, ⟨none, .zx_vm_option_t, "options"⟩, ⟨none, .uint64_t, "vmar_offset"⟩, ⟨some .handle_use, .zx_handle_t, "vmo"⟩, ⟨none, .uint64_t, "vmo_offset"⟩, ⟨none, .uint64_t, "len"⟩, ⟨none, .zx_vaddr_t_ptr, "mapped_addr"⟩], [.nonnull [7], .leaf_fn]⟩

def d__zx_vmar_map : CDecl :=
  ⟨.zx_status_t, "_zx_vmar_map", [⟨some .handle_use, .zx_handle_t, "handle"⟩, ⟨none, .zx_vm_option_t, "options"⟩, ⟨none, .uint64_t, "vmar_offset"⟩, ⟨some .handle_use, .zx_handle_t, "vmo"⟩, ⟨none, .uint64_t, "vmo_offset"⟩, ⟨none, .uint64_t, "len"⟩, ⟨none, .zx_vaddr_t_ptr, "mapped_addr"⟩], [.nonnull [7], .leaf_fn]⟩

def d_zx_vmar_unmap : CDecl :=
  ⟨.zx_status_t, "zx_vmar_unmap", [⟨some .handle_use, .zx_handle_t, "handle"⟩, ⟨none, .zx_vaddr_t, "addr"⟩, ⟨none, .uint64_t, "len"⟩], [.leaf_fn]⟩

def d__zx_vmar_unmap : CDecl :=
  ⟨.zx_status_t, "_zx_vmar_unmap", [⟨some .handle_use, .zx_handle_t, "handle"⟩, ⟨none, .zx_vaddr_t, "addr"⟩, ⟨none, .uint64_t, "len"⟩], [.leaf_fn]⟩

def d_zx_vmar_protect : CDecl :=
  ⟨.zx_status_t, "zx_vmar_protect", [⟨some .handle_use, .zx_handle_t, "handle"⟩, ⟨none, .zx_vm_option_t, "options"⟩, ⟨none, .zx_vaddr_t, "addr"⟩, ⟨none, .uint64_t, "len"⟩], [.leaf_fn]⟩

def d__zx_vmar_protect : CDecl :=
  ⟨.zx_status_t, "_zx_vmar_protect", [⟨some .handle_use, .zx_handle_t, "handle"⟩, ⟨none, .zx_vm_option_t, "options"⟩, ⟨none, .zx_vaddr_t, "addr"⟩, ⟨none, .uint64_t, "len"⟩], [.leaf_fn]⟩

def d_zx_cprng_draw : CDecl :=
  ⟨.void, "zx_cprng_draw", [⟨none, .void_ptr, "buffer"⟩, ⟨none, .size_t, "buffer_size"⟩], [.leaf_fn]⟩

def d__zx_cprng_draw : CDecl :=
  ⟨.void, "_zx_cprng_draw", [⟨none, .void_ptr, "buffer"⟩, ⟨none, .size_t, "buffer_size"⟩], [.leaf_fn]⟩

def d_zx_cprng_add_entropy : CDecl :=
  ⟨.zx_status_t, "zx_cprng_add_entropy", [⟨none, .const_void_ptr, "buffer"⟩, ⟨none, .size_t, "buffer_size"⟩], [.leaf_fn]⟩

def d__zx_cprng_add_entropy : CDecl :=
  ⟨.zx_status_t, "_zx_cprng_add_entropy", [⟨none, .const_void_ptr, "buffer"⟩, ⟨none, .size_t, "buffer_size"⟩], [.leaf_fn]⟩

def d_zx_fifo_create : CDecl :=
  ⟨.zx_status_t, "zx_fifo_create", [⟨none, .size_t, "elem_count"⟩, ⟨none, .size_t, "elem_size"⟩, ⟨none, .uint32_t, "options"⟩, ⟨some .handle_acquire, .zx_handle_t_ptr, "out0"⟩, ⟨some .handle_acquire, .zx_handle_t_ptr, "out1"⟩], [.nonnull [4, 5], .leaf_fn]⟩

def d__zx_fifo_create : CDecl :=
  ⟨.zx_status_t, "_zx_fifo_create", [⟨none, .size_t, "elem_count"⟩, ⟨none, .size_t, "elem_size"⟩, ⟨none, .uint32_t, "options"⟩, ⟨some .handle_acquire, .zx_handle_t_ptr, "out0"⟩, ⟨some .handle_acquire, .zx_handle_t_ptr, "out1"⟩], [.nonnull [4, 5], .leaf_fn]⟩

def d_zx_fifo_read : CDecl :=
  ⟨.zx_status_t, "zx_fifo_read", [⟨some .handle_use, .zx_handle_t, "handle"⟩, ⟨none, .size_t, "elem_size"⟩, ⟨none, .void_ptr, "data"⟩, ⟨none, .size_t, "count"⟩, ⟨none, .size_t_ptr, "actual_count"⟩], [.leaf_fn]⟩

def d__zx_fifo_read : CDecl :=
  ⟨.zx_status_t, "_zx_fifo_read", [⟨some .handle_use, .zx_handle_t, "handle"⟩, ⟨none, .size_t, "elem_size"⟩, ⟨none, .void_ptr, "data"⟩, ⟨none, .size_t, "count"⟩, ⟨none, .size_t_ptr, "actual_count"⟩], [.leaf_fn]⟩

def d_zx_fifo_write : CDecl :=
  ⟨.zx_status_t, "zx_fifo_write", [⟨some .handle_use, .zx_handle_t, "handle"⟩, ⟨none, .size_t, "elem_size"⟩, ⟨none, .const_void_ptr, "data"⟩, ⟨none, .size_t, "count"⟩, ⟨none, .size_t_ptr, "actual_count"⟩], [.leaf_fn]⟩

def d__zx_fifo_write : CDecl :=
  ⟨.zx_status_t, "_zx_fifo_write", [⟨some .handle_use, .zx_handle_t, "handle"⟩, ⟨none, .size_t, "elem_size"⟩, ⟨none, .const_void_ptr, "data"⟩, ⟨none, .size_t, "count"⟩, ⟨none, .size_t_ptr, "actual_count"⟩], [.leaf_fn]⟩

def d_zx_profile_create : CDecl :=
  ⟨.zx_status_t, "zx_profile_create", [⟨some .handle_use, .zx_handle_t, "root_job"⟩, ⟨none, .const_zx_profile_info_t_ptr, "profile"⟩, ⟨some .handle_acquire, .zx_handle_t_ptr, "out"⟩], [.nonnull [3], .leaf_fn]⟩

def d__zx_profile_create : CDecl :=
  ⟨.zx_status_t, "_zx_profile_create", [⟨some .handle_use, .zx_handle_t, "root_job"⟩, ⟨none, .const_zx_profile_info_t_ptr, "profile"⟩, ⟨some .handle_acquire, .zx_handle_t_ptr, "out"⟩], [.nonnull [3], .leaf_fn]⟩

def d_zx_vmar_unmap_handle_close_thread_exit : CDecl :=
  ⟨.zx_status_t, "zx_vmar_unmap_handle_close_thread_exit", [⟨some .handle_use, .zx_handle_t, "vmar_handle"⟩, ⟨none, .zx_vaddr_t, "addr"⟩, ⟨none, .size_t, "size"⟩, ⟨some .handle_release, .zx_handle_t, "close_handle"⟩], [.leaf_fn]⟩

def d__zx_vmar_unmap_handle_close_thread_exit : CDecl :=
  ⟨.zx_status_t, "_zx_vmar_unmap_handle_close_thread_exit", [⟨some .handle_use, .zx_handle_t, "vmar_handle"⟩, ⟨none, .zx_vaddr_t, "addr"⟩, ⟨none, .size_t, "size"⟩, ⟨some .handle_release, .zx_handle_t, "close_handle"⟩], [.leaf_fn]⟩

def d_zx_futex_wake_handle_close_thread_exit : CDecl :=
  ⟨.void, "zx_futex_wake_handle_close_thread_exit", [⟨none, .const_zx_futex_t_ptr, "value_ptr"⟩, ⟨none, .uint32_t, "count"⟩, ⟨none, .int32_t, "new_value"⟩, ⟨some .handle_release, .zx_handle_t, "handle"⟩], [.leaf_fn, .no_return]⟩

def d__zx_futex_wake_handle_close_thread_exit : CDecl :=
  ⟨.void, "_zx_futex_wake_handle_close_thread_exit", [⟨none, .const_zx_futex_t_ptr, "value_ptr"⟩, ⟨none, .uint32_t, "count"⟩, ⟨none, .int32_t, "new_value"⟩, ⟨some .handle_release, .zx_handle_t, "handle"⟩], [.leaf_fn, .no_return]⟩

def d_zx_log_write : CDecl :=
  ⟨.zx_status_t, "zx_log_write", [⟨some .handle_use, .zx_handle_t, "handle"⟩, ⟨none, .uint32_t, "len"⟩, ⟨none, .const_void_ptr, "buffer"⟩, ⟨none, .uint32_t, "options"⟩], [.leaf_fn]⟩

def d__zx_log_write : CDecl :=
  ⟨.zx_status_t, "_zx_log_write", [⟨some .handle_use, .zx_handle_t, "handle"⟩, ⟨none, .uint32_t, "len"⟩, ⟨none, .const_void_ptr, "buffer"⟩, ⟨none, .uint32_t, "options"⟩], [.leaf_fn]⟩

def d_zx_log_read : CDecl :=
  ⟨.zx_status_t, "zx_log_read", [⟨some .handle_use, .zx_handle_t, "handle"⟩, ⟨none, .uint32_t, "len"⟩, ⟨none, .void_ptr, "buffer"⟩, ⟨none, .uint32_t, "options"⟩], [.leaf_fn]⟩

def d__zx_log_read : CDecl :=
  ⟨.zx_status_t, "_zx_log_read", [⟨some .handle_use, .zx_handle_t, "handle"⟩, ⟨none, .uint32_t, "len"⟩, ⟨none, .void_ptr, "buffer"⟩, ⟨none, .uint32_t, "options"⟩], [.leaf_fn]⟩

def d_zx_debuglog_create : CDecl :=
  ⟨.zx_status_t, "zx_debuglog_create", [⟨some .handle_use, .zx_handle_t, "resource"⟩, ⟨none, .uint32_t, "options"⟩, ⟨some .handle_acquire, .zx_handle_t_ptr, "out"⟩], [.nonnull [3], .leaf_fn]⟩

def d__zx_debuglog_create : CDecl :=
  ⟨.zx_status_t, "_zx_debuglog_create", [⟨some .handle_use, .zx_handle_t, "resource"⟩, ⟨none, .uint32_t, "options"⟩, ⟨some .handle_acquire, .zx_handle_t_ptr, "out"⟩], [.nonnull [3], .leaf_fn]⟩

def d_zx_debuglog_write : CDecl :=
  ⟨.zx_status_t, "zx_debuglog_write", [⟨some .handle_use, .zx_handle_t, "handle"⟩, ⟨none, .uint32_t, "options"⟩, ⟨none, .const_void_ptr, "buffer"⟩, ⟨none, .size_t, "buffer_size"⟩], [.leaf_fn]⟩

def d__zx_debuglog_write : CDecl :=
  ⟨.zx_status_t, "_zx_debuglog_write", [⟨some .handle_use, .zx_handle_t, "handle"⟩, ⟨none, .uint32_t, "options"⟩, ⟨none, .const_void_ptr, "buffer"⟩, ⟨none, .size_t, "buffer_size"⟩], [.leaf_fn]⟩

def d_zx_debuglog_read : CDecl :=
  ⟨.zx_status_t, "zx_debuglog_read", [⟨some .handle_use, .zx_handle_t, "handle"⟩, ⟨none, .uint32_t, "options"⟩, ⟨none, .void_ptr, "buffer"⟩, ⟨none, .size_t, "buffer_size"⟩], [.leaf_fn]⟩

def d__zx_debuglog_read : CDecl :=
  ⟨.zx_status_t, "_zx_debuglog_read", [⟨some .handle_use, .zx_handle_t, "handle"⟩, ⟨none, .uint32_t, "options"⟩, ⟨none, .void_ptr, "buffer"⟩, ⟨none, .size_t, "buffer_size"⟩], [.leaf_fn]⟩

def d_zx_ktrace_read : CDecl :=
  ⟨.zx_status_t, "zx_ktrace_read", [⟨some .handle_use, .zx_handle_t, "handle"⟩, ⟨none, .void_ptr, "data"⟩, ⟨none, .uint32_t, "offset"⟩, ⟨none, .size_t, "data_size"⟩, ⟨none, .size_t_ptr, "actual"⟩], [.nonnull [5], .leaf_fn]⟩

def d__zx_ktrace_read : CDecl :=
  ⟨.zx_status_t, "_zx_ktrace_read", [⟨some .handle_use, .zx_handle_t, "handle"⟩, ⟨none, .void_ptr, "data"⟩, ⟨none, .uint32_t, "offset"⟩, ⟨none, .size_t, "data_size"⟩, ⟨none, .size_t_ptr, "actual"⟩], [.nonnull [5], .leaf_fn]⟩

def d_zx_ktrace_control : CDecl :=
  ⟨.zx_status_t, "zx_ktrace_control", [⟨some .handle_use, .zx_handle_t, "handle"⟩, ⟨none, .uint32_t, "action"⟩, ⟨none, .uint32_t, "options"⟩, ⟨none, .void_ptr, "ptr"⟩], [.leaf_fn]⟩

def d__zx_ktrace_control : CDecl :=
  ⟨.zx_status_t, "_zx_ktrace_control", [⟨some .handle_use, .zx_handle_t, "handle"⟩, ⟨none, .uint32_t, "action"⟩, ⟨none, .uint32_t, "options"⟩, ⟨none, .void_ptr, "ptr"⟩], [.leaf_fn]⟩

def d_zx_ktrace_write : CDecl :=
  ⟨.zx_status_t, "zx_ktrace_write", [⟨some .handle_use, .zx_handle_t, "handle"⟩, ⟨none, .uint32_t, "id"⟩, ⟨none, .uint32_t, "arg0"⟩, ⟨none, .uint32_t, "arg1"⟩], [.leaf_fn]⟩

def d__zx_ktrace_write : CDecl :=
  ⟨.zx_status_t, "_zx_ktrace_write", [⟨some .handle_use, .zx_handle_t, "handle"⟩, ⟨none, .uint32_t, "id"⟩, ⟨none, .uint32_t, "arg0"⟩, ⟨none, .uint32_t, "arg1"⟩], [.leaf_fn]⟩

def d_zx_mtrace_control : CDecl :=
  ⟨.zx_status_t, "zx_mtrace_control", [⟨some .handle_use, .zx_handle_t, "handle"⟩, ⟨none, .uint32_t, "kind"⟩, ⟨none, .uint32_t, "action"⟩, ⟨none, .uint32_t, "options"⟩, ⟨none, .void_ptr, "ptr"⟩, ⟨none, .size_t, "ptr_size"⟩], [.leaf_fn]⟩

def d__zx_mtrace_control : CDecl :=
  ⟨.zx_status_t, "_zx_mtrace_control", [⟨some .handle_use, .zx_handle_t, "handle"⟩, ⟨none, .uint32_t, "kind"⟩, ⟨none, .uint32_t, "action"⟩, ⟨none, .uint32_t, "options"⟩, ⟨none, .void_ptr, "ptr"⟩, ⟨none, .size_t, "ptr_size"⟩], [.leaf_fn]⟩

def d_zx_debug_read : CDecl :=
  ⟨.zx_status_t, "zx_debug_read", [⟨some .handle_use, .zx_handle_t, "handle"⟩, ⟨none, .char_ptr, "buffer"⟩, ⟨none, .size_t_ptr, "buffer_size"⟩], [.leaf_fn]⟩

def d__zx_debug_read : CDecl :=
  ⟨.zx_status_t, "_zx_debug_read", [⟨some .handle_use, .zx_handle_t, "handle"⟩, ⟨none, .char_ptr, "buffer"⟩, ⟨none, .size_t_ptr, "buffer_size"⟩], [.leaf_fn]⟩

def d_zx_debug_write : CDecl :=
  ⟨.zx_status_t, "zx_debug_write", [⟨none, .const_char_ptr, "buffer"⟩, ⟨none, .size_t, "buffer_size"⟩], [.leaf_fn]⟩

def d__zx_debug_write : CDecl :=
  ⟨.zx_status_t, "_zx_debug_write", [⟨none, .const_char_ptr, "buffer"⟩, ⟨none, .size_t, "buffer_size"⟩], [.leaf_fn]⟩

def d_zx_debug_send_command : CDecl :=
  ⟨.zx_status_t, "zx_debug_send_command", [⟨some .handle_use, .zx_handle_t, "resource"⟩, ⟨none, .const_char_ptr, "buffer"⟩, ⟨none, .size_t, "buffer_size"⟩], [.leaf_fn]⟩

def d__zx_debug_send_command : CDecl :=
  ⟨.zx_status_t, "_zx_debug_send_command", [⟨some .handle_use, .zx_handle_t, "resource"⟩, ⟨none, .const_char_ptr, "buffer"⟩, ⟨none, .size_t, "buffer_size"⟩], [.leaf_fn]⟩

def d_zx_interrupt_create : CDecl :=
  ⟨.zx_status_t, "zx_interrupt_create", [⟨some .handle_use, .zx_handle_t, "src_obj"⟩, ⟨none, .uint32_t, "src_num"⟩, ⟨none, .uint32_t, "options"⟩, ⟨none, .zx_handle_t_ptr, "out"⟩], [.nonnull [4], .leaf_fn]⟩

def d__zx_interrupt_create : CDecl :=
  ⟨.zx_status_t, "_zx_interrupt_create", [⟨some .handle_use, .zx_handle_t, "src_obj"⟩, ⟨none, .uint32_t, "src_num"⟩, ⟨none, .uint32_t, "options"⟩, ⟨none, .zx_handle_t_ptr, "out"⟩], [.nonnull [4], .leaf_fn]⟩

def d_zx_interrupt_bind : CDecl :=
  ⟨.zx_status_t, "zx_interrupt_bind", [⟨some .handle_use, .zx_handle_t, "handle"⟩, ⟨some .handle_use, .zx_handle_t, "port"⟩, ⟨none, .uint64_t, "key"⟩, ⟨none, .uint32_t, "options"⟩], [.leaf_fn]⟩

def d__zx_interrupt_bind : CDecl :=
  ⟨.zx_status_t, "_zx_interrupt_bind", [⟨some .handle_use, .zx_handle_t, "handle"⟩, ⟨some .handle_use, .zx_handle_t, "port"⟩, ⟨none, .uint64_t, "key"⟩, ⟨none, .uint32_t, "options"⟩], [.leaf_fn]⟩

def d_zx_interrupt_wait : CDecl :=
  ⟨.zx_status_t, "zx_interrupt_wait", [⟨some .handle_use, .zx_handle_t, "handle"⟩, ⟨none, .zx_time_t_ptr, "out_timestamp"⟩], [.leaf_fn]⟩

def d__zx_interrupt_wait : CDecl :=
  ⟨.zx_status_t, "_zx_interrupt_wait", [⟨some .handle_use, .zx_handle_t, "handle"⟩, ⟨none, .zx_time_t_ptr, "out_timestamp"⟩], [.leaf_fn]⟩

def d_zx_interrupt_destroy : CDecl :=
  ⟨.zx_status_t, "zx_interrupt_destroy", [⟨some .handle_use, .zx_handle_t, "handle"⟩], [.leaf_fn]⟩

def d__zx_interrupt_destroy : CDecl :=
  ⟨.zx_status_t, "_zx_interrupt_destroy", [⟨some .handle_use, .zx_handle_t, "handle"⟩], [.leaf_fn]⟩

def d_zx_interrupt_ack : CDecl :=
  ⟨.zx_status_t, "zx_interrupt_ack", [⟨some .handle_use, .zx_handle_t, "handle"⟩], [.leaf_fn]⟩

def d__zx_interrupt_ack : CDecl :=
  ⟨.zx_status_t, "_zx_interrupt_ack", [⟨some .handle_use, .zx_handle_t, "handle"⟩], [.leaf_fn]⟩

def d_zx_interrupt_trigger : CDecl :=
  ⟨.zx_status_t, "zx_interrupt_trigger", [⟨some .handle_use, .zx_handle_t, "handle"⟩, ⟨none, .uint32_t, "options"⟩, ⟨none, .zx_time_t, "timestamp"⟩], [.leaf_fn]⟩

def d__zx_interrupt_trigger : CDecl :=
  ⟨.zx_status_t, "_zx_interrupt_trigger", [⟨some .handle_use, .zx_handle_t, "handle"⟩, ⟨none, .uint32_t, "options"⟩, ⟨none, .zx_time_t, "timestamp"⟩], [.leaf_fn]⟩

def d_zx_interrupt_bind_vcpu : CDecl :=
  ⟨.zx_status_t, "zx_interrupt_bind_vcpu", [⟨some .handle_use, .zx_handle_t, "handle"⟩, ⟨some .handle_use, .zx_handle_t, "vcpu"⟩, ⟨none, .uint32_t, "options"⟩], [.leaf_fn]⟩

def d__zx_interrupt_bind_vcpu : CDecl :=
  ⟨.zx_status_t, "_zx_interrupt_bind_vcpu", [⟨some .handle_use, .zx_handle_t, "handle"⟩, ⟨some .handle_use, .zx_handle_t, "vcpu"⟩, ⟨none, .uint32_t, "options"⟩], [.leaf_fn]⟩

def d_zx_ioports_request : CDecl :=
  ⟨.zx_status_t, "zx_ioports_request", [⟨some .handle_use, .zx_handle_t, "resource"⟩, ⟨none, .uint16_t, "io_addr"⟩, ⟨none, .uint32_t, "len"⟩], [.leaf_fn]⟩

def d__zx_ioports_request : CDecl :=
  ⟨.zx_status_t, "_zx_ioports_request", [⟨some .handle_use, .zx_handle_t, "resource"⟩, ⟨none, .uint16_t, "io_addr"⟩, ⟨none, .uint32_t, "len"⟩], [.leaf_fn]⟩

def d_zx_vmo_create_contiguous : CDecl :=
  ⟨.zx_status_t, "zx_vmo_create_contiguous", [⟨some .handle_use, .zx_handle_t, "bti"⟩, ⟨none, .size_t, "size"⟩, ⟨none, .uint32_t, "alignment_log2"⟩, ⟨some .handle_acquire, .zx_handle_t_ptr, "out"⟩], [.nonnull [4], .leaf_fn]⟩

def d__zx_vmo_create_contiguous : CDecl :=
  ⟨.zx_status_t, "_zx_vmo_create_contiguous", [⟨some .handle_use, .zx_handle_t, "bti"⟩, ⟨none, .size_t, "size"⟩, ⟨none, .uint32_t, "alignment_log2"⟩, ⟨some .handle_acquire, .zx_handle_t_ptr, "out"⟩], [.nonnull [4], .leaf_fn]⟩

def d_zx_vmo_create_physical : CDecl :=
  ⟨.zx_status_t, "zx_vmo_create_physical", [⟨some .handle_use, .zx_handle_t, "resource"⟩, ⟨none, .zx_paddr_t, "paddr"⟩, ⟨none, .size_t, "size"⟩, ⟨some .handle_acquire, .zx_handle_t_ptr, "out"⟩], [.nonnull [4], .leaf_fn]⟩

def d__zx_vmo_create_physical : CDecl :=
  ⟨.zx_status_t, "_zx_vmo_create_physical", [⟨some .handle_use, .zx_handle_t, "resource"⟩, ⟨none, .zx_paddr_t, "paddr"⟩, ⟨none, .size_t, "size"⟩, ⟨some .handle_acquire, .zx_handle_t_ptr, "out"⟩], [.nonnull [4], .leaf_fn]⟩

def d_zx_iommu_create : CDecl :=
  ⟨.zx_status_t, "zx_iommu_create", [⟨some .handle_use, .zx_handle_t, "resource"⟩, ⟨none, .uint32_t, "type"⟩, ⟨none, .const_void_ptr, "desc"⟩, ⟨none, .size_t, "desc_size"⟩, ⟨some .handle_acquire, .zx_handle_t_ptr, "out"⟩], [.nonnull [5], .leaf_fn]⟩

def d__zx_iommu_create : CDecl :=
  ⟨.zx_status_t, "_zx_iommu_create", [⟨some .handle_use, .zx_handle_t, "resource"⟩, ⟨none, .uint32_t, "type"⟩, ⟨none, .const_void_ptr, "desc"⟩, ⟨none, .size_t, "desc_size"⟩, ⟨some .handle_acquire, .zx_handle_t_ptr, "out"⟩], [.nonnull [5], .leaf_fn]⟩

def d_zx_bti_create : CDecl :=
  ⟨.zx_status_t, "zx_bti_create", [⟨some .handle_use, .zx_handle_t, "iommu"⟩, ⟨none, .uint32_t, "options"⟩, ⟨none, .uint64_t, "bti_id"⟩, ⟨some .handle_acquire, .zx_handle_t_ptr, "out"⟩], [.nonnull [4], .leaf_fn]⟩

def d__zx_bti_create : CDecl :=
  ⟨.zx_status_t, "_zx_bti_create", [⟨some .handle_use, .zx_handle_t, "iommu"⟩, ⟨none, .uint32_t, "options"⟩, ⟨none, .uint64_t, "bti_id"⟩, ⟨some .handle_acquire, .zx_handle_t_ptr, "out"⟩], [.nonnull [4], .leaf_fn]⟩

def d_zx_bti_pin : CDecl :=
  ⟨.zx_status_t, "zx_bti_pin", [⟨some .handle_use, .zx_handle_t, "handle"⟩, ⟨none, .uint32_t, "options"⟩, ⟨some .handle_use, .zx_handle_t, "vmo"⟩, ⟨none, .uint64_t, "offset"⟩, ⟨none, .uint64_t, "size"⟩, ⟨none, .zx_paddr_t_ptr, "addrs"⟩, ⟨none, .size_t, "addrs_count"⟩, ⟨some .handle_acquire, .zx_handle_t_ptr, "pmt"⟩], [.nonnull [8], .leaf_fn]⟩

def d__zx_bti_pin : CDecl :=
  ⟨.zx_status_t, "_zx_bti_pin", [⟨some .handle_use, .zx_handle_t, "handle"⟩, ⟨none, .uint32_t, "options"⟩, ⟨some .handle_use, .zx_handle_t, "vmo"⟩, ⟨none, .uint64_t, "offset"⟩, ⟨none, .uint64_t, "size"⟩, ⟨none, .zx_paddr_t_ptr, "addrs"⟩, ⟨none, .size_t, "addrs_count"⟩, ⟨some .handle_acquire, .zx_handle_t_ptr, "pmt"⟩], [.nonnull [8], .leaf_fn]⟩

def d_zx_bti_release_quarantine : CDecl :=
  ⟨.zx_status_t, "zx_bti_release_quarantine", [⟨some .handle_use, .zx_handle_t, "handle"⟩], [.leaf_fn]⟩

def d__zx_bti_release_quarantine : CDecl :=
  ⟨.zx_status_t, "_zx_bti_release_quarantine", [⟨some .handle_use, .zx_handle_t, "handle"⟩], [.leaf_fn]⟩

def d_zx_pmt_unpin : CDecl :=
  ⟨.zx_status_t, "zx_pmt_unpin", [⟨some .handle_release_always, .zx_handle_t, "handle"⟩], [.leaf_fn]⟩

def d__zx_pmt_unpin : CDecl :=
  ⟨.zx_status_t, "_zx_pmt_unpin", [⟨some .handle_release_always, .zx_handle_t, "handle"⟩], [.leaf_fn]⟩

def d_zx_framebuffer_get_info : CDecl :=
  ⟨.zx_status_t, "zx_framebuffer_get_info", [⟨some .handle_use, .zx_handle_t, "resource"⟩, ⟨none, .uint32_t_ptr, "format"⟩, ⟨none, .uint32_t_ptr, "width"⟩, ⟨none, .uint32_t_ptr, "height"⟩, ⟨none, .uint32_t_ptr, "stride"⟩], [.nonnull [2, 3, 4, 5], .leaf_fn]⟩

def d__zx_framebuffer_get_info : CDecl :=
  ⟨.zx_status_t, "_zx_framebuffer_get_info", [⟨some .handle_use, .zx_handle_t, "resource"⟩, ⟨none, .uint32_t_ptr, "format"⟩, ⟨none, .uint32_t_ptr, "width"⟩, ⟨none, .uint32_t_ptr, "height"⟩, ⟨none, .uint32_t_ptr, "stride"⟩], [.nonnull [2, 3, 4, 5], .leaf_fn]⟩

def d_zx_framebuffer_set_range : CDecl :=
  ⟨.zx_status_t, "zx_framebuffer_set_range", [⟨some .handle_use, .zx_handle_t, "resource"⟩, ⟨some .handle_use, .zx_handle_t, "vmo"⟩, ⟨none, .uint32_t, "len"⟩, ⟨none, .uint32_t, "format"⟩, ⟨none, .uint32_t, "width"⟩, ⟨none, .uint32_t, "height"⟩, ⟨none, .uint32_t, "stride"⟩], [.leaf_fn]⟩

def d__zx_framebuffer_set_range : CDecl :=
  ⟨.zx_status_t, "_zx_framebuffer_set_range", [⟨some .handle_use, .zx_handle_t, "resource"⟩, ⟨some .handle_use, .zx_handle_t, "vmo"⟩, ⟨none, .uint32_t, "len"⟩, ⟨none, .uint32_t, "format"⟩, ⟨none, .uint32_t, "width"⟩, ⟨none, .uint32_t, "height"⟩, ⟨none, .uint32_t, "stride"⟩], [.leaf_fn]⟩

def d_zx_pci_get_nth_device : CDecl :=
  ⟨.zx_status_t, "zx_pci_get_nth_device", [⟨some .handle_use, .zx_handle_t, "handle"⟩, ⟨none, .uint32_t, "index"⟩, ⟨none, .zx_pcie_device_info_t_ptr, "out_info"⟩, ⟨some .handle_acquire, .zx_handle_t_ptr, "out_handle"⟩], [.nonnull [3, 4], .leaf_fn]⟩

def d__zx_pci_get_nth_device : CDecl :=
  ⟨.zx_status_t, "_zx_pci_get_nth_device", [⟨some .handle_use, .zx_handle_t, "handle"⟩, ⟨none, .uint32_t, "index"⟩, ⟨none, .zx_pcie_device_info_t_ptr, "out_info"⟩, ⟨some .handle_acquire, .zx_handle_t_ptr, "out_handle"⟩], [.nonnull [3, 4], .leaf_fn]⟩

def d_zx_pci_enable_bus_master : CDecl :=
  ⟨.zx_status_t, "zx_pci_enable_bus_master", [⟨some .handle_use, .zx_handle_t, "handle"⟩, ⟨none, .bool, "enable"⟩], [.leaf_fn]⟩

def d__zx_pci_enable_bus_master : CDecl :=
  ⟨.zx_status_t, "_zx_pci_enable_bus_master", [⟨some .handle_use, .zx_handle_t, "handle"⟩, ⟨none, .bool, "enable"⟩], [.leaf_fn]⟩

def d_zx_pci_reset_device : CDecl :=
  ⟨.zx_status_t, "zx_pci_reset_device", [⟨some .handle_use, .zx_handle_t, "handle"⟩], [.leaf_fn]⟩

def d__zx_pci_reset_device : CDecl :=
  ⟨.zx_status_t, "_zx_pci_reset_device", [⟨some .handle_use, .zx_handle_t, "handle"⟩], [.leaf_fn]⟩

def d_zx_pci_config_read : CDecl :=
  ⟨.zx_status_t, "zx_pci_config_read", [⟨some .handle_use, .zx_handle_t, "handle"⟩, ⟨none, .uint16_t, "offset"⟩, ⟨none, .size_t, "width"⟩, ⟨none, .uint32_t_ptr, "out_val"⟩], [.leaf_fn]⟩

def d__zx_pci_config_read : CDecl :=
  ⟨.zx_status_t, "_zx_pci_config_read", [⟨some .handle_use, .zx_handle_t, "handle"⟩, ⟨none, .uint16_t, "offset"⟩, ⟨none, .size_t, "width"⟩, ⟨none, .uint32_t_ptr, "out_val"⟩], [.leaf_fn]⟩

def d_zx_pci_config_write : CDecl :=
  ⟨.zx_status_t, "zx_pci_config_write", [⟨some .handle_use, .zx_handle_t, "handle"⟩, ⟨none, .uint16_t, "offset"⟩, ⟨none, .size_t, "width"⟩, ⟨none, .uint32_t, "val"⟩], [.leaf_fn]⟩

def d__zx_pci_config_write : CDecl :=
  ⟨.zx_status_t, "_zx_pci_config_write", [⟨some .handle_use, .zx_handle_t, "handle"⟩, ⟨none, .uint16_t, "offset"⟩, ⟨none, .size_t, "width"⟩, ⟨none, .uint32_t, "val"⟩], [.leaf_fn]⟩

def d_zx_pci_cfg_pio_rw : CDecl :=
  ⟨.zx_status_t, "zx_pci_cfg_pio_rw", [⟨some .handle_use, .zx_handle_t, "handle"⟩, ⟨none, .uint8_t, "bus"⟩, ⟨none, .uint8_t, "dev"⟩, ⟨none, .uint8_t, "func"⟩, ⟨none, .uint8_t, "offset"⟩, ⟨none, .uint32_t_ptr, "val"⟩, ⟨none, .size_t, "width"⟩, ⟨none, .bool, "write"⟩], [.leaf_fn]⟩

def d__zx_pci_cfg_pio_rw : CDecl :=
  ⟨.zx_status_t, "_zx_pci_cfg_pio_rw", [⟨some .handle_use, .zx_handle_t, "handle"⟩, ⟨none, .uint8_t, "bus"⟩, ⟨none, .uint8_t, "dev"⟩, ⟨none, .uint8_t, "func"⟩, ⟨none, .uint8_t, "offset"⟩, ⟨none, .uint32_t_ptr, "val"⟩, ⟨none, .size_t, "width"⟩, ⟨none, .bool, "write"⟩], [.leaf_fn]⟩

def d_zx_pci_get_bar : CDecl :=
  ⟨.zx_status_t, "zx_pci_get_bar", [⟨some .handle_use, .zx_handle_t, "handle"⟩, ⟨none, .uint32_t, "bar_num"⟩, ⟨none, .zx_pci_bar_t_ptr, "out_bar"⟩, ⟨some .handle_acquire, .zx_handle_t_ptr, "out_handle"⟩], [.nonnull [4], .leaf_fn]⟩

def d__zx_pci_get_bar : CDecl :=
  ⟨.zx_status_t, "_zx_pci_get_bar", [⟨some .handle_use, .zx_handle_t, "handle"⟩, ⟨none, .uint32_t, "bar_num"⟩, ⟨none, .zx_pci_bar_t_ptr, "out_bar"⟩, ⟨some .handle_acquire, .zx_handle_t_ptr, "out_handle"⟩], [.nonnull [4], .leaf_fn]⟩

def d_zx_pci_map_interrupt : CDecl :=
  ⟨.zx_status_t, "zx_pci_map_interrupt", [⟨some .handle_use, .zx_handle_t, "handle"⟩, ⟨none, .int32_t, "which_irq"⟩, ⟨some .handle_acquire, .zx_handle_t_ptr, "out_handle"⟩], [.nonnull [3], .leaf_fn]⟩

def d__zx_pci_map_interrupt : CDecl :=
  ⟨.zx_status_t, "_zx_pci_map_interrupt", [⟨some .handle_use, .zx_handle_t, "handle"⟩, ⟨none, .int32_t, "which_irq"⟩, ⟨some .handle_acquire, .zx_handle_t_ptr, "out_handle"⟩], [.nonnull [3], .leaf_fn]⟩

def d_zx_pci_query_irq_mode : CDecl :=
  ⟨.zx_status_t, "zx_pci_query_irq_mode", [⟨some .handle_use, .zx_handle_t, "handle"⟩, ⟨none, .uint32_t, "mode"⟩, ⟨none, .uint32_t_ptr, "out_max_irqs"⟩], [.nonnull [3], .leaf_fn]⟩

def d__zx_pci_query_irq_mode : CDecl :=
  ⟨.zx_status_t, "_zx_pci_query_irq_mode", [⟨some .handle_use, .zx_handle_t, "handle"⟩, ⟨none, .uint32_t, "mode"⟩, ⟨none, .uint32_t_ptr, "out_max_irqs"⟩], [.nonnull [3], .leaf_fn]⟩

def d_zx_pci_set_irq_mode : CDecl :=
  ⟨.zx_status_t, "zx_pci_set_irq_mode", [⟨some .handle_use, .zx_handle_t, "handle"⟩, ⟨none, .uint32_t, "mode"⟩, ⟨none, .uint32_t, "requested_irq_count"⟩], [.leaf_fn]⟩

def d__zx_pci_set_irq_mode : CDecl :=
  ⟨.zx_status_t, "_zx_pci_set_irq_mode", [⟨some .handle_use, .zx_handle_t, "handle"⟩, ⟨none, .uint32_t, "mode"⟩, ⟨none, .uint32_t, "requested_irq_count"⟩], [.leaf_fn]⟩

def d_zx_pci_init : CDecl :=
  ⟨.zx_status_t, "zx_pci_init", [⟨some .handle_use, .zx_handle_t, "handle"⟩, ⟨none, .const_zx_pci_init_arg_t_ptr, "init_buf"⟩, ⟨none, .uint32_t, "len"⟩], [.leaf_fn]⟩

def d__zx_pci_init : CDecl :=
  ⟨.zx_status_t, "_zx_pci_init", [⟨some .handle_use, .zx_handle_t, "handle"⟩, ⟨none, .const_zx_pci_init_arg_t_ptr, "init_buf"⟩, ⟨none, .uint32_t, "len"⟩], [.leaf_fn]⟩

def d_zx_pci_add_subtract_io_range : CDecl :=
  ⟨.zx_status_t, "zx_pci_add_subtract_io_range", [⟨some .handle_use, .zx_handle_t, "handle"⟩, ⟨none, .bool, "mmio"⟩, ⟨none, .uint64_t, "base"⟩, ⟨none, .uint64_t, "len"⟩, ⟨none, .bool, "add"⟩], [.leaf_fn]⟩

def d__zx_pci_add_subtract_io_range : CDecl :=
  ⟨.zx_status_t, "_zx_pci_add_subtract_io_range", [⟨some .handle_use, .zx_handle_t, "handle"⟩, ⟨none, .bool, "mmio"⟩, ⟨none, .uint64_t, "base"⟩, ⟨none, .uint64_t, "len"⟩, ⟨none, .bool, "add"⟩], [.leaf_fn]⟩

def d_zx_pc_firmware_tables : CDecl :=
  ⟨.zx_status_t, "zx_pc_firmware_tables", [⟨some .handle_use, .zx_handle_t, "handle"⟩, ⟨none, .zx_paddr_t_ptr, "acpi_rsdp"⟩, ⟨none, .zx_paddr_t_ptr, "smbios"⟩], [.nonnull [2, 3], .leaf_fn]⟩

def d__zx_pc_firmware_tables : CDecl :=
  ⟨.zx_status_t, "_zx_pc_firmware_tables", [⟨some .handle_use, .zx_handle_t, "handle"⟩, ⟨none, .zx_paddr_t_ptr, "acpi_rsdp"⟩, ⟨none, .zx_paddr_t_ptr, "smbios"⟩], [.nonnull [2, 3], .leaf_fn]⟩

def d_zx_smc_call : CDecl :=
  ⟨.zx_status_t, "zx_smc_call", [⟨some .handle_use, .zx_handle_t, "handle"⟩, ⟨none, .const_zx_smc_parameters_t_ptr, "parameters"⟩, ⟨none, .zx_smc_result_t_ptr, "out_smc_result"⟩], [.nonnull [3], .leaf_fn]⟩

def d__zx_smc_call : CDecl :=
  ⟨.zx_status_t, "_zx_smc_call", [⟨some .handle_use, .zx_handle_t, "handle"⟩, ⟨none, .const_zx_smc_parameters_t_ptr, "parameters"⟩, ⟨none, .zx_smc_result_t_ptr, "out_smc_result"⟩], [.nonnull [3], .leaf_fn]⟩

def d_zx_resource_create : CDecl :=
  ⟨.zx_status_t, "zx_resource_create", [⟨some .handle_use, .zx_handle_t, "parent_rsrc"⟩, ⟨none, .uint32_t, "options"⟩, ⟨none, .uint64_t, "base"⟩, ⟨none, .size_t, "size"⟩, ⟨none, .const_char_ptr, "name"⟩, ⟨none, .size_t, "name_size"⟩, ⟨some .handle_acquire, .zx_handle_t_ptr, "resource_out"⟩], [.nonnull [7], .leaf_fn]⟩

def d__zx_resource_create : CDecl :=
  ⟨.zx_status_t, "_zx_resource_create", [⟨some .handle_use, .zx_handle_t, "parent_rsrc"⟩, ⟨none, .uint32_t, "options"⟩, ⟨none, .uint64_t, "base"⟩, ⟨none, .size_t, "size"⟩, ⟨none, .const_char_ptr, "name"⟩, ⟨none, .size_t, "name_size"⟩, ⟨some .handle_acquire, .zx_handle_t_ptr, "resource_out"⟩], [.nonnull [7], .leaf_fn]⟩

def d_zx_guest_create : CDecl :=
  ⟨.zx_status_t, "zx_guest_create", [⟨some .handle_use, .zx_handle_t, "resource"⟩, ⟨none, .uint32_t, "options"⟩, ⟨some .handle_acquire, .zx_handle_t_ptr, "guest_handle"⟩, ⟨some .handle_acquire, .zx_handle_t_ptr, "vmar_handle"⟩], [.nonnull [3, 4], .leaf_fn]⟩

def d__zx_guest_create : CDecl :=
  ⟨.zx_status_t, "_zx_guest_create", [⟨some .handle_use, .zx_handle_t, "resource"⟩, ⟨none, .uint32_t, "options"⟩, ⟨some .handle_acquire, .zx_handle_t_ptr, "guest_handle"⟩, ⟨some .handle_acquire, .zx_handle_t_ptr, "vmar_handle"⟩], [.nonnull [3, 4], .leaf_fn]⟩

def d_zx_guest_set_trap : CDecl :=
  ⟨.zx_status_t, "zx_guest_set_trap", [⟨some .handle_use, .zx_handle_t, "handle"⟩, ⟨none, .uint32_t, "kind"⟩, ⟨none, .zx_vaddr_t, "addr"⟩, ⟨none, .size_t, "size"⟩, ⟨some .handle_use, .zx_handle_t, "port_handle"⟩, ⟨none, .uint64_t, "key"⟩], [.leaf_fn]⟩

def d__zx_guest_set_trap : CDecl :=
  ⟨.zx_status_t, "_zx_guest_set_trap", [⟨some .handle_use, .zx_handle_t, "handle"⟩, ⟨none, .uint32_t, "kind"⟩, ⟨none, .zx_vaddr_t, "addr"⟩, ⟨none, .size_t, "size"⟩, ⟨some .handle_use, .zx_handle_t, "port_handle"⟩, ⟨none, .uint64_t, "key"⟩], [.leaf_fn]⟩

def d_zx_vcpu_create : CDecl :=
  ⟨.zx_status_t, "zx_vcpu_create", [⟨some .handle_use, .zx_handle_t, "guest"⟩, ⟨none, .uint32_t, "options"⟩, ⟨none, .zx_vaddr_t, "entry"⟩, ⟨some .handle_acquire, .zx_handle_t_ptr, "out"⟩], [.nonnull [4], .leaf_fn]⟩

def d__zx_vcpu_create : CDecl :=
  ⟨.zx_status_t, "_zx_vcpu_create", [⟨some .handle_use, .zx_handle_t, "guest"⟩, ⟨none, .uint32_t, "options"⟩, ⟨none, .zx_vaddr_t, "entry"⟩, ⟨some .handle_acquire, .zx_handle_t_ptr, "out"⟩], [.nonnull [4], .leaf_fn]⟩

def d_zx_vcpu_resume : CDecl :=
  ⟨.zx_status_t, "zx_vcpu_resume", [⟨some .handle_use, .zx_handle_t, "handle"⟩, ⟨none, .zx_port_packet_t_ptr, "packet"⟩], [.nonnull [2], .leaf_fn]⟩

def d__zx_vcpu_resume : CDecl :=
  ⟨.zx_status_t, "_zx_vcpu_resume", [⟨some .handle_use, .zx_handle_t, "handle"⟩, ⟨none, .zx_port_packet_t_ptr, "packet"⟩], [.nonnull [2], .leaf_fn]⟩

def d_zx_vcpu_interrupt : CDecl :=
  ⟨.zx_status_t, "zx_vcpu_interrupt", [⟨some .handle_use, .zx_handle_t, "handle"⟩, ⟨none, .uint32_t, "vector"⟩], [.leaf_fn]⟩

def d__zx_vcpu_interrupt : CDecl :=
  ⟨.zx_status_t, "_zx_vcpu_interrupt", [⟨some .handle_use, .zx_handle_t, "handle"⟩, ⟨none, .uint32_t, "vector"⟩], [.leaf_fn]⟩

def d_zx_vcpu_read_state : CDecl :=
  ⟨.zx_status_t, "zx_vcpu_read_state", [⟨some .handle_use, .zx_handle_t, "handle"⟩, ⟨none, .uint32_t, "kind"⟩, ⟨none, .void_ptr, "buffer"⟩, ⟨none, .size_t, "buffer_size"⟩], [.leaf_fn]⟩

def d__zx_vcpu_read_state : CDecl :=
  ⟨.zx_status_t, "_zx_vcpu_read_state", [⟨some .handle_use, .zx_handle_t, "handle"⟩, ⟨none, .uint32_t, "kind"⟩, ⟨none, .void_ptr, "buffer"⟩, ⟨none, .size_t, "buffer_size"⟩], [.leaf_fn]⟩

def d_zx_vcpu_write_state : CDecl :=
  ⟨.zx_status_t, "zx_vcpu_write_state", [⟨some .handle_use, .zx_handle_t, "handle"⟩, ⟨none, .uint32_t, "kind"⟩, ⟨none, .const_void_ptr, "buffer"⟩, ⟨none, .size_t, "buffer_size"⟩], [.leaf_fn]⟩

def d__zx_vcpu_write_state : CDecl :=
  ⟨.zx_status_t, "_zx_vcpu_write_state", [⟨some .handle_use, .zx_handle_t, "handle"⟩, ⟨none, .uint32_t, "kind"⟩, ⟨none, .const_void_ptr, "buffer"⟩, ⟨none, .size_t, "buffer_size"⟩], [.leaf_fn]⟩

def d_zx_system_mexec : CDecl :=
  ⟨.zx_status_t, "zx_system_mexec", [⟨some .handle_use, .zx_handle_t, "resource"⟩, ⟨some .handle_use, .zx_handle_t, "kernel_vmo"⟩, ⟨some .handle_use, .zx_handle_t, "bootimage_vmo"⟩], [.leaf_fn]⟩

def d__zx_system_mexec : CDecl :=
  ⟨.zx_status_t, "_zx_system_mexec", [⟨some .handle_use, .zx_handle_t, "resource"⟩, ⟨some .handle_use, .zx_handle_t, "kernel_vmo"⟩, ⟨some .handle_use, .zx_handle_t, "bootimage_vmo"⟩], [.leaf_fn]⟩

def d_zx_system_mexec_payload_get : CDecl :=
  ⟨.zx_status_t, "zx_system_mexec_payload_get", [⟨some .handle_use, .zx_handle_t, "resource"⟩, ⟨none, .void_ptr, "buffer"⟩, ⟨none, .size_t, "buffer_size"⟩], [.leaf_fn]⟩

def d__zx_system_mexec_payload_get : CDecl :=
  ⟨.zx_status_t, "_zx_system_mexec_payload_get", [⟨some .handle_use, .zx_handle_t, "resource"⟩, ⟨none, .void_ptr, "buffer"⟩, ⟨none, .size_t, "buffer_size"⟩], [.leaf_fn]⟩

def d_zx_system_powerctl : CDecl :=
  ⟨.zx_status_t, "zx_system_powerctl", [⟨some .handle_use, .zx_handle_t, "resource"⟩, ⟨none, .uint32_t, "cmd"⟩, ⟨none, .const_zx_system_powerctl_arg_t_ptr, "arg"⟩], [.leaf_fn]⟩

def d__zx_system_powerctl : CDecl :=
  ⟨.zx_status_t, "_zx_system_powerctl", [⟨some .handle_use, .zx_handle_t, "resource"⟩, ⟨none, .uint32_t, "cmd"⟩, ⟨none, .const_zx_system_powerctl_arg_t_ptr, "arg"⟩], [.leaf_fn]⟩

def d_zx_pager_create : CDecl :=
  ⟨.zx_status_t, "zx_pager_create", [⟨none, .uint32_t, "options"⟩, ⟨some .pager, .zx_handle_t_ptr, "out_pager"⟩], [.nonnull [2], .leaf_fn]⟩

def d__zx_pager_create : CDecl :=
  ⟨.zx_status_t, "_zx_pager_create", [⟨none, .uint32_t, "options"⟩, ⟨some .pager, .zx_handle_t_ptr, "out_pager"⟩], [.nonnull [2], .leaf_fn]⟩

def d_zx_pager_create_vmo : CDecl :=
  ⟨.zx_status_t, "zx_pager_create_vmo", [⟨some .handle_use, .zx_handle_t, "pager"⟩, ⟨some .handle_use, .zx_handle_t, "port"⟩, ⟨none, .uint64_t, "key"⟩, ⟨none, .uint64_t, "size"⟩, ⟨none, .uint32_t, "options"⟩, ⟨some .out_pager_vmo, .zx_handle_t_ptr, "out_pager_vmo"⟩], [.nonnull [6], .leaf_fn]⟩

def d__zx_pager_create_vmo : CDecl :=
  ⟨.zx_status_t, "_zx_pager_create_vmo", [⟨some .handle_use, .zx_handle_t, "pager"⟩, ⟨some .handle_use, .zx_handle_t, "port"⟩, ⟨none, .uint64_t, "key"⟩, ⟨none, .uint64_t, "size"⟩, ⟨none, .uint32_t, "options"⟩, ⟨some .out_pager_vmo, .zx_handle_t_ptr, "out_pager_vmo"⟩], [.nonnull [6], .leaf_fn]⟩

def d_zx_syscall_test_0 : CDecl :=
  ⟨.zx_status_t, "zx_syscall_test_0", [], [.leaf_fn]⟩

def d__zx_syscall_test_0 : CDecl :=
  ⟨.zx_status_t, "_zx_syscall_test_0", [], [.leaf_fn]⟩

def d_zx_syscall_test_1 : CDecl :=
  ⟨.zx_status_t, "zx_syscall_test_1", [⟨none, .int, "a"⟩], [.leaf_fn]⟩

def d__zx_syscall_test_1 : CDecl :=
  ⟨.zx_status_t, "_zx_syscall_test_1", [⟨none, .int, "a"⟩], [.leaf_fn]⟩

def d_zx_syscall_test_2 : CDecl :=
  ⟨.zx_status_t, "zx_syscall_test_2", [⟨none, .int, "a"⟩, ⟨none, .int, "b"⟩], [.leaf_fn]⟩

def d__zx_syscall_test_2 : CDecl :=
  ⟨.zx_status_t, "_zx_syscall_test_2", [⟨none, .int, "a"⟩, ⟨none, .int, "b"⟩], [.leaf_fn]⟩

def d_zx_syscall_test_3 : CDecl :=
  ⟨.zx_status_t, "zx_syscall_test_3", [⟨none, .int, "a"⟩, ⟨none, .int, "b"⟩, ⟨none, .int, "c"⟩], [.leaf_fn]⟩

def d__zx_syscall_test_3 : CDecl :=
  ⟨.zx_status_t, "_zx_syscall_test_3", [⟨none, .int, "a"⟩, ⟨none, .int, "b"⟩, ⟨none, .int, "c"⟩], [.leaf_fn]⟩

def d_zx_syscall_test_4 : CDecl :=
  ⟨.zx_status_t, "zx_syscall_test_4", [⟨none, .int, "a"⟩, ⟨none, .int, "b"⟩, ⟨none, .int, "c"⟩, ⟨none, .int, "d"⟩], [.leaf_fn]⟩

def d__zx_syscall_test_4 : CDecl :=
  ⟨.zx_status_t, "_zx_syscall_test_4", [⟨none, .int, "a"⟩, ⟨none, .int, "b"⟩, ⟨none, .int, "c"⟩, ⟨none, .int, "d"⟩], [.leaf_fn]⟩

def d_zx_syscall_test_5 : CDecl :=
  ⟨.zx_status_t, "zx_syscall_test_5", [⟨none, .int, "a"⟩, ⟨none, .int, "b"⟩, ⟨none, .int, "c"⟩, ⟨none, .int, "d"⟩, ⟨none, .int, "e"⟩], [.leaf_fn]⟩

def d__zx_syscall_test_5 : CDecl :=
  ⟨.zx_status_t, "_zx_syscall_test_5", [⟨none, .int, "a"⟩, ⟨none, .int, "b"⟩, ⟨none, .int, "c"⟩, ⟨none, .int, "d"⟩, ⟨none, .int, "e"⟩], [.leaf_fn]⟩

def d_zx_syscall_test_6 : CDecl :=
  ⟨.zx_status_t, "zx_syscall_test_6", [⟨none, .int, "a"⟩, ⟨none, .int, "b"⟩, ⟨none, .int, "c"⟩, ⟨none, .int, "d"⟩, ⟨none, .int, "e"⟩, ⟨none, .int, "f"⟩], [.leaf_fn]⟩

def d__zx_syscall_test_6 : CDecl :=
  ⟨.zx_status_t, "_zx_syscall_test_6", [⟨none, .int, "a"⟩, ⟨none, .int, "b"⟩, ⟨none, .int, "c"⟩, ⟨none, .int, "d"⟩, ⟨none, .int, "e"⟩, ⟨none, .int, "f"⟩], [.leaf_fn]⟩

def d_zx_syscall_test_7 : CDecl :=
  ⟨.zx_status_t, "zx_syscall_test_7", [⟨none, .int, "a"⟩, ⟨none, .int, "b"⟩, ⟨none, .int, "c"⟩, ⟨none, .int, "d"⟩, ⟨none, .int, "e"⟩, ⟨none, .int, "f"⟩, ⟨none, .int, "g"⟩], [.leaf_fn]⟩

def d__zx_syscall_test_7 : CDecl :=
  ⟨.zx_status_t, "_zx_syscall_test_7", [⟨none, .int, "a"⟩, ⟨none, .int, "b"⟩, ⟨none, .int, "c"⟩, ⟨none, .int, "d"⟩, ⟨none, .int, "e"⟩, ⟨none, .int, "f"⟩, ⟨none, .int, "g"⟩], [.leaf_fn]⟩

def d_zx_syscall_test_8 : CDecl :=
  ⟨.zx_status_t, "zx_syscall_test_8", [⟨none, .int, "a"⟩, ⟨none, .int, "b"⟩, ⟨none, .int, "c"⟩, ⟨none, .int, "d"⟩, ⟨none, .int, "e"⟩, ⟨none, .int, "f"⟩, ⟨none, .int, "g"⟩, ⟨none, .int, "h"⟩], [.leaf_fn]⟩

def d__zx_syscall_test_8 : CDecl :=
  ⟨.zx_status_t, "_zx_syscall_test_8", [⟨none, .int, "a"⟩, ⟨none, .int, "b"⟩, ⟨none, .int, "c"⟩, ⟨none, .int, "d"⟩, ⟨none, .int, "e"⟩, ⟨none, .int, "f"⟩, ⟨none, .int, "g"⟩, ⟨none, .int, "h"⟩], [.leaf_fn]⟩

def d_zx_syscall_test_wrapper : CDecl :=
  ⟨.zx_status_t, "zx_syscall_test_wrapper", [⟨none, .int, "a"⟩, ⟨none, .int, "b"⟩, ⟨none, .int, "c"⟩], [.leaf_fn]⟩

def d__zx_syscall_test_wrapper : CDecl :=
  ⟨.zx_status_t, "_zx_syscall_test_wrapper", [⟨none, .int, "a"⟩, ⟨none, .int, "b"⟩, ⟨none, .int, "c"⟩], [.leaf_fn]⟩

def sysChunk0 : List CDecl := [
  d_zx_clock_get, d__zx_clock_get,
  d_zx_clock_get_new, d__zx_clock_get_new,
  d_zx_clock_get_monotonic, d__zx_clock_get_monotonic,
  d_zx_nanosleep, d__zx_nanosleep,
  d_zx_ticks_get, d__zx_ticks_get,
  d_zx_ticks_per_second, d__zx_ticks_per_second,
  d_zx_deadline_after, d__zx_deadline_after,
  d_zx_clock_adjust, d__zx_clock_adjust,
  d_zx_system_get_dcache_line_size, d__zx_system_get_dcache_line_size,
  d_zx_system_get_num_cpus, d__zx_system_get_num_cpus,
  d_zx_system_get_version, d__zx_system_get_version,
  d_zx_system_get_physmem, d__zx_system_get_physmem,
  d_zx_system_get_features, d__zx_system_get_features,
  d_zx_cache_flush, d__zx_cache_flush,
  d_zx_handle_close, d__zx_handle_close,
  d_zx_handle_close_many, d__zx_handle_close_many,
  d_zx_handle_duplicate, d__zx_handle_duplicate]

def sysChunk1 : List CDecl := [
  d_zx_handle_replace, d__zx_handle_replace,
  d_zx_object_wait_one, d__zx_object_wait_one,
  d_zx_object_wait_many, d__zx_object_wait_many,
  d_zx_object_wait_async, d__zx_object_wait_async,
  d_zx_object_signal, d__zx_object_signal,
  d_zx_object_signal_peer, d__zx_object_signal_peer,
  d_zx_object_get_property, d__zx_object_get_property,
  d_zx_object_set_property, d__zx_object_set_property,
  d_zx_object_set_cookie, d__zx_object_set_cookie,
  d_zx_object_get_cookie, d__zx_object_get_cookie,
  d_zx_object_get_info, d__zx_object_get_info,
  d_zx_object_get_child, d__zx_object_get_child,
  d_zx_object_set_profile, d__zx_object_set_profile,
  d_zx_channel_create, d__zx_channel_create,
  d_zx_channel_read, d__zx_channel_read,
  d_zx_channel_read_etc, d__zx_channel_read_etc,
  d_zx_channel_write, d__zx_channel_write]

def sysChunk2 : List CDecl := [
  d_zx_channel_call, d__zx_channel_call,
  d_zx_socket_create, d__zx_socket_create,
  d_zx_socket_write, d__zx_socket_write,
  d_zx_socket_read, d__zx_socket_read,
  d_zx_socket_share, d__zx_socket_share,
  d_zx_socket_accept, d__zx_socket_accept,
  d_zx_socket_shutdown, d__zx_socket_shutdown,
  d_zx_thread_exit, d__zx_thread_exit,
  d_zx_thread_create, d__zx_thread_create,
  d_zx_thread_start, d__zx_thread_start,
  d_zx_thread_read_state, d__zx_thread_read_state,
  d_zx_thread_write_state, d__zx_thread_write_state,
  d_zx_thread_set_priority, d__zx_thread_set_priority,
  d_zx_process_exit, d__zx_process_exit,
  d_zx_process_create, d__zx_process_create,
  d_zx_process_start, d__zx_process_start,
  d_zx_process_read_memory, d__zx_process_read_memory]

def sysChunk3 : List CDecl := [
  d_zx_process_write_memory, d__zx_process_write_memory,
  d_zx_job_create, d__zx_job_create,
  d_zx_job_set_policy, d__zx_job_set_policy,
  d_zx_task_bind_exception_port, d__zx_task_bind_exception_port,
  d_zx_task_suspend, d__zx_task_suspend,
  d_zx_task_suspend_token, d__zx_task_suspend_token,
  d_zx_task_resume_from_exception, d__zx_task_resume_from_exception,
  d_zx_task_kill, d__zx_task_kill,
  d_zx_event_create, d__zx_event_create,
  d_zx_eventpair_create, d__zx_eventpair_create,
  d_zx_futex_wait, d__zx_futex_wait,
  d_zx_futex_wake, d__zx_futex_wake,
  d_zx_futex_requeue, d__zx_futex_requeue,
  d_zx_futex_wake_single_owner, d__zx_futex_wake_single_owner,
  d_zx_futex_requeue_single_owner, d__zx_futex_requeue_single_owner,
  d_zx_futex_get_owner, d__zx_futex_get_owner,
  d_zx_futex_wait_deprecated, d__zx_futex_wait_deprecated]

def sysChunk4 : List CDecl := [
  d_zx_futex_requeue_deprecated, d__zx_futex_requeue_deprecated,
  d_zx_port_create, d__zx_port_create,
  d_zx_port_queue, d__zx_port_queue,
  d_zx_port_wait, d__zx_port_wait,
  d_zx_port_cancel, d__zx_port_cancel,
  d_zx_timer_create, d__zx_timer_create,
  d_zx_timer_set, d__zx_timer_set,
  d_zx_timer_cancel, d__zx_timer_cancel,
  d_zx_vmo_create, d__zx_vmo_create,
  d_zx_vmo_read, d__zx_vmo_read,
  d_zx_vmo_write, d__zx_vmo_write,
  d_zx_vmo_get_size, d__zx_vmo_get_size,
  d_zx_vmo_set_size, d__zx_vmo_set_size,
  d_zx_vmo_op_range, d__zx_vmo_op_range,
  d_zx_vmo_clone, d__zx_vmo_clone,
  d_zx_vmo_set_cache_policy, d__zx_vmo_set_cache_policy,
  d_zx_vmo_replace_as_executable, d__zx_vmo_replace_as_executable]

def sysChunk5 : List CDecl := [
  d_zx_vmar_allocate_old, d__zx_vmar_allocate_old,
  d_zx_vmar_map_old, d__zx_vmar_map_old,
  d_zx_vmar_protect_old, d__zx_vmar_protect_old,
  d_zx_vmar_allocate, d__zx_vmar_allocate,
  d_zx_vmar_destroy, d__zx_vmar_destroy,
  d_zx_vmar_map, d__zx_vmar_map,
  d_zx_vmar_unmap, d__zx_vmar_unmap,
  d_zx_vmar_protect, d__zx_vmar_protect,
  d_zx_cprng_draw, d__zx_cprng_draw,
  d_zx_cprng_add_entropy, d__zx_cprng_add_entropy,
  d_zx_fifo_create, d__zx_fifo_create,
  d_zx_fifo_read, d__zx_fifo_read,
  d_zx_fifo_write, d__zx_fifo_write,
  d_zx_profile_create, d__zx_profile_create,
  d_zx_vmar_unmap_handle_close_thread_exit, d__zx_vmar_unmap_handle_close_thread_exit,
  d_zx_futex_wake_handle_close_thread_exit, d__zx_futex_wake_handle_close_thread_exit,
  d_zx_log_write, d__zx_log_write]

def sysChunk6 : List CDecl := [
  d_zx_log_read, d__zx_log_read,
  d_zx_debuglog_create, d__zx_debuglog_create,
  d_zx_debuglog_write, d__zx_debuglog_write,
  d_zx_debuglog_read, d__zx_debuglog_read,
  d_zx_ktrace_read, d__zx_ktrace_read,
  d_zx_ktrace_control, d__zx_ktrace_control,
  d_zx_ktrace_write, d__zx_ktrace_write,
  d_zx_mtrace_control, d__zx_mtrace_control,
  d_zx_debug_read, d__zx_debug_read,
  d_zx_debug_write, d__zx_debug_write,
  d_zx_debug_send_command, d__zx_debug_send_command,
  d_zx_interrupt_create, d__zx_interrupt_create,
  d_zx_interrupt_bind, d__zx_interrupt_bind,
  d_zx_interrupt_wait, d__zx_interrupt_wait,
  d_zx_interrupt_destroy, d__zx_interrupt_destroy,
  d_zx_interrupt_ack, d__zx_interrupt_ack,
  d_zx_interrupt_trigger, d__zx_interrupt_trigger]

def sysChunk7 : List CDecl := [
  d_zx_interrupt_bind_vcpu, d__zx_interrupt_bind_vcpu,
  d_zx_ioports_request, d__zx_ioports_request,
  d_zx_vmo_create_contiguous, d__zx_vmo_create_contiguous,
  d_zx_vmo_create_physical, d__zx_vmo_create_physical,
  d_zx_iommu_create, d__zx_iommu_create,
  d_zx_bti_create, d__zx_bti_create,
  d_zx_bti_pin, d__zx_bti_pin,
  d_zx_bti_release_quarantine, d__zx_bti_release_quarantine,
  d_zx_pmt_unpin, d__zx_pmt_unpin,
  d_zx_framebuffer_get_info, d__zx_framebuffer_get_info,
  d_zx_framebuffer_set_range, d__zx_framebuffer_set_range,
  d_zx_pci_get_nth_device, d__zx_pci_get_nth_device,
  d_zx_pci_enable_bus_master, d__zx_pci_enable_bus_master,
  d_zx_pci_reset_device, d__zx_pci_reset_device,
  d_zx_pci_config_read, d__zx_pci_config_read,
  d_zx_pci_config_write, d__zx_pci_config_write,
  d_zx_pci_cfg_pio_rw, d__zx_pci_cfg_pio_rw]

def sysChunk8 : List CDecl := [
  d_zx_pci_get_bar, d__zx_pci_get_bar,
  d_zx_pci_map_interrupt, d__zx_pci_map_interrupt,
  d_zx_pci_query_irq_mode, d__zx_pci_query_irq_mode,
  d_zx_pci_set_irq_mode, d__zx_pci_set_irq_mode,
  d_zx_pci_init, d__zx_pci_init,
  d_zx_pci_add_subtract_io_range, d__zx_pci_add_subtract_io_range,
  d_zx_pc_firmware_tables, d__zx_pc_firmware_tables,
  d_zx_smc_call, d__zx_smc_call,
  d_zx_resource_create, d__zx_resource_create,
  d_zx_guest_create, d__zx_guest_create,
  d_zx_guest_set_trap, d__zx_guest_set_trap,
  d_zx_vcpu_create, d__zx_vcpu_create,
  d_zx_vcpu_resume, d__zx_vcpu_resume,
  d_zx_vcpu_interrupt, d__zx_vcpu_interrupt,
  d_zx_vcpu_read_state, d__zx_vcpu_read_state,
  d_zx_vcpu_write_state, d__zx_vcpu_write_state,
  d_zx_system_mexec, d__zx_system_mexec]

def sysChunk9 : List CDecl := [
  d_zx_system_mexec_payload_get, d__zx_system_mexec_payload_get,
  d_zx_system_powerctl, d__zx_system_powerctl,
  d_zx_pager_create, d__zx_pager_create,
  d_zx_pager_create_vmo, d__zx_pager_create_vmo,
  d_zx_syscall_test_0, d__zx_syscall_test_0,
  d_zx_syscall_test_1, d__zx_syscall_test_1,
  d_zx_syscall_test_2, d__zx_syscall_test_2,
  d_zx_syscall_test_3, d__zx_syscall_test_3,
  d_zx_syscall_test_4, d__zx_syscall_test_4,
  d_zx_syscall_test_5, d__zx_syscall_test_5,
  d_zx_syscall_test_6, d__zx_syscall_test_6,
  d_zx_syscall_test_7, d__zx_syscall_test_7,
  d_zx_syscall_test_8, d__zx_syscall_test_8,
  d_zx_syscall_test_wrapper, d__zx_syscall_test_wrapper]

/-- All 334 prototypes of definitions.h, in file order. -/
def syscalls : List CDecl :=
  sysChunk0 ++ sysChunk1 ++ sysChunk2 ++ sysChunk3 ++ sysChunk4 ++ sysChunk5 ++ sysChunk6 ++ sysChunk7 ++ sysChunk8 ++ sysChunk9

def flChunk0 : List String := [
  "// Copyright 2018 The Fuchsia Authors. All rights reserved.",
  "// This is a GENERATED file, see //zircon/system/host/abigen.",
  "// The license governing this file can be found in the LICENSE file.",
  "",
  "extern zx_time_t zx_clock_get(",
  "    zx_clock_t clock_id) __LEAF_FN;",
  "",
  "extern zx_time_t _zx_clock_get(",
  "    zx_clock_t clock_id) __LEAF_FN;",
  "",
  "extern zx_status_t zx_clock_get_new(",
  "    zx_clock_t clock_id,",
  "    zx_time_t* out) __NONNULL((2)) __LEAF_FN;",
  "",
  "extern zx_status_t _zx_clock_get_new(",
  "    zx_clock_t clock_id,",
  "    zx_time_t* out) __NONNULL((2)) __LEAF_FN;",
  "",
  "extern zx_time_t zx_clock_get_monotonic(",
  "    void) __LEAF_FN;",
  "",
  "extern zx_time_t _zx_clock_get_monotonic(",
  "    void) __LEAF_FN;",
  "",
  "extern zx_status_t zx_nanosleep(",
  "    zx_time_t deadline) __LEAF_FN;",
  "",
  "extern zx_status_t _zx_nanosleep(",
  "    zx_time_t deadline) __LEAF_FN;",
  "",
  "extern zx_ticks_t zx_ticks_get(",
  "    void) __LEAF_FN;",
  "",
  "extern zx_ticks_t _zx_ticks_get(",
  "    void) __LEAF_FN;",
  "",
  "extern zx_ticks_t zx_ticks_per_second(",
  "    void) __LEAF_FN __CONST;",
  "",
  "extern zx_ticks_t _zx_ticks_per_second(",
  "    void) __LEAF_FN __CONST;",
  "",
  "extern zx_time_t zx_deadline_after(",
  "    zx_duration_t nanoseconds) __LEAF_FN;",
  "",
  "extern zx_time_t _zx_deadline_after(",
  "    zx_duration_t nanoseconds) __LEAF_FN;",
  "",
  "extern zx_status_t zx_clock_adjust(",
  "    ZX_SYSCALL_PARAM_ATTR(handle_use) zx_handle_t handle,",
  "    zx_clock_t clock_id,",
  "    int64_t offset) __LEAF_FN;",
  "",
  "extern zx_status_t _zx_clock_adjust(",
  "    ZX_SYSCALL_PARAM_ATTR(handle_use) zx_handle_t handle,",
  "    zx_clock_t clock_id,",
  "    int64_t offset) __LEAF_FN;",
  "",
  "extern uint32_t zx_system_get_dcache_line_size(",
  "    void) __LEAF_FN __CONST;",
  "",
  "extern uint32_t _zx_system_get_dcache_line_size(",
  "    void) __LEAF_FN __CONST;",
  "",
  "extern uint32_t zx_system_get_num_cpus(",
  "    void) __LEAF_FN __CONST;",
  "",
  "extern uint32_t _zx_system_get_num_cpus(",
  "    void) __LEAF_FN __CONST;",
  "",
  "extern zx_status_t zx_system_get_version(",
  "    char* version,",
  "    size_t version_size) __LEAF_FN;",
  "",
  "extern zx_status_t _zx_system_get_version(",
  "    char* version,",
  "    size_t version_size) __LEAF_FN;",
  "",
  "extern uint64_t zx_system_get_physmem(",
  "    void) __LEAF_FN;",
  "",
  "extern uint64_t _zx_system_get_physmem(",
  "    void) __LEAF_FN;",
  "",
  "extern zx_status_t zx_system_get_features(",
  "    uint32_t kind,",
  "    ZX_SYSCALL_PARAM_ATTR(features) uint32_t* features) __NONNULL((2)) __LEAF_FN;",
  "",
  "extern zx_status_t _zx_system_get_features(",
  "    uint32_t kind,",
  "    ZX_SYSCALL_PARAM_ATTR(features) uint32_t* features) __NONNULL((2)) __LEAF_FN;",
  "",
  "extern zx_status_t zx_cache_flush(",
  "    const void* addr,",
  "    size_t size,",
  "    uint32_t options) __LEAF_FN;",
  "",
  "extern zx_status_t _zx_cache_flush(",
  "    const void* addr,",
  "    size_t size,",
  "    uint32_t options) __LEAF_FN;",
  "",
  "extern zx_status_t zx_handle_close(",
  "    ZX_SYSCALL_PARAM_ATTR(handle_release_always) zx_handle_t handle) __LEAF_FN;",
  "",
  "extern zx_status_t _zx_handle_close(",
  "    ZX_SYSCALL_PARAM_ATTR(handle_release_always) zx_handle_t handle) __LEAF_FN;",
  "",
  "extern zx_status_t zx_handle_close_many(",
  "    const zx_handle_t* handles,",
  "    size_t num_handles) __LEAF_FN;",
  "",
  "extern zx_status_t _zx_handle_close_many(",
  "    const zx_handle_t* handles,",
  "    size_t num_handles) __LEAF_FN;",
  "",
  "extern zx_status_t zx_handle_duplicate(",
  "    ZX_SYSCALL_PARAM_ATTR(handle_use) zx_handle_t handle,",
  "    zx_rights_t rights,",
  "    ZX_SYSCALL_PARAM_ATTR(handle_acquire) zx_handle_t* out) __NONNULL((3)) __LEAF_FN;",
  "",
  "extern zx_status_t _zx_handle_duplicate(",
  "    ZX_SYSCALL_PARAM_ATTR(handle_use) zx_handle_t handle,",
  "    zx_rights_t rights,",
  "    ZX_SYSCALL_PARAM_ATTR(handle_acquire) zx_handle_t* out) __NONNULL((3)) __LEAF_FN;",
  ""]

def flChunk1 : List String := [
  "extern zx_status_t zx_handle_replace(",
  "    ZX_SYSCALL_PARAM_ATTR(handle_release_always) zx_handle_t handle,",
  "    zx_rights_t rights,",
  "    ZX_SYSCALL_PARAM_ATTR(handle_acquire) zx_handle_t* out) __NONNULL((3)) __LEAF_FN;",
  "",
  "extern zx_status_t _zx_handle_replace(",
  "    ZX_SYSCALL_PARAM_ATTR(handle_release_always) zx_handle_t handle,",
  "    zx_rights_t rights,",
  "    ZX_SYSCALL_PARAM_ATTR(handle_acquire) zx_handle_t* out) __NONNULL((3)) __LEAF_FN;",
  "",
  "extern zx_status_t zx_object_wait_one(",
  "    ZX_SYSCALL_PARAM_ATTR(handle_use) zx_handle_t handle,",
  "    zx_signals_t signals,",
  "    zx_time_t deadline,",
  "    zx_signals_t* observed) __LEAF_FN;",
  "",
  "extern zx_status_t _zx_object_wait_one(",
  "    ZX_SYSCALL_PARAM_ATTR(handle_use) zx_handle_t handle,",
  "    zx_signals_t signals,",
  "    zx_time_t deadline,",
  "    zx_signals_t* observed) __LEAF_FN;",
  "",
  "extern zx_status_t zx_object_wait_many(",
  "    zx_wait_item_t* items,",
  "    size_t count,",
  "    zx_time_t deadline) __LEAF_FN;",
  "",
  "extern zx_status_t _zx_object_wait_many(",
  "    zx_wait_item_t* items,",
  "    size_t count,",
  "    zx_time_t deadline) __LEAF_FN;",
  "",
  "extern zx_status_t zx_object_wait_async(",
  "    ZX_SYSCALL_PARAM_ATTR(handle_use) zx_handle_t handle,",
  "    ZX_SYSCALL_PARAM_ATTR(handle_use) zx_handle_t port,",
  "    uint64_t key,",
  "    zx_signals_t signals,",
  "    uint32_t options) __LEAF_FN;",
  "",
  "extern zx_status_t _zx_object_wait_async(",
  "    ZX_SYSCALL_PARAM_ATTR(handle_use) zx_handle_t handle,",
  "    ZX_SYSCALL_PARAM_ATTR(handle_use) zx_handle_t port,",
  "    uint64_t key,",
  "    zx_signals_t signals,",
  "    uint32_t options) __LEAF_FN;",
  "",
  "extern zx_status_t zx_object_signal(",
  "    ZX_SYSCALL_PARAM_ATTR(handle_use) zx_handle_t handle,",
  "    uint32_t clear_mask,",
  "    uint32_t set_mask) __LEAF_FN;",
  "",
  "extern zx_status_t _zx_object_signal(",
  "    ZX_SYSCALL_PARAM_ATTR(handle_use) zx_handle_t handle,",
  "    uint32_t clear_mask,",
  "    uint32_t set_mask) __LEAF_FN;",
  "",
  "extern zx_status_t zx_object_signal_peer(",
  "    ZX_SYSCALL_PARAM_ATTR(handle_use) zx_handle_t handle,",
  "    uint32_t clear_mask,",
  "    uint32_t set_mask) __LEAF_FN;",
  "",
  "extern zx_status_t _zx_object_signal_peer(",
  "    ZX_SYSCALL_PARAM_ATTR(handle_use) zx_handle_t handle,",
  "    uint32_t clear_mask,",
  "    uint32_t set_mask) __LEAF_FN;",
  "",
  "extern zx_status_t zx_object_get_property(",
  "    ZX_SYSCALL_PARAM_ATTR(handle_use) zx_handle_t handle,",
  "    uint32_t property,",
  "    void* value,",
  "    size_t value_size) __LEAF_FN;",
  "",
  "extern zx_status_t _zx_object_get_property(",
  "    ZX_SYSCALL_PARAM_ATTR(handle_use) zx_handle_t handle,",
  "    uint32_t property,",
  "    void* value,",
  "    size_t value_size) __LEAF_FN;",
  "",
  "extern zx_status_t zx_object_set_property(",
  "    ZX_SYSCALL_PARAM_ATTR(handle_use) zx_handle_t handle,",
  "    uint32_t property,",
  "    const void* value,",
  "    size_t value_size) __LEAF_FN;",
  "",
  "extern zx_status_t _zx_object_set_property(",
  "    ZX_SYSCALL_PARAM_ATTR(handle_use) zx_handle_t handle,",
  "    uint32_t property,",
  "    const void* value,",
  "    size_t value_size) __LEAF_FN;",
  "",
  "extern zx_status_t zx_object_set_cookie(",
  "    ZX_SYSCALL_PARAM_ATTR(handle_use) zx_handle_t handle,",
  "    ZX_SYSCALL_PARAM_ATTR(handle_use) zx_handle_t scope,",
  "    uint64_t cookie) __LEAF_FN;",
  "",
  "extern zx_status_t _zx_object_set_cookie(",
  "    ZX_SYSCALL_PARAM_ATTR(handle_use) zx_handle_t handle,",
  "    ZX_SYSCALL_PARAM_ATTR(handle_use) zx_handle_t scope,",
  "    uint64_t cookie) __LEAF_FN;",
  "",
  "extern zx_status_t zx_object_get_cookie(",
  "    ZX_SYSCALL_PARAM_ATTR(handle_use) zx_handle_t handle,",
  "    ZX_SYSCALL_PARAM_ATTR(handle_use) zx_handle_t scope,",
  "    uint64_t* cookie) __NONNULL((3)) __LEAF_FN;",
  "",
  "extern zx_status_t _zx_object_get_cookie(",
  "    ZX_SYSCALL_PARAM_ATTR(handle_use) zx_handle_t handle,",
  "    ZX_SYSCALL_PARAM_ATTR(handle_use) zx_handle_t scope,",
  "    uint64_t* cookie) __NONNULL((3)) __LEAF_FN;",
  "",
  "extern zx_status_t zx_object_get_info(",
  "    ZX_SYSCALL_PARAM_ATTR(handle_use) zx_handle_t handle,",
  "    uint32_t topic,",
  "    void* buffer,",
  "    size_t buffer_size,",
  "    size_t* actual_count,",
  "    size_t* avail_count) __LEAF_FN;",
  "",
  "extern zx_status_t _zx_object_get_info(",
  "    ZX_SYSCALL_PARAM_ATTR(handle_use) zx_handle_t handle,",
  "    uint32_t topic,",
  "    void* buffer,",
  "    size_t buffer_size,",
  "    size_t* actual_count,",
  "    size_t* avail_count) __LEAF_FN;",
  "",
  "extern zx_status_t zx_object_get_child(",
  "    ZX_SYSCALL_PARAM_ATTR(handle_use) zx_handle_t handle,",
  "    uint64_t koid,",
  "    zx_rights_t rights,",
  "    zx_handle_t* out) __NONNULL((4)) __LEAF_FN;",
  "",
  "extern zx_status_t _zx_object_get_child(",
  "    ZX_SYSCALL_PARAM_ATTR(handle_use) zx_handle_t handle,",
  "    uint64_t koid,",
  "    zx_rights_t rights,",
  "    zx_handle_t* out) __NONNULL((4)) __LEAF_FN;",
  "",
  "extern zx_status_t zx_object_set_profile(",
  "    ZX_SYSCALL_PARAM_ATTR(handle_use) zx_handle_t handle,",
  "    ZX_SYSCALL_PARAM_ATTR(handle_use) zx_handle_t profile,",
  "    uint32_t options) __LEAF_FN;",
  "",
  "extern zx_status_t _zx_object_set_profile(",
  "    ZX_SYSCALL_PARAM_ATTR(handle_use) zx_handle_t handle,",
  "    ZX_SYSCALL_PARAM_ATTR(handle_use) zx_handle_t profile,",
  "    uint32_t options) __LEAF_FN;",
  "",
  "extern zx_status_t zx_channel_create(",
  "    uint32_t options,",
  "    ZX_SYSCALL_PARAM_ATTR(handle_acquire) zx_handle_t* out0,",
  "    ZX_SYSCALL_PARAM_ATTR(handle_acquire) zx_handle_t* out1) __NONNULL((2, 3)) __LEAF_FN;",
  "",
  "extern zx_status_t _zx_channel_create(",
  "    uint32_t options,",
  "    ZX_SYSCALL_PARAM_ATTR(handle_acquire) zx_handle_t* out0,",
  "    ZX_SYSCALL_PARAM_ATTR(handle_acquire) zx_handle_t* out1) __NONNULL((2, 3)) __LEAF_FN;",
  "",
  "extern zx_status_t zx_channel_read(",
  "    ZX_SYSCALL_PARAM_ATTR(handle_use) zx_handle_t handle,",
  "    uint32_t options,",
  "    void* bytes,",
  "    zx_handle_t* handles,",
  "    uint32_t num_bytes,",
  "    uint32_t num_handles,",
  "    uint32_t* actual_bytes,",
  "    uint32_t* actual_handles) __LEAF_FN;",
  "",
  "extern zx_status_t _zx_channel_read(",
  "    ZX_SYSCALL_PARAM_ATTR(handle_use) zx_handle_t handle,",
  "    uint32_t options,",
  "    void* bytes,",
  "    zx_handle_t* handles,",
  "    uint32_t num_bytes,",
  "    uint32_t num_handles,",
  "    uint32_t* actual_bytes,",
  "    uint32_t* actual_handles) __LEAF_FN;",
  "",
  "extern zx_status_t zx_channel_read_etc(",
  "    ZX_SYSCALL_PARAM_ATTR(handle_use) zx_handle_t handle,",
  "    uint32_t options,",
  "    void* bytes,",
  "    zx_handle_info_t* handles,",
  "    uint32_t num_bytes,",
  "    uint32_t num_handles,",
  "    uint32_t* actual_bytes,",
  "    uint32_t* actual_handles) __LEAF_FN;",
  "",
  "extern zx_status_t _zx_channel_read_etc(",
  "    ZX_SYSCALL_PARAM_ATTR(handle_use) zx_handle_t handle,",
  "    uint32_t options,",
  "    void* bytes,",
  "    zx_handle_info_t* handles,",
  "    uint32_t num_bytes,",
  "    uint32_t num_handles,",
  "    uint32_t* actual_bytes,",
  "    uint32_t* actual_handles) __LEAF_FN;",
  "",
  "extern zx_status_t zx_channel_write(",
  "    ZX_SYSCALL_PARAM_ATTR(handle_use) zx_handle_t handle,",
  "    uint32_t options,",
  "    const void* bytes,",
  "    uint32_t num_bytes,",
  "    const zx_handle_t* handles,",
  "    uint32_t num_handles) __LEAF_FN;",
  "",
  "extern zx_status_t _zx_channel_write(",
  "    ZX_SYSCALL_PARAM_ATTR(handle_use) zx_handle_t handle,",
  "    uint32_t options,",
  "    const void* bytes,",
  "    uint32_t num_bytes,",
  "    const zx_handle_t* handles,",
  "    uint32_t num_handles) __LEAF_FN;",
  ""]

def flChunk2 : List String := [
  "extern zx_status_t zx_channel_call(",
  "    ZX_SYSCALL_PARAM_ATTR(handle_use) zx_handle_t handle,",
  "    uint32_t options,",
  "    zx_time_t deadline,",
  "    const zx_channel_call_args_t* args,",
  "    uint32_t* actual_bytes,",
  "    uint32_t* actual_handles) __NONNULL((5, 6)) __LEAF_FN;",
  "",
  "extern zx_status_t _zx_channel_call(",
  "    ZX_SYSCALL_PARAM_ATTR(handle_use) zx_handle_t handle,",
  "    uint32_t options,",
  "    zx_time_t deadline,",
  "    const zx_channel_call_args_t* args,",
  "    uint32_t* actual_bytes,",
  "    uint32_t* actual_handles) __NONNULL((5, 6)) __LEAF_FN;",
  "",
  "extern zx_status_t zx_socket_create(",
  "    uint32_t options,",
  "    ZX_SYSCALL_PARAM_ATTR(handle_acquire) zx_handle_t* out0,",
  "    ZX_SYSCALL_PARAM_ATTR(handle_acquire) zx_handle_t* out1) __NONNULL((2, 3)) __LEAF_FN;",
  "",
  "extern zx_status_t _zx_socket_create(",
  "    uint32_t options,",
  "    ZX_SYSCALL_PARAM_ATTR(handle_acquire) zx_handle_t* out0,",
  "    ZX_SYSCALL_PARAM_ATTR(handle_acquire) zx_handle_t* out1) __NONNULL((2, 3)) __LEAF_FN;",
  "",
  "extern zx_status_t zx_socket_write(",
  "    ZX_SYSCALL_PARAM_ATTR(handle_use) zx_handle_t handle,",
  "    uint32_t options,",
  "    const void* buffer,",
  "    size_t buffer_size,",
  "    size_t* actual) __LEAF_FN;",
  "",
  "extern zx_status_t _zx_socket_write(",
  "    ZX_SYSCALL_PARAM_ATTR(handle_use) zx_handle_t handle,",
  "    uint32_t options,",
  "    const void* buffer,",
  "    size_t buffer_size,",
  "    size_t* actual) __LEAF_FN;",
  "",
  "extern zx_status_t zx_socket_read(",
  "    ZX_SYSCALL_PARAM_ATTR(handle_use) zx_handle_t handle,",
  "    uint32_t options,",
  "    void* buffer,",
  "    size_t buffer_size,",
  "    size_t* actual) __LEAF_FN;",
  "",
  "extern zx_status_t _zx_socket_read(",
  "    ZX_SYSCALL_PARAM_ATTR(handle_use) zx_handle_t handle,",
  "    uint32_t options,",
  "    void* buffer,",
  "    size_t buffer_size,",
  "    size_t* actual) __LEAF_FN;",
  "",
  "extern zx_status_t zx_socket_share(",
  "    ZX_SYSCALL_PARAM_ATTR(handle_use) zx_handle_t handle,",
  "    ZX_SYSCALL_PARAM_ATTR(handle_use) zx_handle_t socket_to_share) __LEAF_FN;",
  "",
  "extern zx_status_t _zx_socket_share(",
  "    ZX_SYSCALL_PARAM_ATTR(handle_use) zx_handle_t handle,",
  "    ZX_SYSCALL_PARAM_ATTR(handle_use) zx_handle_t socket_to_share) __LEAF_FN;",
  "",
  "extern zx_status_t zx_socket_accept(",
  "    ZX_SYSCALL_PARAM_ATTR(handle_use) zx_handle_t handle,",
  "    ZX_SYSCALL_PARAM_ATTR(handle_acquire) zx_handle_t* out_socket) __NONNULL((2)) __LEAF_FN;",
  "",
  "extern zx_status_t _zx_socket_accept(",
  "    ZX_SYSCALL_PARAM_ATTR(handle_use) zx_handle_t handle,",
  "    ZX_SYSCALL_PARAM_ATTR(handle_acquire) zx_handle_t* out_socket) __NONNULL((2)) __LEAF_FN;",
  "",
  "extern zx_status_t zx_socket_shutdown(",
  "    ZX_SYSCALL_PARAM_ATTR(handle_use) zx_handle_t handle,",
  "    uint32_t options) __LEAF_FN;",
  "",
  "extern zx_status_t _zx_socket_shutdown(",
  "    ZX_SYSCALL_PARAM_ATTR(handle_use) zx_handle_t handle,",
  "    uint32_t options) __LEAF_FN;",
  "",
  "extern void zx_thread_exit(",
  "    void) __LEAF_FN __NO_RETURN;",
  "",
  "extern void _zx_thread_exit(",
  "    void) __LEAF_FN __NO_RETURN;",
  "",
  "extern zx_status_t zx_thread_create(",
  "    ZX_SYSCALL_PARAM_ATTR(handle_use) zx_handle_t process,",
  "    const char* name,",
  "    size_t name_size,",
  "    uint32_t options,",
  "    ZX_SYSCALL_PARAM_ATTR(handle_acquire) zx_handle_t* out) __NONNULL((5)) __LEAF_FN;",
  "",
  "extern zx_status_t _zx_thread_create(",
  "    ZX_SYSCALL_PARAM_ATTR(handle_use) zx_handle_t process,",
  "    const char* name,",
  "    size_t name_size,",
  "    uint32_t options,",
  "    ZX_SYSCALL_PARAM_ATTR(handle_acquire) zx_handle_t* out) __NONNULL((5)) __LEAF_FN;",
  "",
  "extern zx_status_t zx_thread_start(",
  "    ZX_SYSCALL_PARAM_ATTR(handle_use) zx_handle_t handle,",
  "    zx_vaddr_t thread_entry,",
  "    zx_vaddr_t stack,",
  "    uintptr_t arg1,",
  "    uintptr_t arg2) __LEAF_FN;",
  "",
  "extern zx_status_t _zx_thread_start(",
  "    ZX_SYSCALL_PARAM_ATTR(handle_use) zx_handle_t handle,",
  "    zx_vaddr_t thread_entry,",
  "    zx_vaddr_t stack,",
  "    uintptr_t arg1,",
  "    uintptr_t arg2) __LEAF_FN;",
  "",
  "extern zx_status_t zx_thread_read_state(",
  "    ZX_SYSCALL_PARAM_ATTR(handle_use) zx_handle_t handle,",
  "    uint32_t kind,",
  "    void* buffer,",
  "    size_t buffer_size) __LEAF_FN;",
  "",
  "extern zx_status_t _zx_thread_read_state(",
  "    ZX_SYSCALL_PARAM_ATTR(handle_use) zx_handle_t handle,",
  "    uint32_t kind,",
  "    void* buffer,",
  "    size_t buffer_size) __LEAF_FN;",
  "",
  "extern zx_status_t zx_thread_write_state(",
  "    ZX_SYSCALL_PARAM_ATTR(handle_use) zx_handle_t handle,",
  "    uint32_t kind,",
  "    const void* buffer,",
  "    size_t buffer_size) __LEAF_FN;",
  "",
  "extern zx_status_t _zx_thread_write_state(",
  "    ZX_SYSCALL_PARAM_ATTR(handle_use) zx_handle_t handle,",
  "    uint32_t kind,",
  "    const void* buffer,",
  "    size_t buffer_size) __LEAF_FN;",
  "",
  "extern zx_status_t zx_thread_set_priority(",
  "    int32_t prio) __LEAF_FN;",
  "",
  "extern zx_status_t _zx_thread_set_priority(",
  "    int32_t prio) __LEAF_FN;",
  "",
  "extern void zx_process_exit(",
  "    int64_t retcode) __LEAF_FN __NO_RETURN;",
  "",
  "extern void _zx_process_exit(",
  "    int64_t retcode) __LEAF_FN __NO_RETURN;",
  "",
  "extern zx_status_t zx_process_create(",
  "    ZX_SYSCALL_PARAM_ATTR(handle_use) zx_handle_t job,",
  "    const char* name,",
  "    size_t name_size,",
  "    uint32_t options,",
  "    ZX_SYSCALL_PARAM_ATTR(handle_acquire) zx_handle_t* proc_handle,",
  "    ZX_SYSCALL_PARAM_ATTR(handle_acquire) zx_handle_t* vmar_handle) __NONNULL((5, 6)) __LEAF_FN;",
  "",
  "extern zx_status_t _zx_process_create(",
  "    ZX_SYSCALL_PARAM_ATTR(handle_use) zx_handle_t job,",
  "    const char* name,",
  "    size_t name_size,",
  "    uint32_t options,",
  "    ZX_SYSCALL_PARAM_ATTR(handle_acquire) zx_handle_t* proc_handle,",
  "    ZX_SYSCALL_PARAM_ATTR(handle_acquire) zx_handle_t* vmar_handle) __NONNULL((5, 6)) __LEAF_FN;",
  "",
  "extern zx_status_t zx_process_start(",
  "    ZX_SYSCALL_PARAM_ATTR(handle_use) zx_handle_t handle,",
  "    ZX_SYSCALL_PARAM_ATTR(handle_use) zx_handle_t thread,",
  "    zx_vaddr_t entry,",
  "    zx_vaddr_t stack,",
  "    ZX_SYSCALL_PARAM_ATTR(handle_release_always) zx_handle_t arg1,",
  "    uintptr_t arg2) __LEAF_FN;",
  "",
  "extern zx_status_t _zx_process_start(",
  "    ZX_SYSCALL_PARAM_ATTR(handle_use) zx_handle_t handle,",
  "    ZX_SYSCALL_PARAM_ATTR(handle_use) zx_handle_t thread,",
  "    zx_vaddr_t entry,",
  "    zx_vaddr_t stack,",
  "    ZX_SYSCALL_PARAM_ATTR(handle_release_always) zx_handle_t arg1,",
  "    uintptr_t arg2) __LEAF_FN;",
  "",
  "extern zx_status_t zx_process_read_memory(",
  "    ZX_SYSCALL_PARAM_ATTR(handle_use) zx_handle_t handle,",
  "    zx_vaddr_t vaddr,",
  "    void* buffer,",
  "    size_t buffer_size,",
  "    size_t* actual) __NONNULL((5)) __LEAF_FN;",
  "",
  "extern zx_status_t _zx_process_read_memory(",
  "    ZX_SYSCALL_PARAM_ATTR(handle_use) zx_handle_t handle,",
  "    zx_vaddr_t vaddr,",
  "    void* buffer,",
  "    size_t buffer_size,",
  "    size_t* actual) __NONNULL((5)) __LEAF_FN;",
  ""]

def flChunk3 : List String := [
  "extern zx_status_t zx_process_write_memory(",
  "    ZX_SYSCALL_PARAM_ATTR(handle_use) zx_handle_t handle,",
  "    zx_vaddr_t vaddr,",
  "    const void* buffer,",
  "    size_t buffer_size,",
  "    size_t* actual) __NONNULL((5)) __LEAF_FN;",
  "",
  "extern zx_status_t _zx_process_write_memory(",
  "    ZX_SYSCALL_PARAM_ATTR(handle_use) zx_handle_t handle,",
  "    zx_vaddr_t vaddr,",
  "    const void* buffer,",
  "    size_t buffer_size,",
  "    size_t* actual) __NONNULL((5)) __LEAF_FN;",
  "",
  "extern zx_status_t zx_job_create(",
  "    ZX_SYSCALL_PARAM_ATTR(handle_use) zx_handle_t parent_job,",
  "    uint32_t options,",
  "    ZX_SYSCALL_PARAM_ATTR(handle_acquire) zx_handle_t* out) __NONNULL((3)) __LEAF_FN;",
  "",
  "extern zx_status_t _zx_job_create(",
  "    ZX_SYSCALL_PARAM_ATTR(handle_use) zx_handle_t parent_job,",
  "    uint32_t options,",
  "    ZX_SYSCALL_PARAM_ATTR(handle_acquire) zx_handle_t* out) __NONNULL((3)) __LEAF_FN;",
  "",
  "extern zx_status_t zx_job_set_policy(",
  "    ZX_SYSCALL_PARAM_ATTR(handle_use) zx_handle_t handle,",
  "    uint32_t options,",
  "    uint32_t topic,",
  "    const void* policy,",
  "    uint32_t count) __LEAF_FN;",
  "",
  "extern zx_status_t _zx_job_set_policy(",
  "    ZX_SYSCALL_PARAM_ATTR(handle_use) zx_handle_t handle,",
  "    uint32_t options,",
  "    uint32_t topic,",
  "    const void* policy,",
  "    uint32_t count) __LEAF_FN;",
  "",
  "extern zx_status_t zx_task_bind_exception_port(",
  "    ZX_SYSCALL_PARAM_ATTR(handle_use) zx_handle_t handle,",
  "    ZX_SYSCALL_PARAM_ATTR(handle_use) zx_handle_t port,",
  "    uint64_t key,",
  "    uint32_t options) __LEAF_FN;",
  "",
  "extern zx_status_t _zx_task_bind_exception_port(",
  "    ZX_SYSCALL_PARAM_ATTR(handle_use) zx_handle_t handle,",
  "    ZX_SYSCALL_PARAM_ATTR(handle_use) zx_handle_t port,",
  "    uint64_t key,",
  "    uint32_t options) __LEAF_FN;",
  "",
  "extern zx_status_t zx_task_suspend(",
  "    ZX_SYSCALL_PARAM_ATTR(handle_use) zx_handle_t handle,",
  "    ZX_SYSCALL_PARAM_ATTR(handle_acquire) zx_handle_t* token) __NONNULL((2)) __LEAF_FN;",
  "",
  "extern zx_status_t _zx_task_suspend(",
  "    ZX_SYSCALL_PARAM_ATTR(handle_use) zx_handle_t handle,",
  "    ZX_SYSCALL_PARAM_ATTR(handle_acquire) zx_handle_t* token) __NONNULL((2)) __LEAF_FN;",
  "",
  "extern zx_status_t zx_task_suspend_token(",
  "    ZX_SYSCALL_PARAM_ATTR(handle_use) zx_handle_t handle,",
  "    ZX_SYSCALL_PARAM_ATTR(handle_acquire) zx_handle_t* token) __NONNULL((2)) __LEAF_FN;",
  "",
  "extern zx_status_t _zx_task_suspend_token(",
  "    ZX_SYSCALL_PARAM_ATTR(handle_use) zx_handle_t handle,",
  "    ZX_SYSCALL_PARAM_ATTR(handle_acquire) zx_handle_t* token) __NONNULL((2)) __LEAF_FN;",
  "",
  "extern zx_status_t zx_task_resume_from_exception(",
  "    ZX_SYSCALL_PARAM_ATTR(handle_use) zx_handle_t handle,",
  "    ZX_SYSCALL_PARAM_ATTR(handle_use) zx_handle_t port,",
  "    uint32_t options) __LEAF_FN;",
  "",
  "extern zx_status_t _zx_task_resume_from_exception(",
  "    ZX_SYSCALL_PARAM_ATTR(handle_use) zx_handle_t handle,",
  "    ZX_SYSCALL_PARAM_ATTR(handle_use) zx_handle_t port,",
  "    uint32_t options) __LEAF_FN;",
  "",
  "extern zx_status_t zx_task_kill(",
  "    ZX_SYSCALL_PARAM_ATTR(handle_use) zx_handle_t handle) __LEAF_FN;",
  "",
  "extern zx_status_t _zx_task_kill(",
  "    ZX_SYSCALL_PARAM_ATTR(handle_use) zx_handle_t handle) __LEAF_FN;",
  "",
  "extern zx_status_t zx_event_create(",
  "    uint32_t options,",
  "    ZX_SYSCALL_PARAM_ATTR(handle_acquire) zx_handle_t* out) __NONNULL((2)) __LEAF_FN;",
  "",
  "extern zx_status_t _zx_event_create(",
  "    uint32_t options,",
  "    ZX_SYSCALL_PARAM_ATTR(handle_acquire) zx_handle_t* out) __NONNULL((2)) __LEAF_FN;",
  "",
  "extern zx_status_t zx_eventpair_create(",
  "    uint32_t options,",
  "    ZX_SYSCALL_PARAM_ATTR(handle_acquire) zx_handle_t* out0,",
  "    ZX_SYSCALL_PARAM_ATTR(handle_acquire) zx_handle_t* out1) __NONNULL((2, 3)) __LEAF_FN;",
  "",
  "extern zx_status_t _zx_eventpair_create(",
  "    uint32_t options,",
  "    ZX_SYSCALL_PARAM_ATTR(handle_acquire) zx_handle_t* out0,",
  "    ZX_SYSCALL_PARAM_ATTR(handle_acquire) zx_handle_t* out1) __NONNULL((2, 3)) __LEAF_FN;",
  "",
  "extern zx_status_t zx_futex_wait(",
  "    const zx_futex_t* value_ptr,",
  "    zx_futex_t current_value,",
  "    ZX_SYSCALL_PARAM_ATTR(handle_use) zx_handle_t new_futex_owner,",
  "    zx_time_t deadline) __LEAF_FN;",
  "",
  "extern zx_status_t _zx_futex_wait(",
  "    const zx_futex_t* value_ptr,",
  "    zx_futex_t current_value,",
  "    ZX_SYSCALL_PARAM_ATTR(handle_use) zx_handle_t new_futex_owner,",
  "    zx_time_t deadline) __LEAF_FN;",
  "",
  "extern zx_status_t zx_futex_wake(",
  "    const zx_futex_t* value_ptr,",
  "    uint32_t count) __LEAF_FN;",
  "",
  "extern zx_status_t _zx_futex_wake(",
  "    const zx_futex_t* value_ptr,",
  "    uint32_t count) __LEAF_FN;",
  "",
  "extern zx_status_t zx_futex_requeue(",
  "    const zx_futex_t* wake_ptr,",
  "    uint32_t wake_count,",
  "    zx_futex_t current_value,",
  "    const zx_futex_t* requeue_ptr,",
  "    uint32_t requeue_count,",
  "    ZX_SYSCALL_PARAM_ATTR(handle_use) zx_handle_t new_requeue_owner) __LEAF_FN;",
  "",
  "extern zx_status_t _zx_futex_requeue(",
  "    const zx_futex_t* wake_ptr,",
  "    uint32_t wake_count,",
  "    zx_futex_t current_value,",
  "    const zx_futex_t* requeue_ptr,",
  "    uint32_t requeue_count,",
  "    ZX_SYSCALL_PARAM_ATTR(handle_use) zx_handle_t new_requeue_owner) __LEAF_FN;",
  "",
  "extern zx_status_t zx_futex_wake_single_owner(",
  "    const zx_futex_t* value_ptr) __LEAF_FN;",
  "",
  "extern zx_status_t _zx_futex_wake_single_owner(",
  "    const zx_futex_t* value_ptr) __LEAF_FN;",
  "",
  "extern zx_status_t zx_futex_requeue_single_owner(",
  "    const zx_futex_t* wake_ptr,",
  "    zx_futex_t current_value,",
  "    const zx_futex_t* requeue_ptr,",
  "    uint32_t requeue_count,",
  "    ZX_SYSCALL_PARAM_ATTR(handle_use) zx_handle_t new_requeue_owner) __LEAF_FN;",
  "",
  "extern zx_status_t _zx_futex_requeue_single_owner(",
  "    const zx_futex_t* wake_ptr,",
  "    zx_futex_t current_value,",
  "    const zx_futex_t* requeue_ptr,",
  "    uint32_t requeue_count,",
  "    ZX_SYSCALL_PARAM_ATTR(handle_use) zx_handle_t new_requeue_owner) __LEAF_FN;",
  "",
  "extern zx_status_t zx_futex_get_owner(",
  "    const zx_futex_t* value_ptr,",
  "    zx_koid_t* koid) __LEAF_FN;",
  "",
  "extern zx_status_t _zx_futex_get_owner(",
  "    const zx_futex_t* value_ptr,",
  "    zx_koid_t* koid) __LEAF_FN;",
  "",
  "extern zx_status_t zx_futex_wait_deprecated(",
  "    const zx_futex_t* value_ptr,",
  "    int32_t current_value,",
  "    zx_time_t deadline) __LEAF_FN;",
  "",
  "extern zx_status_t _zx_futex_wait_deprecated(",
  "    const zx_futex_t* value_ptr,",
  "    int32_t current_value,",
  "    zx_time_t deadline) __LEAF_FN;",
  ""]

def flChunk4 : List String := [
  "extern zx_status_t zx_futex_requeue_deprecated(",
  "    const zx_futex_t* wake_ptr,",
  "    uint32_t wake_count,",
  "    int32_t current_value,",
  "    const zx_futex_t* requeue_ptr,",
  "    uint32_t requeue_count) __LEAF_FN;",
  "",
  "extern zx_status_t _zx_futex_requeue_deprecated(",
  "    const zx_futex_t* wake_ptr,",
  "    uint32_t wake_count,",
  "    int32_t current_value,",
  "    const zx_futex_t* requeue_ptr,",
  "    uint32_t requeue_count) __LEAF_FN;",
  "",
  "extern zx_status_t zx_port_create(",
  "    uint32_t options,",
  "    ZX_SYSCALL_PARAM_ATTR(handle_acquire) zx_handle_t* out) __NONNULL((2)) __LEAF_FN;",
  "",
  "extern zx_status_t _zx_port_create(",
  "    uint32_t options,",
  "    ZX_SYSCALL_PARAM_ATTR(handle_acquire) zx_handle_t* out) __NONNULL((2)) __LEAF_FN;",
  "",
  "extern zx_status_t zx_port_queue(",
  "    ZX_SYSCALL_PARAM_ATTR(handle_use) zx_handle_t handle,",
  "    const zx_port_packet_t* packet) __LEAF_FN;",
  "",
  "extern zx_status_t _zx_port_queue(",
  "    ZX_SYSCALL_PARAM_ATTR(handle_use) zx_handle_t handle,",
  "    const zx_port_packet_t* packet) __LEAF_FN;",
  "",
  "extern zx_status_t zx_port_wait(",
  "    ZX_SYSCALL_PARAM_ATTR(handle_use) zx_handle_t handle,",
  "    zx_time_t deadline,",
  "    zx_port_packet_t* packet) __LEAF_FN;",
  "",
  "extern zx_status_t _zx_port_wait(",
  "    ZX_SYSCALL_PARAM_ATTR(handle_use) zx_handle_t handle,",
  "    zx_time_t deadline,",
  "    zx_port_packet_t* packet) __LEAF_FN;",
  "",
  "extern zx_status_t zx_port_cancel(",
  "    ZX_SYSCALL_PARAM_ATTR(handle_use) zx_handle_t handle,",
  "    ZX_SYSCALL_PARAM_ATTR(handle_use) zx_handle_t source,",
  "    uint64_t key) __LEAF_FN;",
  "",
  "extern zx_status_t _zx_port_cancel(",
  "    ZX_SYSCALL_PARAM_ATTR(handle_use) zx_handle_t handle,",
  "    ZX_SYSCALL_PARAM_ATTR(handle_use) zx_handle_t source,",
  "    uint64_t key) __LEAF_FN;",
  "",
  "extern zx_status_t zx_timer_create(",
  "    uint32_t options,",
  "    zx_clock_t clock_id,",
  "    ZX_SYSCALL_PARAM_ATTR(handle_acquire) zx_handle_t* out) __NONNULL((3)) __LEAF_FN;",
  "",
  "extern zx_status_t _zx_timer_create(",
  "    uint32_t options,",
  "    zx_clock_t clock_id,",
  "    ZX_SYSCALL_PARAM_ATTR(handle_acquire) zx_handle_t* out) __NONNULL((3)) __LEAF_FN;",
  "",
  "extern zx_status_t zx_timer_set(",
  "    ZX_SYSCALL_PARAM_ATTR(handle_use) zx_handle_t handle,",
  "    zx_time_t deadline,",
  "    zx_duration_t slack) __LEAF_FN;",
  "",
  "extern zx_status_t _zx_timer_set(",
  "    ZX_SYSCALL_PARAM_ATTR(handle_use) zx_handle_t handle,",
  "    zx_time_t deadline,",
  "    zx_duration_t slack) __LEAF_FN;",
  "",
  "extern zx_status_t zx_timer_cancel(",
  "    ZX_SYSCALL_PARAM_ATTR(handle_use) zx_handle_t handle) __LEAF_FN;",
  "",
  "extern zx_status_t _zx_timer_cancel(",
  "    ZX_SYSCALL_PARAM_ATTR(handle_use) zx_handle_t handle) __LEAF_FN;",
  "",
  "extern zx_status_t zx_vmo_create(",
  "    uint64_t size,",
  "    uint32_t options,",
  "    ZX_SYSCALL_PARAM_ATTR(handle_acquire) zx_handle_t* out) __NONNULL((3)) __LEAF_FN;",
  "",
  "extern zx_status_t _zx_vmo_create(",
  "    uint64_t size,",
  "    uint32_t options,",
  "    ZX_SYSCALL_PARAM_ATTR(handle_acquire) zx_handle_t* out) __NONNULL((3)) __LEAF_FN;",
  "",
  "extern zx_status_t zx_vmo_read(",
  "    ZX_SYSCALL_PARAM_ATTR(handle_use) zx_handle_t handle,",
  "    void* buffer,",
  "    uint64_t offset,",
  "    size_t buffer_size) __LEAF_FN;",
  "",
  "extern zx_status_t _zx_vmo_read(",
  "    ZX_SYSCALL_PARAM_ATTR(handle_use) zx_handle_t handle,",
  "    void* buffer,",
  "    uint64_t offset,",
  "    size_t buffer_size) __LEAF_FN;",
  "",
  "extern zx_status_t zx_vmo_write(",
  "    ZX_SYSCALL_PARAM_ATTR(handle_use) zx_handle_t handle,",
  "    const void* buffer,",
  "    uint64_t offset,",
  "    size_t buffer_size) __LEAF_FN;",
  "",
  "extern zx_status_t _zx_vmo_write(",
  "    ZX_SYSCALL_PARAM_ATTR(handle_use) zx_handle_t handle,",
  "    const void* buffer,",
  "    uint64_t offset,",
  "    size_t buffer_size) __LEAF_FN;",
  "",
  "extern zx_status_t zx_vmo_get_size(",
  "    ZX_SYSCALL_PARAM_ATTR(handle_use) zx_handle_t handle,",
  "    uint64_t* size) __NONNULL((2)) __LEAF_FN;",
  "",
  "extern zx_status_t _zx_vmo_get_size(",
  "    ZX_SYSCALL_PARAM_ATTR(handle_use) zx_handle_t handle,",
  "    uint64_t* size) __NONNULL((2)) __LEAF_FN;",
  "",
  "extern zx_status_t zx_vmo_set_size(",
  "    ZX_SYSCALL_PARAM_ATTR(handle_use) zx_handle_t handle,",
  "    uint64_t size) __LEAF_FN;",
  "",
  "extern zx_status_t _zx_vmo_set_size(",
  "    ZX_SYSCALL_PARAM_ATTR(handle_use) zx_handle_t handle,",
  "    uint64_t size) __LEAF_FN;",
  "",
  "extern zx_status_t zx_vmo_op_range(",
  "    ZX_SYSCALL_PARAM_ATTR(handle_use) zx_handle_t handle,",
  "    uint32_t op,",
  "    uint64_t offset,",
  "    uint64_t size,",
  "    void* buffer,",
  "    size_t buffer_size) __LEAF_FN;",
  "",
  "extern zx_status_t _zx_vmo_op_range(",
  "    ZX_SYSCALL_PARAM_ATTR(handle_use) zx_handle_t handle,",
  "    uint32_t op,",
  "    uint64_t offset,",
  "    uint64_t size,",
  "    void* buffer,",
  "    size_t buffer_size) __LEAF_FN;",
  "",
  "extern zx_status_t zx_vmo_clone(",
  "    ZX_SYSCALL_PARAM_ATTR(handle_use) zx_handle_t handle,",
  "    uint32_t options,",
  "    uint64_t offset,",
  "    uint64_t size,",
  "    ZX_SYSCALL_PARAM_ATTR(handle_acquire) zx_handle_t* out) __NONNULL((5)) __LEAF_FN;",
  "",
  "extern zx_status_t _zx_vmo_clone(",
  "    ZX_SYSCALL_PARAM_ATTR(handle_use) zx_handle_t handle,",
  "    uint32_t options,",
  "    uint64_t offset,",
  "    uint64_t size,",
  "    ZX_SYSCALL_PARAM_ATTR(handle_acquire) zx_handle_t* out) __NONNULL((5)) __LEAF_FN;",
  "",
  "extern zx_status_t zx_vmo_set_cache_policy(",
  "    ZX_SYSCALL_PARAM_ATTR(handle_use) zx_handle_t handle,",
  "    uint32_t cache_policy) __LEAF_FN;",
  "",
  "extern zx_status_t _zx_vmo_set_cache_policy(",
  "    ZX_SYSCALL_PARAM_ATTR(handle_use) zx_handle_t handle,",
  "    uint32_t cache_policy) __LEAF_FN;",
  "",
  "extern zx_status_t zx_vmo_replace_as_executable(",
  "    ZX_SYSCALL_PARAM_ATTR(handle_release_always) zx_handle_t handle,",
  "    ZX_SYSCALL_PARAM_ATTR(handle_use) zx_handle_t vmex,",
  "    ZX_SYSCALL_PARAM_ATTR(handle_acquire) zx_handle_t* out) __NONNULL((3)) __LEAF_FN;",
  "",
  "extern zx_status_t _zx_vmo_replace_as_executable(",
  "    ZX_SYSCALL_PARAM_ATTR(handle_release_always) zx_handle_t handle,",
  "    ZX_SYSCALL_PARAM_ATTR(handle_use) zx_handle_t vmex,",
  "    ZX_SYSCALL_PARAM_ATTR(handle_acquire) zx_handle_t* out) __NONNULL((3)) __LEAF_FN;",
  ""]

def flChunk5 : List String := [
  "extern zx_status_t zx_vmar_allocate_old(",
  "    ZX_SYSCALL_PARAM_ATTR(handle_use) zx_handle_t parent_vmar,",
  "    uint64_t offset,",
  "    uint64_t size,",
  "    uint32_t map_flags,",
  "    ZX_SYSCALL_PARAM_ATTR(handle_acquire) zx_handle_t* child_vmar,",
  "    zx_vaddr_t* child_addr) __NONNULL((5, 6)) __LEAF_FN;",
  "",
  "extern zx_status_t _zx_vmar_allocate_old(",
  "    ZX_SYSCALL_PARAM_ATTR(handle_use) zx_handle_t parent_vmar,",
  "    uint64_t offset,",
  "    uint64_t size,",
  "    uint32_t map_flags,",
  "    ZX_SYSCALL_PARAM_ATTR(handle_acquire) zx_handle_t* child_vmar,",
  "    zx_vaddr_t* child_addr) __NONNULL((5, 6)) __LEAF_FN;",
  "",
  "extern zx_status_t zx_vmar_map_old(",
  "    ZX_SYSCALL_PARAM_ATTR(handle_use) zx_handle_t handle,",
  "    uint64_t vmar_offset,",
  "    ZX_SYSCALL_PARAM_ATTR(handle_use) zx_handle_t vmo,",
  "    uint64_t vmo_offset,",
  "    uint64_t len,",
  "    uint32_t map_flags,",
  "    zx_vaddr_t* mapped_addr) __NONNULL((7)) __LEAF_FN;",
  "",
  "extern zx_status_t _zx_vmar_map_old(",
  "    ZX_SYSCALL_PARAM_ATTR(handle_use) zx_handle_t handle,",
  "    uint64_t vmar_offset,",
  "    ZX_SYSCALL_PARAM_ATTR(handle_use) zx_handle_t vmo,",
  "    uint64_t vmo_offset,",
  "    uint64_t len,",
  "    uint32_t map_flags,",
  "    zx_vaddr_t* mapped_addr) __NONNULL((7)) __LEAF_FN;",
  "",
  "extern zx_status_t zx_vmar_protect_old(",
  "    ZX_SYSCALL_PARAM_ATTR(handle_use) zx_handle_t handle,",
  "    zx_vaddr_t addr,",
  "    uint64_t len,",
  "    uint32_t prot_flags) __LEAF_FN;",
  "",
  "extern zx_status_t _zx_vmar_protect_old(",
  "    ZX_SYSCALL_PARAM_ATTR(handle_use) zx_handle_t handle,",
  "    zx_vaddr_t addr,",
  "    uint64_t len,",
  "    uint32_t prot_flags) __LEAF_FN;",
  "",
  "extern zx_status_t zx_vmar_allocate(",
  "    ZX_SYSCALL_PARAM_ATTR(handle_use) zx_handle_t parent_vmar,",
  "    zx_vm_option_t options,",
  "    uint64_t offset,",
  "    uint64_t size,",
  "    ZX_SYSCALL_PARAM_ATTR(handle_acquire) zx_handle_t* child_vmar,",
  "    zx_vaddr_t* child_addr) __NONNULL((5, 6)) __LEAF_FN;",
  "",
  "extern zx_status_t _zx_vmar_allocate(",
  "    ZX_SYSCALL_PARAM_ATTR(handle_use) zx_handle_t parent_vmar,",
  "    zx_vm_option_t options,",
  "    uint64_t offset,",
  "    uint64_t size,",
  "    ZX_SYSCALL_PARAM_ATTR(handle_acquire) zx_handle_t* child_vmar,",
  "    zx_vaddr_t* child_addr) __NONNULL((5, 6)) __LEAF_FN;",
  "",
  "extern zx_status_t zx_vmar_destroy(",
  "    ZX_SYSCALL_PARAM_ATTR(handle_use) zx_handle_t handle) __LEAF_FN;",
  "",
  "extern zx_status_t _zx_vmar_destroy(",
  "    ZX_SYSCALL_PARAM_ATTR(handle_use) zx_handle_t handle) __LEAF_FN;",
  "",
  "extern zx_status_t zx_vmar_map(",
  "    ZX_SYSCALL_PARAM_ATTR(handle_use) zx_handle_t handle,",
  "    zx_vm_option_t options,",
  "    uint64_t vmar_offset,",
  "    ZX_SYSCALL_PARAM_ATTR(handle_use) zx_handle_t vmo,",
  "    uint64_t vmo_offset,",
  "    uint64_t len,",
  "    zx_vaddr_t* mapped_addr) __NONNULL((7)) __LEAF_FN;",
  "",
  "extern zx_status_t _zx_vmar_map(",
  "    ZX_SYSCALL_PARAM_ATTR(handle_use) zx_handle_t handle,",
  "    zx_vm_option_t options,",
  "    uint64_t vmar_offset,",
  "    ZX_SYSCALL_PARAM_ATTR(handle_use) zx_handle_t vmo,",
  "    uint64_t vmo_offset,",
  "    uint64_t len,",
  "    zx_vaddr_t* mapped_addr) __NONNULL((7)) __LEAF_FN;",
  "",
  "extern zx_status_t zx_vmar_unmap(",
  "    ZX_SYSCALL_PARAM_ATTR(handle_use) zx_handle_t handle,",
  "    zx_vaddr_t addr,",
  "    uint64_t len) __LEAF_FN;",
  "",
  "extern zx_status_t _zx_vmar_unmap(",
  "    ZX_SYSCALL_PARAM_ATTR(handle_use) zx_handle_t handle,",
  "    zx_vaddr_t addr,",
  "    uint64_t len) __LEAF_FN;",
  "",
  "extern zx_status_t zx_vmar_protect(",
  "    ZX_SYSCALL_PARAM_ATTR(handle_use) zx_handle_t handle,",
  "    zx_vm_option_t options,",
  "    zx_vaddr_t addr,",
  "    uint64_t len) __LEAF_FN;",
  "",
  "extern zx_status_t _zx_vmar_protect(",
  "    ZX_SYSCALL_PARAM_ATTR(handle_use) zx_handle_t handle,",
  "    zx_vm_option_t options,",
  "    zx_vaddr_t addr,",
  "    uint64_t len) __LEAF_FN;",
  "",
  "extern void zx_cprng_draw(",
  "    void* buffer,",
  "    size_t buffer_size) __LEAF_FN;",
  "",
  "extern void _zx_cprng_draw(",
  "    void* buffer,",
  "    size_t buffer_size) __LEAF_FN;",
  "",
  "extern zx_status_t zx_cprng_add_entropy(",
  "    const void* buffer,",
  "    size_t buffer_size) __LEAF_FN;",
  "",
  "extern zx_status_t _zx_cprng_add_entropy(",
  "    const void* buffer,",
  "    size_t buffer_size) __LEAF_FN;",
  "",
  "extern zx_status_t zx_fifo_create(",
  "    size_t elem_count,",
  "    size_t elem_size,",
  "    uint32_t options,",
  "    ZX_SYSCALL_PARAM_ATTR(handle_acquire) zx_handle_t* out0,",
  "    ZX_SYSCALL_PARAM_ATTR(handle_acquire) zx_handle_t* out1) __NONNULL((4, 5)) __LEAF_FN;",
  "",
  "extern zx_status_t _zx_fifo_create(",
  "    size_t elem_count,",
  "    size_t elem_size,",
  "    uint32_t options,",
  "    ZX_SYSCALL_PARAM_ATTR(handle_acquire) zx_handle_t* out0,",
  "    ZX_SYSCALL_PARAM_ATTR(handle_acquire) zx_handle_t* out1) __NONNULL((4, 5)) __LEAF_FN;",
  "",
  "extern zx_status_t zx_fifo_read(",
  "    ZX_SYSCALL_PARAM_ATTR(handle_use) zx_handle_t handle,",
  "    size_t elem_size,",
  "    void* data,",
  "    size_t count,",
  "    size_t* actual_count) __LEAF_FN;",
  "",
  "extern zx_status_t _zx_fifo_read(",
  "    ZX_SYSCALL_PARAM_ATTR(handle_use) zx_handle_t handle,",
  "    size_t elem_size,",
  "    void* data,",
  "    size_t count,",
  "    size_t* actual_count) __LEAF_FN;",
  "",
  "extern zx_status_t zx_fifo_write(",
  "    ZX_SYSCALL_PARAM_ATTR(handle_use) zx_handle_t handle,",
  "    size_t elem_size,",
  "    const void* data,",
  "    size_t count,",
  "    size_t* actual_count) __LEAF_FN;",
  "",
  "extern zx_status_t _zx_fifo_write(",
  "    ZX_SYSCALL_PARAM_ATTR(handle_use) zx_handle_t handle,",
  "    size_t elem_size,",
  "    const void* data,",
  "    size_t count,",
  "    size_t* actual_count) __LEAF_FN;",
  "",
  "extern zx_status_t zx_profile_create(",
  "    ZX_SYSCALL_PARAM_ATTR(handle_use) zx_handle_t root_job,",
  "    const zx_profile_info_t* profile,",
  "    ZX_SYSCALL_PARAM_ATTR(handle_acquire) zx_handle_t* out) __NONNULL((3)) __LEAF_FN;",
  "",
  "extern zx_status_t _zx_profile_create(",
  "    ZX_SYSCALL_PARAM_ATTR(handle_use) zx_handle_t root_job,",
  "    const zx_profile_info_t* profile,",
  "    ZX_SYSCALL_PARAM_ATTR(handle_acquire) zx_handle_t* out) __NONNULL((3)) __LEAF_FN;",
  "",
  "extern zx_status_t zx_vmar_unmap_handle_close_thread_exit(",
  "    ZX_SYSCALL_PARAM_ATTR(handle_use) zx_handle_t vmar_handle,",
  "    zx_vaddr_t addr,",
  "    size_t size,",
  "    ZX_SYSCALL_PARAM_ATTR(handle_release) zx_handle_t close_handle) __LEAF_FN;",
  "",
  "extern zx_status_t _zx_vmar_unmap_handle_close_thread_exit(",
  "    ZX_SYSCALL_PARAM_ATTR(handle_use) zx_handle_t vmar_handle,",
  "    zx_vaddr_t addr,",
  "    size_t size,",
  "    ZX_SYSCALL_PARAM_ATTR(handle_release) zx_handle_t close_handle) __LEAF_FN;",
  "",
  "extern void zx_futex_wake_handle_close_thread_exit(",
  "    const zx_futex_t* value_ptr,",
  "    uint32_t count,",
  "    int32_t new_value,",
  "    ZX_SYSCALL_PARAM_ATTR(handle_release) zx_handle_t handle) __LEAF_FN __NO_RETURN;",
  "",
  "extern void _zx_futex_wake_handle_close_thread_exit(",
  "    const zx_futex_t* value_ptr,",
  "    uint32_t count,",
  "    int32_t new_value,",
  "    ZX_SYSCALL_PARAM_ATTR(handle_release) zx_handle_t handle) __LEAF_FN __NO_RETURN;",
  "",
  "extern zx_status_t zx_log_write(",
  "    ZX_SYSCALL_PARAM_ATTR(handle_use) zx_handle_t handle,",
  "    uint32_t len,",
  "    const void* buffer,",
  "    uint32_t options) __LEAF_FN;",
  "",
  "extern zx_status_t _zx_log_write(",
  "    ZX_SYSCALL_PARAM_ATTR(handle_use) zx_handle_t handle,",
  "    uint32_t len,",
  "    const void* buffer,",
  "    uint32_t options) __LEAF_FN;",
  ""]

def flChunk6 : List String := [
  "extern zx_status_t zx_log_read(",
  "    ZX_SYSCALL_PARAM_ATTR(handle_use) zx_handle_t handle,",
  "    uint32_t len,",
  "    void* buffer,",
  "    uint32_t options) __LEAF_FN;",
  "",
  "extern zx_status_t _zx_log_read(",
  "    ZX_SYSCALL_PARAM_ATTR(handle_use) zx_handle_t handle,",
  "    uint32_t len,",
  "    void* buffer,",
  "    uint32_t options) __LEAF_FN;",
  "",
  "extern zx_status_t zx_debuglog_create(",
  "    ZX_SYSCALL_PARAM_ATTR(handle_use) zx_handle_t resource,",
  "    uint32_t options,",
  "    ZX_SYSCALL_PARAM_ATTR(handle_acquire) zx_handle_t* out) __NONNULL((3)) __LEAF_FN;",
  "",
  "extern zx_status_t _zx_debuglog_create(",
  "    ZX_SYSCALL_PARAM_ATTR(handle_use) zx_handle_t resource,",
  "    uint32_t options,",
  "    ZX_SYSCALL_PARAM_ATTR(handle_acquire) zx_handle_t* out) __NONNULL((3)) __LEAF_FN;",
  "",
  "extern zx_status_t zx_debuglog_write(",
  "    ZX_SYSCALL_PARAM_ATTR(handle_use) zx_handle_t handle,",
  "    uint32_t options,",
  "    const void* buffer,",
  "    size_t buffer_size) __LEAF_FN;",
  "",
  "extern zx_status_t _zx_debuglog_write(",
  "    ZX_SYSCALL_PARAM_ATTR(handle_use) zx_handle_t handle,",
  "    uint32_t options,",
  "    const void* buffer,",
  "    size_t buffer_size) __LEAF_FN;",
  "",
  "extern zx_status_t zx_debuglog_read(",
  "    ZX_SYSCALL_PARAM_ATTR(handle_use) zx_handle_t handle,",
  "    uint32_t options,",
  "    void* buffer,",
  "    size_t buffer_size) __LEAF_FN;",
  "",
  "extern zx_status_t _zx_debuglog_read(",
  "    ZX_SYSCALL_PARAM_ATTR(handle_use) zx_handle_t handle,",
  "    uint32_t options,",
  "    void* buffer,",
  "    size_t buffer_size) __LEAF_FN;",
  "",
  "extern zx_status_t zx_ktrace_read(",
  "    ZX_SYSCALL_PARAM_ATTR(handle_use) zx_handle_t handle,",
  "    void* data,",
  "    uint32_t offset,",
  "    size_t data_size,",
  "    size_t* actual) __NONNULL((5)) __LEAF_FN;",
  "",
  "extern zx_status_t _zx_ktrace_read(",
  "    ZX_SYSCALL_PARAM_ATTR(handle_use) zx_handle_t handle,",
  "    void* data,",
  "    uint32_t offset,",
  "    size_t data_size,",
  "    size_t* actual) __NONNULL((5)) __LEAF_FN;",
  "",
  "extern zx_status_t zx_ktrace_control(",
  "    ZX_SYSCALL_PARAM_ATTR(handle_use) zx_handle_t handle,",
  "    uint32_t action,",
  "    uint32_t options,",
  "    void* ptr) __LEAF_FN;",
  "",
  "extern zx_status_t _zx_ktrace_control(",
  "    ZX_SYSCALL_PARAM_ATTR(handle_use) zx_handle_t handle,",
  "    uint32_t action,",
  "    uint32_t options,",
  "    void* ptr) __LEAF_FN;",
  "",
  "extern zx_status_t zx_ktrace_write(",
  "    ZX_SYSCALL_PARAM_ATTR(handle_use) zx_handle_t handle,",
  "    uint32_t id,",
  "    uint32_t arg0,",
  "    uint32_t arg1) __LEAF_FN;",
  "",
  "extern zx_status_t _zx_ktrace_write(",
  "    ZX_SYSCALL_PARAM_ATTR(handle_use) zx_handle_t handle,",
  "    uint32_t id,",
  "    uint32_t arg0,",
  "    uint32_t arg1) __LEAF_FN;",
  "",
  "extern zx_status_t zx_mtrace_control(",
  "    ZX_SYSCALL_PARAM_ATTR(handle_use) zx_handle_t handle,",
  "    uint32_t kind,",
  "    uint32_t action,",
  "    uint32_t options,",
  "    void* ptr,",
  "    size_t ptr_size) __LEAF_FN;",
  "",
  "extern zx_status_t _zx_mtrace_control(",
  "    ZX_SYSCALL_PARAM_ATTR(handle_use) zx_handle_t handle,",
  "    uint32_t kind,",
  "    uint32_t action,",
  "    uint32_t options,",
  "    void* ptr,",
  "    size_t ptr_size) __LEAF_FN;",
  "",
  "extern zx_status_t zx_debug_read(",
  "    ZX_SYSCALL_PARAM_ATTR(handle_use) zx_handle_t handle,",
  "    char* buffer,",
  "    size_t* buffer_size) __LEAF_FN;",
  "",
  "extern zx_status_t _zx_debug_read(",
  "    ZX_SYSCALL_PARAM_ATTR(handle_use) zx_handle_t handle,",
  "    char* buffer,",
  "    size_t* buffer_size) __LEAF_FN;",
  "",
  "extern zx_status_t zx_debug_write(",
  "    const char* buffer,",
  "    size_t buffer_size) __LEAF_FN;",
  "",
  "extern zx_status_t _zx_debug_write(",
  "    const char* buffer,",
  "    size_t buffer_size) __LEAF_FN;",
  "",
  "extern zx_status_t zx_debug_send_command(",
  "    ZX_SYSCALL_PARAM_ATTR(handle_use) zx_handle_t resource,",
  "    const char* buffer,",
  "    size_t buffer_size) __LEAF_FN;",
  "",
  "extern zx_status_t _zx_debug_send_command(",
  "    ZX_SYSCALL_PARAM_ATTR(handle_use) zx_handle_t resource,",
  "    const char* buffer,",
  "    size_t buffer_size) __LEAF_FN;",
  "",
  "extern zx_status_t zx_interrupt_create(",
  "    ZX_SYSCALL_PARAM_ATTR(handle_use) zx_handle_t src_obj,",
  "    uint32_t src_num,",
  "    uint32_t options,",
  "    zx_handle_t* out) __NONNULL((4)) __LEAF_FN;",
  "",
  "extern zx_status_t _zx_interrupt_create(",
  "    ZX_SYSCALL_PARAM_ATTR(handle_use) zx_handle_t src_obj,",
  "    uint32_t src_num,",
  "    uint32_t options,",
  "    zx_handle_t* out) __NONNULL((4)) __LEAF_FN;",
  "",
  "extern zx_status_t zx_interrupt_bind(",
  "    ZX_SYSCALL_PARAM_ATTR(handle_use) zx_handle_t handle,",
  "    ZX_SYSCALL_PARAM_ATTR(handle_use) zx_handle_t port,",
  "    uint64_t key,",
  "    uint32_t options) __LEAF_FN;",
  "",
  "extern zx_status_t _zx_interrupt_bind(",
  "    ZX_SYSCALL_PARAM_ATTR(handle_use) zx_handle_t handle,",
  "    ZX_SYSCALL_PARAM_ATTR(handle_use) zx_handle_t port,",
  "    uint64_t key,",
  "    uint32_t options) __LEAF_FN;",
  "",
  "extern zx_status_t zx_interrupt_wait(",
  "    ZX_SYSCALL_PARAM_ATTR(handle_use) zx_handle_t handle,",
  "    zx_time_t* out_timestamp) __LEAF_FN;",
  "",
  "extern zx_status_t _zx_interrupt_wait(",
  "    ZX_SYSCALL_PARAM_ATTR(handle_use) zx_handle_t handle,",
  "    zx_time_t* out_timestamp) __LEAF_FN;",
  "",
  "extern zx_status_t zx_interrupt_destroy(",
  "    ZX_SYSCALL_PARAM_ATTR(handle_use) zx_handle_t handle) __LEAF_FN;",
  "",
  "extern zx_status_t _zx_interrupt_destroy(",
  "    ZX_SYSCALL_PARAM_ATTR(handle_use) zx_handle_t handle) __LEAF_FN;",
  "",
  "extern zx_status_t zx_interrupt_ack(",
  "    ZX_SYSCALL_PARAM_ATTR(handle_use) zx_handle_t handle) __LEAF_FN;",
  "",
  "extern zx_status_t _zx_interrupt_ack(",
  "    ZX_SYSCALL_PARAM_ATTR(handle_use) zx_handle_t handle) __LEAF_FN;",
  "",
  "extern zx_status_t zx_interrupt_trigger(",
  "    ZX_SYSCALL_PARAM_ATTR(handle_use) zx_handle_t handle,",
  "    uint32_t options,",
  "    zx_time_t timestamp) __LEAF_FN;",
  "",
  "extern zx_status_t _zx_interrupt_trigger(",
  "    ZX_SYSCALL_PARAM_ATTR(handle_use) zx_handle_t handle,",
  "    uint32_t options,",
  "    zx_time_t timestamp) __LEAF_FN;",
  ""]

def flChunk7 : List String := [
  "extern zx_status_t zx_interrupt_bind_vcpu(",
  "    ZX_SYSCALL_PARAM_ATTR(handle_use) zx_handle_t handle,",
  "    ZX_SYSCALL_PARAM_ATTR(handle_use) zx_handle_t vcpu,",
  "    uint32_t options) __LEAF_FN;",
  "",
  "extern zx_status_t _zx_interrupt_bind_vcpu(",
  "    ZX_SYSCALL_PARAM_ATTR(handle_use) zx_handle_t handle,",
  "    ZX_SYSCALL_PARAM_ATTR(handle_use) zx_handle_t vcpu,",
  "    uint32_t options) __LEAF_FN;",
  "",
  "extern zx_status_t zx_ioports_request(",
  "    ZX_SYSCALL_PARAM_ATTR(handle_use) zx_handle_t resource,",
  "    uint16_t io_addr,",
  "    uint32_t len) __LEAF_FN;",
  "",
  "extern zx_status_t _zx_ioports_request(",
  "    ZX_SYSCALL_PARAM_ATTR(handle_use) zx_handle_t resource,",
  "    uint16_t io_addr,",
  "    uint32_t len) __LEAF_FN;",
  "",
  "extern zx_status_t zx_vmo_create_contiguous(",
  "    ZX_SYSCALL_PARAM_ATTR(handle_use) zx_handle_t bti,",
  "    size_t size,",
  "    uint32_t alignment_log2,",
  "    ZX_SYSCALL_PARAM_ATTR(handle_acquire) zx_handle_t* out) __NONNULL((4)) __LEAF_FN;",
  "",
  "extern zx_status_t _zx_vmo_create_contiguous(",
  "    ZX_SYSCALL_PARAM_ATTR(handle_use) zx_handle_t bti,",
  "    size_t size,",
  "    uint32_t alignment_log2,",
  "    ZX_SYSCALL_PARAM_ATTR(handle_acquire) zx_handle_t* out) __NONNULL((4)) __LEAF_FN;",
  "",
  "extern zx_status_t zx_vmo_create_physical(",
  "    ZX_SYSCALL_PARAM_ATTR(handle_use) zx_handle_t resource,",
  "    zx_paddr_t paddr,",
  "    size_t size,",
  "    ZX_SYSCALL_PARAM_ATTR(handle_acquire) zx_handle_t* out) __NONNULL((4)) __LEAF_FN;",
  "",
  "extern zx_status_t _zx_vmo_create_physical(",
  "    ZX_SYSCALL_PARAM_ATTR(handle_use) zx_handle_t resource,",
  "    zx_paddr_t paddr,",
  "    size_t size,",
  "    ZX_SYSCALL_PARAM_ATTR(handle_acquire) zx_handle_t* out) __NONNULL((4)) __LEAF_FN;",
  "",
  "extern zx_status_t zx_iommu_create(",
  "    ZX_SYSCALL_PARAM_ATTR(handle_use) zx_handle_t resource,",
  "    uint32_t type,",
  "    const void* desc,",
  "    size_t desc_size,",
  "    ZX_SYSCALL_PARAM_ATTR(handle_acquire) zx_handle_t* out) __NONNULL((5)) __LEAF_FN;",
  "",
  "extern zx_status_t _zx_iommu_create(",
  "    ZX_SYSCALL_PARAM_ATTR(handle_use) zx_handle_t resource,",
  "    uint32_t type,",
  "    const void* desc,",
  "    size_t desc_size,",
  "    ZX_SYSCALL_PARAM_ATTR(handle_acquire) zx_handle_t* out) __NONNULL((5)) __LEAF_FN;",
  "",
  "extern zx_status_t zx_bti_create(",
  "    ZX_SYSCALL_PARAM_ATTR(handle_use) zx_handle_t iommu,",
  "    uint32_t options,",
  "    uint64_t bti_id,",
  "    ZX_SYSCALL_PARAM_ATTR(handle_acquire) zx_handle_t* out) __NONNULL((4)) __LEAF_FN;",
  "",
  "extern zx_status_t _zx_bti_create(",
  "    ZX_SYSCALL_PARAM_ATTR(handle_use) zx_handle_t iommu,",
  "    uint32_t options,",
  "    uint64_t bti_id,",
  "    ZX_SYSCALL_PARAM_ATTR(handle_acquire) zx_handle_t* out) __NONNULL((4)) __LEAF_FN;",
  "",
  "extern zx_status_t zx_bti_pin(",
  "    ZX_SYSCALL_PARAM_ATTR(handle_use) zx_handle_t handle,",
  "    uint32_t options,",
  "    ZX_SYSCALL_PARAM_ATTR(handle_use) zx_handle_t vmo,",
  "    uint64_t offset,",
  "    uint64_t size,",
  "    zx_paddr_t* addrs,",
  "    size_t addrs_count,",
  "    ZX_SYSCALL_PARAM_ATTR(handle_acquire) zx_handle_t* pmt) __NONNULL((8)) __LEAF_FN;",
  "",
  "extern zx_status_t _zx_bti_pin(",
  "    ZX_SYSCALL_PARAM_ATTR(handle_use) zx_handle_t handle,",
  "    uint32_t options,",
  "    ZX_SYSCALL_PARAM_ATTR(handle_use) zx_handle_t vmo,",
  "    uint64_t offset,",
  "    uint64_t size,",
  "    zx_paddr_t* addrs,",
  "    size_t addrs_count,",
  "    ZX_SYSCALL_PARAM_ATTR(handle_acquire) zx_handle_t* pmt) __NONNULL((8)) __LEAF_FN;",
  "",
  "extern zx_status_t zx_bti_release_quarantine(",
  "    ZX_SYSCALL_PARAM_ATTR(handle_use) zx_handle_t handle) __LEAF_FN;",
  "",
  "extern zx_status_t _zx_bti_release_quarantine(",
  "    ZX_SYSCALL_PARAM_ATTR(handle_use) zx_handle_t handle) __LEAF_FN;",
  "",
  "extern zx_status_t zx_pmt_unpin(",
  "    ZX_SYSCALL_PARAM_ATTR(handle_release_always) zx_handle_t handle) __LEAF_FN;",
  "",
  "extern zx_status_t _zx_pmt_unpin(",
  "    ZX_SYSCALL_PARAM_ATTR(handle_release_always) zx_handle_t handle) __LEAF_FN;",
  "",
  "extern zx_status_t zx_framebuffer_get_info(",
  "    ZX_SYSCALL_PARAM_ATTR(handle_use) zx_handle_t resource,",
  "    uint32_t* format,",
  "    uint32_t* width,",
  "    uint32_t* height,",
  "    uint32_t* stride) __NONNULL((2, 3, 4, 5)) __LEAF_FN;",
  "",
  "extern zx_status_t _zx_framebuffer_get_info(",
  "    ZX_SYSCALL_PARAM_ATTR(handle_use) zx_handle_t resource,",
  "    uint32_t* format,",
  "    uint32_t* width,",
  "    uint32_t* height,",
  "    uint32_t* stride) __NONNULL((2, 3, 4, 5)) __LEAF_FN;",
  "",
  "extern zx_status_t zx_framebuffer_set_range(",
  "    ZX_SYSCALL_PARAM_ATTR(handle_use) zx_handle_t resource,",
  "    ZX_SYSCALL_PARAM_ATTR(handle_use) zx_handle_t vmo,",
  "    uint32_t len,",
  "    uint32_t format,",
  "    uint32_t width,",
  "    uint32_t height,",
  "    uint32_t stride) __LEAF_FN;",
  "",
  "extern zx_status_t _zx_framebuffer_set_range(",
  "    ZX_SYSCALL_PARAM_ATTR(handle_use) zx_handle_t resource,",
  "    ZX_SYSCALL_PARAM_ATTR(handle_use) zx_handle_t vmo,",
  "    uint32_t len,",
  "    uint32_t format,",
  "    uint32_t width,",
  "    uint32_t height,",
  "    uint32_t stride) __LEAF_FN;",
  "",
  "extern zx_status_t zx_pci_get_nth_device(",
  "    ZX_SYSCALL_PARAM_ATTR(handle_use) zx_handle_t handle,",
  "    uint32_t index,",
  "    zx_pcie_device_info_t* out_info,",
  "    ZX_SYSCALL_PARAM_ATTR(handle_acquire) zx_handle_t* out_handle) __NONNULL((3, 4)) __LEAF_FN;",
  "",
  "extern zx_status_t _zx_pci_get_nth_device(",
  "    ZX_SYSCALL_PARAM_ATTR(handle_use) zx_handle_t handle,",
  "    uint32_t index,",
  "    zx_pcie_device_info_t* out_info,",
  "    ZX_SYSCALL_PARAM_ATTR(handle_acquire) zx_handle_t* out_handle) __NONNULL((3, 4)) __LEAF_FN;",
  "",
  "extern zx_status_t zx_pci_enable_bus_master(",
  "    ZX_SYSCALL_PARAM_ATTR(handle_use) zx_handle_t handle,",
  "    bool enable) __LEAF_FN;",
  "",
  "extern zx_status_t _zx_pci_enable_bus_master(",
  "    ZX_SYSCALL_PARAM_ATTR(handle_use) zx_handle_t handle,",
  "    bool enable) __LEAF_FN;",
  "",
  "extern zx_status_t zx_pci_reset_device(",
  "    ZX_SYSCALL_PARAM_ATTR(handle_use) zx_handle_t handle) __LEAF_FN;",
  "",
  "extern zx_status_t _zx_pci_reset_device(",
  "    ZX_SYSCALL_PARAM_ATTR(handle_use) zx_handle_t handle) __LEAF_FN;",
  "",
  "extern zx_status_t zx_pci_config_read(",
  "    ZX_SYSCALL_PARAM_ATTR(handle_use) zx_handle_t handle,",
  "    uint16_t offset,",
  "    size_t width,",
  "    uint32_t* out_val) __LEAF_FN;",
  "",
  "extern zx_status_t _zx_pci_config_read(",
  "    ZX_SYSCALL_PARAM_ATTR(handle_use) zx_handle_t handle,",
  "    uint16_t offset,",
  "    size_t width,",
  "    uint32_t* out_val) __LEAF_FN;",
  "",
  "extern zx_status_t zx_pci_config_write(",
  "    ZX_SYSCALL_PARAM_ATTR(handle_use) zx_handle_t handle,",
  "    uint16_t offset,",
  "    size_t width,",
  "    uint32_t val) __LEAF_FN;",
  "",
  "extern zx_status_t _zx_pci_config_write(",
  "    ZX_SYSCALL_PARAM_ATTR(handle_use) zx_handle_t handle,",
  "    uint16_t offset,",
  "    size_t width,",
  "    uint32_t val) __LEAF_FN;",
  "",
  "extern zx_status_t zx_pci_cfg_pio_rw(",
  "    ZX_SYSCALL_PARAM_ATTR(handle_use) zx_handle_t handle,",
  "    uint8_t bus,",
  "    uint8_t dev,",
  "    uint8_t func,",
  "    uint8_t offset,",
  "    uint32_t* val,",
  "    size_t width,",
  "    bool write) __LEAF_FN;",
  "",
  "extern zx_status_t _zx_pci_cfg_pio_rw(",
  "    ZX_SYSCALL_PARAM_ATTR(handle_use) zx_handle_t handle,",
  "    uint8_t bus,",
  "    uint8_t dev,",
  "    uint8_t func,",
  "    uint8_t offset,",
  "    uint32_t* val,",
  "    size_t width,",
  "    bool write) __LEAF_FN;",
  ""]

def flChunk8 : List String := [
  "extern zx_status_t zx_pci_get_bar(",
  "    ZX_SYSCALL_PARAM_ATTR(handle_use) zx_handle_t handle,",
  "    uint32_t bar_num,",
  "    zx_pci_bar_t* out_bar,",
  "    ZX_SYSCALL_PARAM_ATTR(handle_acquire) zx_handle_t* out_handle) __NONNULL((4)) __LEAF_FN;",
  "",
  "extern zx_status_t _zx_pci_get_bar(",
  "    ZX_SYSCALL_PARAM_ATTR(handle_use) zx_handle_t handle,",
  "    uint32_t bar_num,",
  "    zx_pci_bar_t* out_bar,",
  "    ZX_SYSCALL_PARAM_ATTR(handle_acquire) zx_handle_t* out_handle) __NONNULL((4)) __LEAF_FN;",
  "",
  "extern zx_status_t zx_pci_map_interrupt(",
  "    ZX_SYSCALL_PARAM_ATTR(handle_use) zx_handle_t handle,",
  "    int32_t which_irq,",
  "    ZX_SYSCALL_PARAM_ATTR(handle_acquire) zx_handle_t* out_handle) __NONNULL((3)) __LEAF_FN;",
  "",
  "extern zx_status_t _zx_pci_map_interrupt(",
  "    ZX_SYSCALL_PARAM_ATTR(handle_use) zx_handle_t handle,",
  "    int32_t which_irq,",
  "    ZX_SYSCALL_PARAM_ATTR(handle_acquire) zx_handle_t* out_handle) __NONNULL((3)) __LEAF_FN;",
  "",
  "extern zx_status_t zx_pci_query_irq_mode(",
  "    ZX_SYSCALL_PARAM_ATTR(handle_use) zx_handle_t handle,",
  "    uint32_t mode,",
  "    uint32_t* out_max_irqs) __NONNULL((3)) __LEAF_FN;",
  "",
  "extern zx_status_t _zx_pci_query_irq_mode(",
  "    ZX_SYSCALL_PARAM_ATTR(handle_use) zx_handle_t handle,",
  "    uint32_t mode,",
  "    uint32_t* out_max_irqs) __NONNULL((3)) __LEAF_FN;",
  "",
  "extern zx_status_t zx_pci_set_irq_mode(",
  "    ZX_SYSCALL_PARAM_ATTR(handle_use) zx_handle_t handle,",
  "    uint32_t mode,",
  "    uint32_t requested_irq_count) __LEAF_FN;",
  "",
  "extern zx_status_t _zx_pci_set_irq_mode(",
  "    ZX_SYSCALL_PARAM_ATTR(handle_use) zx_handle_t handle,",
  "    uint32_t mode,",
  "    uint32_t requested_irq_count) __LEAF_FN;",
  "",
  "extern zx_status_t zx_pci_init(",
  "    ZX_SYSCALL_PARAM_ATTR(handle_use) zx_handle_t handle,",
  "    const zx_pci_init_arg_t* init_buf,",
  "    uint32_t len) __LEAF_FN;",
  "",
  "extern zx_status_t _zx_pci_init(",
  "    ZX_SYSCALL_PARAM_ATTR(handle_use) zx_handle_t handle,",
  "    const zx_pci_init_arg_t* init_buf,",
  "    uint32_t len) __LEAF_FN;",
  "",
  "extern zx_status_t zx_pci_add_subtract_io_range(",
  "    ZX_SYSCALL_PARAM_ATTR(handle_use) zx_handle_t handle,",
  "    bool mmio,",
  "    uint64_t base,",
  "    uint64_t len,",
  "    bool add) __LEAF_FN;",
  "",
  "extern zx_status_t _zx_pci_add_subtract_io_range(",
  "    ZX_SYSCALL_PARAM_ATTR(handle_use) zx_handle_t handle,",
  "    bool mmio,",
  "    uint64_t base,",
  "    uint64_t len,",
  "    bool add) __LEAF_FN;",
  "",
  "extern zx_status_t zx_pc_firmware_tables(",
  "    ZX_SYSCALL_PARAM_ATTR(handle_use) zx_handle_t handle,",
  "    zx_paddr_t* acpi_rsdp,",
  "    zx_paddr_t* smbios) __NONNULL((2, 3)) __LEAF_FN;",
  "",
  "extern zx_status_t _zx_pc_firmware_tables(",
  "    ZX_SYSCALL_PARAM_ATTR(handle_use) zx_handle_t handle,",
  "    zx_paddr_t* acpi_rsdp,",
  "    zx_paddr_t* smbios) __NONNULL((2, 3)) __LEAF_FN;",
  "",
  "extern zx_status_t zx_smc_call(",
  "    ZX_SYSCALL_PARAM_ATTR(handle_use) zx_handle_t handle,",
  "    const zx_smc_parameters_t* parameters,",
  "    zx_smc_result_t* out_smc_result) __NONNULL((3)) __LEAF_FN;",
  "",
  "extern zx_status_t _zx_smc_call(",
  "    ZX_SYSCALL_PARAM_ATTR(handle_use) zx_handle_t handle,",
  "    const zx_smc_parameters_t* parameters,",
  "    zx_smc_result_t* out_smc_result) __NONNULL((3)) __LEAF_FN;",
  "",
  "extern zx_status_t zx_resource_create(",
  "    ZX_SYSCALL_PARAM_ATTR(handle_use) zx_handle_t parent_rsrc,",
  "    uint32_t options,",
  "    uint64_t base,",
  "    size_t size,",
  "    const char* name,",
  "    size_t name_size,",
  "    ZX_SYSCALL_PARAM_ATTR(handle_acquire) zx_handle_t* resource_out) __NONNULL((7)) __LEAF_FN;",
  "",
  "extern zx_status_t _zx_resource_create(",
  "    ZX_SYSCALL_PARAM_ATTR(handle_use) zx_handle_t parent_rsrc,",
  "    uint32_t options,",
  "    uint64_t base,",
  "    size_t size,",
  "    const char* name,",
  "    size_t name_size,",
  "    ZX_SYSCALL_PARAM_ATTR(handle_acquire) zx_handle_t* resource_out) __NONNULL((7)) __LEAF_FN;",
  "",
  "extern zx_status_t zx_guest_create(",
  "    ZX_SYSCALL_PARAM_ATTR(handle_use) zx_handle_t resource,",
  "    uint32_t options,",
  "    ZX_SYSCALL_PARAM_ATTR(handle_acquire) zx_handle_t* guest_handle,",
  "    ZX_SYSCALL_PARAM_ATTR(handle_acquire) zx_handle_t* vmar_handle) __NONNULL((3, 4)) __LEAF_FN;",
  "",
  "extern zx_status_t _zx_guest_create(",
  "    ZX_SYSCALL_PARAM_ATTR(handle_use) zx_handle_t resource,",
  "    uint32_t options,",
  "    ZX_SYSCALL_PARAM_ATTR(handle_acquire) zx_handle_t* guest_handle,",
  "    ZX_SYSCALL_PARAM_ATTR(handle_acquire) zx_handle_t* vmar_handle) __NONNULL((3, 4)) __LEAF_FN;",
  "",
  "extern zx_status_t zx_guest_set_trap(",
  "    ZX_SYSCALL_PARAM_ATTR(handle_use) zx_handle_t handle,",
  "    uint32_t kind,",
  "    zx_vaddr_t addr,",
  "    size_t size,",
  "    ZX_SYSCALL_PARAM_ATTR(handle_use) zx_handle_t port_handle,",
  "    uint64_t key) __LEAF_FN;",
  "",
  "extern zx_status_t _zx_guest_set_trap(",
  "    ZX_SYSCALL_PARAM_ATTR(handle_use) zx_handle_t handle,",
  "    uint32_t kind,",
  "    zx_vaddr_t addr,",
  "    size_t size,",
  "    ZX_SYSCALL_PARAM_ATTR(handle_use) zx_handle_t port_handle,",
  "    uint64_t key) __LEAF_FN;",
  "",
  "extern zx_status_t zx_vcpu_create(",
  "    ZX_SYSCALL_PARAM_ATTR(handle_use) zx_handle_t guest,",
  "    uint32_t options,",
  "    zx_vaddr_t entry,",
  "    ZX_SYSCALL_PARAM_ATTR(handle_acquire) zx_handle_t* out) __NONNULL((4)) __LEAF_FN;",
  "",
  "extern zx_status_t _zx_vcpu_create(",
  "    ZX_SYSCALL_PARAM_ATTR(handle_use) zx_handle_t guest,",
  "    uint32_t options,",
  "    zx_vaddr_t entry,",
  "    ZX_SYSCALL_PARAM_ATTR(handle_acquire) zx_handle_t* out) __NONNULL((4)) __LEAF_FN;",
  "",
  "extern zx_status_t zx_vcpu_resume(",
  "    ZX_SYSCALL_PARAM_ATTR(handle_use) zx_handle_t handle,",
  "    zx_port_packet_t* packet) __NONNULL((2)) __LEAF_FN;",
  "",
  "extern zx_status_t _zx_vcpu_resume(",
  "    ZX_SYSCALL_PARAM_ATTR(handle_use) zx_handle_t handle,",
  "    zx_port_packet_t* packet) __NONNULL((2)) __LEAF_FN;",
  "",
  "extern zx_status_t zx_vcpu_interrupt(",
  "    ZX_SYSCALL_PARAM_ATTR(handle_use) zx_handle_t handle,",
  "    uint32_t vector) __LEAF_FN;",
  "",
  "extern zx_status_t _zx_vcpu_interrupt(",
  "    ZX_SYSCALL_PARAM_ATTR(handle_use) zx_handle_t handle,",
  "    uint32_t vector) __LEAF_FN;",
  "",
  "extern zx_status_t zx_vcpu_read_state(",
  "    ZX_SYSCALL_PARAM_ATTR(handle_use) zx_handle_t handle,",
  "    uint32_t kind,",
  "    void* buffer,",
  "    size_t buffer_size) __LEAF_FN;",
  "",
  "extern zx_status_t _zx_vcpu_read_state(",
  "    ZX_SYSCALL_PARAM_ATTR(handle_use) zx_handle_t handle,",
  "    uint32_t kind,",
  "    void* buffer,",
  "    size_t buffer_size) __LEAF_FN;",
  "",
  "extern zx_status_t zx_vcpu_write_state(",
  "    ZX_SYSCALL_PARAM_ATTR(handle_use) zx_handle_t handle,",
  "    uint32_t kind,",
  "    const void* buffer,",
  "    size_t buffer_size) __LEAF_FN;",
  "",
  "extern zx_status_t _zx_vcpu_write_state(",
  "    ZX_SYSCALL_PARAM_ATTR(handle_use) zx_handle_t handle,",
  "    uint32_t kind,",
  "    const void* buffer,",
  "    size_t buffer_size) __LEAF_FN;",
  "",
  "extern zx_status_t zx_system_mexec(",
  "    ZX_SYSCALL_PARAM_ATTR(handle_use) zx_handle_t resource,",
  "    ZX_SYSCALL_PARAM_ATTR(handle_use) zx_handle_t kernel_vmo,",
  "    ZX_SYSCALL_PARAM_ATTR(handle_use) zx_handle_t bootimage_vmo) __LEAF_FN;",
  "",
  "extern zx_status_t _zx_system_mexec(",
  "    ZX_SYSCALL_PARAM_ATTR(handle_use) zx_handle_t resource,",
  "    ZX_SYSCALL_PARAM_ATTR(handle_use) zx_handle_t kernel_vmo,",
  "    ZX_SYSCALL_PARAM_ATTR(handle_use) zx_handle_t bootimage_vmo) __LEAF_FN;",
  ""]

def flChunk9 : List String := [
  "extern zx_status_t zx_system_mexec_payload_get(",
  "    ZX_SYSCALL_PARAM_ATTR(handle_use) zx_handle_t resource,",
  "    void* buffer,",
  "    size_t buffer_size) __LEAF_FN;",
  "",
  "extern zx_status_t _zx_system_mexec_payload_get(",
  "    ZX_SYSCALL_PARAM_ATTR(handle_use) zx_handle_t resource,",
  "    void* buffer,",
  "    size_t buffer_size) __LEAF_FN;",
  "",
  "extern zx_status_t zx_system_powerctl(",
  "    ZX_SYSCALL_PARAM_ATTR(handle_use) zx_handle_t resource,",
  "    uint32_t cmd,",
  "    const zx_system_powerctl_arg_t* arg) __LEAF_FN;",
  "",
  "extern zx_status_t _zx_system_powerctl(",
  "    ZX_SYSCALL_PARAM_ATTR(handle_use) zx_handle_t resource,",
  "    uint32_t cmd,",
  "    const zx_system_powerctl_arg_t* arg) __LEAF_FN;",
  "",
  "extern zx_status_t zx_pager_create(",
  "    uint32_t options,",
  "    ZX_SYSCALL_PARAM_ATTR(pager) zx_handle_t* out_pager) __NONNULL((2)) __LEAF_FN;",
  "",
  "extern zx_status_t _zx_pager_create(",
  "    uint32_t options,",
  "    ZX_SYSCALL_PARAM_ATTR(pager) zx_handle_t* out_pager) __NONNULL((2)) __LEAF_FN;",
  "",
  "extern zx_status_t zx_pager_create_vmo(",
  "    ZX_SYSCALL_PARAM_ATTR(handle_use) zx_handle_t pager,",
  "    ZX_SYSCALL_PARAM_ATTR(handle_use) zx_handle_t port,",
  "    uint64_t key,",
  "    uint64_t size,",
  "    uint32_t options,",
  "    ZX_SYSCALL_PARAM_ATTR(out_pager_vmo) zx_handle_t* out_pager_vmo) __NONNULL((6)) __LEAF_FN;",
  "",
  "extern zx_status_t _zx_pager_create_vmo(",
  "    ZX_SYSCALL_PARAM_ATTR(handle_use) zx_handle_t pager,",
  "    ZX_SYSCALL_PARAM_ATTR(handle_use) zx_handle_t port,",
  "    uint64_t key,",
  "    uint64_t size,",
  "    uint32_t options,",
  "    ZX_SYSCALL_PARAM_ATTR(out_pager_vmo) zx_handle_t* out_pager_vmo) __NONNULL((6)) __LEAF_FN;",
  "",
  "extern zx_status_t zx_syscall_test_0(",
  "    void) __LEAF_FN;",
  "",
  "extern zx_status_t _zx_syscall_test_0(",
  "    void) __LEAF_FN;",
  "",
  "extern zx_status_t zx_syscall_test_1(",
  "    int a) __LEAF_FN;",
  "",
  "extern zx_status_t _zx_syscall_test_1(",
  "    int a) __LEAF_FN;",
  "",
  "extern zx_status_t zx_syscall_test_2(",
  "    int a,",
  "    int b) __LEAF_FN;",
  "",
  "extern zx_status_t _zx_syscall_test_2(",
  "    int a,",
  "    int b) __LEAF_FN;",
  "",
  "extern zx_status_t zx_syscall_test_3(",
  "    int a,",
  "    int b,",
  "    int c) __LEAF_FN;",
  "",
  "extern zx_status_t _zx_syscall_test_3(",
  "    int a,",
  "    int b,",
  "    int c) __LEAF_FN;",
  "",
  "extern zx_status_t zx_syscall_test_4(",
  "    int a,",
  "    int b,",
  "    int c,",
  "    int d) __LEAF_FN;",
  "",
  "extern zx_status_t _zx_syscall_test_4(",
  "    int a,",
  "    int b,",
  "    int c,",
  "    int d) __LEAF_FN;",
  "",
  "extern zx_status_t zx_syscall_test_5(",
  "    int a,",
  "    int b,",
  "    int c,",
  "    int d,",
  "    int e) __LEAF_FN;",
  "",
  "extern zx_status_t _zx_syscall_test_5(",
  "    int a,",
  "    int b,",
  "    int c,",
  "    int d,",
  "    int e) __LEAF_FN;",
  "",
  "extern zx_status_t zx_syscall_test_6(",
  "    int a,",
  "    int b,",
  "    int c,",
  "    int d,",
  "    int e,",
  "    int f) __LEAF_FN;",
  "",
  "extern zx_status_t _zx_syscall_test_6(",
  "    int a,",
  "    int b,",
  "    int c,",
  "    int d,",
  "    int e,",
  "    int f) __LEAF_FN;",
  "",
  "extern zx_status_t zx_syscall_test_7(",
  "    int a,",
  "    int b,",
  "    int c,",
  "    int d,",
  "    int e,",
  "    int f,",
  "    int g) __LEAF_FN;",
  "",
  "extern zx_status_t _zx_syscall_test_7(",
  "    int a,",
  "    int b,",
  "    int c,",
  "    int d,",
  "    int e,",
  "    int f,",
  "    int g) __LEAF_FN;",
  "",
  "extern zx_status_t zx_syscall_test_8(",
  "    int a,",
  "    int b,",
  "    int c,",
  "    int d,",
  "    int e,",
  "    int f,",
  "    int g,",
  "    int h) __LEAF_FN;",
  "",
  "extern zx_status_t _zx_syscall_test_8(",
  "    int a,",
  "    int b,",
  "    int c,",
  "    int d,",
  "    int e,",
  "    int f,",
  "    int g,",
  "    int h) __LEAF_FN;",
  "",
  "extern zx_status_t zx_syscall_test_wrapper(",
  "    int a,",
  "    int b,",
  "    int c) __LEAF_FN;",
  "",
  "extern zx_status_t _zx_syscall_test_wrapper(",
  "    int a,",
  "    int b,",
  "    int c) __LEAF_FN;",
  ""]

/-- The 1838 lines of definitions.h, verbatim and in order. -/
def fileLines : List String :=
  flChunk0 ++ flChunk1 ++ flChunk2 ++ flChunk3 ++ flChunk4 ++ flChunk5 ++ flChunk6 ++ flChunk7 ++ flChunk8 ++ flChunk9


/- Structural checks over the declaration list. -/

def isCodeLine (s : String) : Bool :=
  !(s == "" || strStarts "//" s)

/-- Linear walk over a declaration list: it consists of consecutive pairs
whose second member equals the first with an underscore prefixed to its
symbol name (hence is underscore-prefixed), the first member being
non-underscore-prefixed. -/
def rawPaired : List CDecl → Bool
  | [] => true
  | [_] => false
  | a :: b :: rest =>
      (!strStarts "_" a.name) && decide (b = underscored a) &&
        strStarts "_" b.name && rawPaired rest

/-- Linear walk checking the public/private adjacency by name only. -/
def adjacentlyPaired : List CDecl → Bool
  | [] => true
  | [_] => false
  | a :: b :: rest =>
      strStarts "zx_" a.name && (b.name == "_" ++ a.name) && adjacentlyPaired rest

/-- The seven parameter tags that occur in the header. -/
def sevenTags : List PTag :=
  [.handle_use, .handle_release_always, .handle_release, .handle_acquire,
   .features, .pager, .out_pager_vmo]

/-- A list passing rawPaired contains, for each of its non-underscore-prefixed
members, the underscore-prefixed copy of that member. -/
theorem rawPaired_mem : ∀ (l : List CDecl), rawPaired l = true → ∀ d ∈ l,
    strStarts "_" d.name = false → ∃ e ∈ l, e = underscored d
  | [], _, d, hd, _ => absurd hd (List.not_mem_nil d)
  | [_], h, _, _, _ => Bool.noConfusion h
  | a :: b :: rest, h, d, hd, hpub => by
      have h2 : ((!strStarts "_" a.name) && decide (b = underscored a) &&
          strStarts "_" b.name && rawPaired rest) = true := h
      simp only [Bool.and_eq_true] at h2
      obtain ⟨⟨⟨hnota, hbeq⟩, hbpriv⟩, hrest⟩ := h2
      have hb : b = underscored a := of_decide_eq_true hbeq
      rcases List.mem_cons.mp hd with rfl | hd1
      · exact ⟨b, List.mem_cons_of_mem _ (List.mem_cons_self _ _), hb⟩
      rcases List.mem_cons.mp hd1 with rfl | hd2
      · rw [hb] at hpub
        rw [hb] at hbpriv
        rw [hpub] at hbpriv
        exact absurd hbpriv (by decide)
      · obtain ⟨e, he, heq⟩ := rawPaired_mem rest hrest d hd2 hpub
        exact ⟨e, List.mem_cons_of_mem _ (List.mem_cons_of_mem _ he), heq⟩

theorem syscalls_rawPaired : rawPaired syscalls = true := by decide

/-- Claim C1: every public entry point zx_NAME declared in the header has a
matching private-prefixed entry point _zx_NAME in the header, and the match is
the public declaration with only the name underscore-prefixed: its rendered
source text (return type, parameter list, nullability and handle annotations,
and function attributes) is character-for-character the public declaration's
text with the leading underscore added to the name. -/
theorem c1_public_private_pairs :
    ∀ d ∈ syscalls, strStarts "_" d.name = false →
      ∃ e ∈ syscalls, e.name = "_" ++ d.name ∧ e.srcLines = (underscored d).srcLines := by
  intro d hd hpub
  obtain ⟨e, he, rfl⟩ := rawPaired_mem syscalls syscalls_rawPaired d hd hpub
  exact ⟨underscored d, he, rfl, rfl⟩

/-- Witness for C1 at the first declaration, zx_clock_get. -/
theorem c1_public_private_pairs_witness :
    ∃ e ∈ syscalls, e.name = "_" ++ d_zx_clock_get.name ∧
      e.srcLines = (underscored d_zx_clock_get).srcLines :=
  c1_public_private_pairs d_zx_clock_get (by decide) (by decide)

/-- Claim C4: for every public/private pair of declarations, the __NONNULL
index sets of the two variants are equal. -/
theorem c4_nonnull_agree :
    ∀ d ∈ syscalls, strStarts "_" d.name = false →
      ∃ e ∈ syscalls, e.name = "_" ++ d.name ∧ e.nonnullIdxs = d.nonnullIdxs := by
  intro d hd hpub
  obtain ⟨e, he, rfl⟩ := rawPaired_mem syscalls syscalls_rawPaired d hd hpub
  exact ⟨underscored d, he, rfl, rfl⟩

/-- Witness for C4 at zx_clock_get_new, which carries __NONNULL((2)). -/
theorem c4_nonnull_agree_witness :
    ∃ e ∈ syscalls, e.name = "_" ++ d_zx_clock_get_new.name ∧
      e.nonnullIdxs = d_zx_clock_get_new.nonnullIdxs :=
  c4_nonnull_agree d_zx_clock_get_new (by decide) (by decide)

/-- Claim C8: the declarations appear in the file as adjacent ordered pairs:
each public zx_NAME declaration is immediately followed by its private
_zx_NAME declaration, with no other declaration between them, throughout the
whole list. -/
theorem c8_adjacent_pairs : adjacentlyPaired syscalls = true := by decide

theorem c5_chunk0 : flChunk0.filter isCodeLine = sysChunk0.flatMap CDecl.srcLines := by decide

theorem c5_chunk1 : flChunk1.filter isCodeLine = sysChunk1.flatMap CDecl.srcLines := by decide

theorem c5_chunk2 : flChunk2.filter isCodeLine = sysChunk2.flatMap CDecl.srcLines := by decide

theorem c5_chunk3 : flChunk3.filter isCodeLine = sysChunk3.flatMap CDecl.srcLines := by decide

theorem c5_chunk4 : flChunk4.filter isCodeLine = sysChunk4.flatMap CDecl.srcLines := by decide

theorem c5_chunk5 : flChunk5.filter isCodeLine = sysChunk5.flatMap CDecl.srcLines := by decide

theorem c5_chunk6 : flChunk6.filter isCodeLine = sysChunk6.flatMap CDecl.srcLines := by decide

theorem c5_chunk7 : flChunk7.filter isCodeLine = sysChunk7.flatMap CDecl.srcLines := by decide

theorem c5_chunk8 : flChunk8.filter isCodeLine = sysChunk8.flatMap CDecl.srcLines := by decide

theorem c5_chunk9 : flChunk9.filter isCodeLine = sysChunk9.flatMap CDecl.srcLines := by decide

/-- Claim C5: the header consists exclusively of extern function prototypes
plus comments and blank lines: filtering out blank and comment lines from the
verbatim file text leaves exactly the rendered source lines of the 334
prototype declarations, each of the form extern type name(params) attributes;
with no body, so the file holds no function definition, no control flow, no
data-structure definition and no algorithm. -/
theorem c5_only_declarations :
    fileLines.filter isCodeLine = syscalls.flatMap CDecl.srcLines := by
  show (flChunk0 ++ flChunk1 ++ flChunk2 ++ flChunk3 ++ flChunk4 ++ flChunk5 ++
      flChunk6 ++ flChunk7 ++ flChunk8 ++ flChunk9).filter isCodeLine =
    (sysChunk0 ++ sysChunk1 ++ sysChunk2 ++ sysChunk3 ++ sysChunk4 ++ sysChunk5 ++
      sysChunk6 ++ sysChunk7 ++ sysChunk8 ++ sysChunk9).flatMap CDecl.srcLines
  simp only [List.filter_append, List.flatMap_append, c5_chunk0, c5_chunk1,
    c5_chunk2, c5_chunk3, c5_chunk4, c5_chunk5, c5_chunk6, c5_chunk7,
    c5_chunk8, c5_chunk9]

/-- Claim C2 as stated is false: the declaration zx_system_get_features is in
the header and carries the parameter-level tag ZX_SYSCALL_PARAM_ATTR(features)
on its second parameter, and features is none of the four handle-discipline
tags use, release-always, release, acquire. -/
theorem c2_counterexample :
    d_zx_system_get_features ∈ syscalls ∧
    ∃ p ∈ d_zx_system_get_features.params, p.tag = some PTag.features ∧
      PTag.features ∉ [PTag.handle_use, PTag.handle_release_always,
        PTag.handle_release, PTag.handle_acquire] := by decide

/-- Claim C2 amended: every parameter-level ZX_SYSCALL_PARAM_ATTR tag in the
header is one of exactly seven tags, the four handle-discipline tags use,
release-always, release, acquire plus the three out-parameter marker tags
features, pager and out_pager_vmo, and each of the seven occurs in some
declaration. -/
theorem c2_amended_seven_tags :
    (∀ d ∈ syscalls, ∀ p ∈ d.params, ∀ t ∈ p.tag.toList, t ∈ sevenTags) ∧
    (∀ t ∈ sevenTags, ∃ d ∈ syscalls, ∃ p ∈ d.params, p.tag = some t) := by decide

/-- Claim C3 as stated is false: zx_cprng_draw is declared in the header with
return type void yet carries no __NO_RETURN attribute. -/
theorem c3_counterexample :
    d_zx_cprng_draw ∈ syscalls ∧ d_zx_cprng_draw.ret = CType.void ∧
      FnAttr.no_return ∉ d_zx_cprng_draw.attrs := by decide

/-- Claim C3 amended: every declared return type is a status code
(zx_status_t), a raw scalar (zx_time_t, zx_ticks_t, uint32_t, uint64_t) or
void; every __NO_RETURN declaration returns void; and void occurs only on the
__NO_RETURN-annotated terminating calls and on the pair
zx_cprng_draw/_zx_cprng_draw, which returns no value without being annotated
__NO_RETURN. -/
theorem c3_amended_return_types :
    ∀ d ∈ syscalls,
      d.ret ∈ [CType.zx_status_t, CType.zx_time_t, CType.zx_ticks_t,
        CType.uint32_t, CType.uint64_t, CType.void] ∧
      (FnAttr.no_return ∈ d.attrs → d.ret = CType.void) ∧
      (d.ret = CType.void →
        FnAttr.no_return ∈ d.attrs ∨ d.name = "zx_cprng_draw" ∨
          d.name = "_zx_cprng_draw") := by decide

/-- Witness for the amended C3 at zx_thread_exit. -/
theorem c3_amended_return_types_witness :
    d_zx_thread_exit.ret ∈ [CType.zx_status_t, CType.zx_time_t, CType.zx_ticks_t,
        CType.uint32_t, CType.uint64_t, CType.void] ∧
      (FnAttr.no_return ∈ d_zx_thread_exit.attrs → d_zx_thread_exit.ret = CType.void) ∧
      (d_zx_thread_exit.ret = CType.void →
        FnAttr.no_return ∈ d_zx_thread_exit.attrs ∨ d_zx_thread_exit.name = "zx_cprng_draw" ∨
          d_zx_thread_exit.name = "_zx_cprng_draw") :=
  c3_amended_return_types d_zx_thread_exit (by decide)

/-- Claim C6: every parameter tagged handle_use, handle_release or
handle_release_always has the by-value scalar type zx_handle_t, and every
parameter tagged handle_acquire has the out-pointer type zx_handle_t*. -/
theorem c6_handle_passing :
    ∀ d ∈ syscalls, ∀ p ∈ d.params,
      ((p.tag = some PTag.handle_use ∨ p.tag = some PTag.handle_release ∨
          p.tag = some PTag.handle_release_always) → p.ty = CType.zx_handle_t) ∧
      (p.tag = some PTag.handle_acquire → p.ty = CType.zx_handle_t_ptr) := by decide

/-- Witness for C6 at the handle parameter of zx_handle_close. -/
theorem c6_handle_passing_witness :
    (⟨some PTag.handle_release_always, CType.zx_handle_t, "handle"⟩ : CParam).ty =
      CType.zx_handle_t :=
  (c6_handle_passing d_zx_handle_close (by decide)
      ⟨some PTag.handle_release_always, CType.zx_handle_t, "handle"⟩ (by decide)).1
    (Or.inr (Or.inr rfl))

/-- Claim C7: every index listed in a __NONNULL attribute of a declaration is
within the declaration's parameter count, and the (1-based) parameter it
designates has pointer type. -/
theorem c7_nonnull_indices :
    ∀ d ∈ syscalls, ∀ i ∈ d.nonnullIdxs,
      1 ≤ i ∧ i ≤ d.params.length ∧
        (d.params.get? (i - 1)).map (fun p => p.ty.isPtr) = some true := by decide

/-- Witness for C7 at index 2 of zx_clock_get_new. -/
theorem c7_nonnull_indices_witness :
    1 ≤ 2 ∧ 2 ≤ d_zx_clock_get_new.params.length ∧
      (d_zx_clock_get_new.params.get? (2 - 1)).map (fun p => p.ty.isPtr) = some true :=
  c7_nonnull_indices d_zx_clock_get_new (by decide) 2 (by decide)

/-- Claim C9: every declaration carries __LEAF_FN, and __CONST occurs only on
the three parameterless raw-scalar-returning entries zx_ticks_per_second,
zx_system_get_dcache_line_size and zx_system_get_num_cpus and their private
variants. -/
theorem c9_fn_attributes :
    ∀ d ∈ syscalls,
      FnAttr.leaf_fn ∈ d.attrs ∧
      (FnAttr.const_fn ∈ d.attrs →
        d.params = [] ∧ d.ret ∈ [CType.zx_ticks_t, CType.uint32_t] ∧
        d.name ∈ ["zx_ticks_per_second", "_zx_ticks_per_second",
          "zx_system_get_dcache_line_size", "_zx_system_get_dcache_line_size",
          "zx_system_get_num_cpus", "_zx_system_get_num_cpus"]) := by decide

/-- Witness for C9 at zx_ticks_per_second. -/
theorem c9_fn_attributes_witness :
    FnAttr.leaf_fn ∈ d_zx_ticks_per_second.attrs ∧
      (FnAttr.const_fn ∈ d_zx_ticks_per_second.attrs →
        d_zx_ticks_per_second.params = [] ∧
        d_zx_ticks_per_second.ret ∈ [CType.zx_ticks_t, CType.uint32_t] ∧
        d_zx_ticks_per_second.name ∈ ["zx_ticks_per_second", "_zx_ticks_per_second",
          "zx_system_get_dcache_line_size", "_zx_system_get_dcache_line_size",
          "zx_system_get_num_cpus", "_zx_system_get_num_cpus"]) :=
  c9_fn_attributes d_zx_ticks_per_second (by decide)
